import Mathlib

/-!
# G-code encoder of MOSTMetalCura: `src/gcodeExport.cpp`, `src/gcodeExport.h`

A shallow embedding of the class `cura::GCodeExport`.

* C++ `int` is `Int`.  Signed overflow is undefined behaviour in C++ and is
  outside the model.
* C++ `double` and `float` are `ℚ`: arithmetic is exact, there is no rounding,
  no NaN and no infinity (the one place where the code divides by a value that
  can be zero, the BFB feed-rate correction, is modelled explicitly).
* The C arrays indexed by extruder are total functions `Int → α`; an index
  outside `0 .. MAX_EXTRUDERS - 1` is undefined behaviour in C++.
* `std::deque<double>` is `List ℚ` with the front at the head.
* The text written to `*output_stream` is a field of the state, a list of
  tokens, one per `<<` operand, in the order written.
* `std::deque::back()` on an empty deque is undefined: `writeRetraction`
  returns `none` there.
-/

set_option linter.dupNamespace false

namespace cura

/-! ## Declarations from headers outside `src/` -/

/-- Modelled from the spec: the closed enumeration of flavors (`EGCodeFlavor`,
declared in settings.h), with the enumerator names gcodeExport.cpp uses. -/
inductive EGCodeFlavor where
  | GCODE_FLAVOR_REPRAP
  | GCODE_FLAVOR_ULTIGCODE
  | GCODE_FLAVOR_MAKERBOT
  | GCODE_FLAVOR_BFB
  | GCODE_FLAVOR_MACH3
  | GCODE_FLAVOR_REPRAP_VOLUMATRIC
  deriving DecidableEq, Repr

open EGCodeFlavor

/-- Modelled from the spec: the integer 2D point type (`Point`, utils/intpoint.h),
with members `X` and `Y`. -/
structure Point where
  X : Int
  Y : Int
  deriving DecidableEq, Repr

/-- Modelled from the spec: the integer 3D point type (`Point3`, utils/intpoint.h),
coordinates in micrometres. -/
structure Point3 where
  x : Int
  y : Int
  z : Int
  deriving DecidableEq, Repr

/-- Modelled from the spec: subtraction of 3D points (`Point3::operator-`). -/
instance : Sub Point3 := ⟨fun a b => ⟨a.x - b.x, a.y - b.y, a.z - b.z⟩⟩

/-- Modelled from the spec: the `INT2MM` macro, integer micrometres to
millimetres ("converted to millimeters"). -/
def INT2MM (n : ℚ) : ℚ := n / 1000

/-- The constant `INT32_MIN` of stdint.h. -/
def INT32_MIN : Int := -2147483648

/-- The constant `M_PI` of math.h: the `double` nearest to π, which is the
dyadic rational `884279719003555 / 2^48`. -/
def M_PI : ℚ := 884279719003555 / 281474976710656

/-- What gcodeExport.cpp uses from headers that are not under `src/`, taken as
parameters: the array bound `MAX_EXTRUDERS` (settings.h) and the Euclidean
length in millimetres `Point3::vSizeMM` (utils/intpoint.h), a square root and
so not a rational function. -/
structure Headers where
  MAX_EXTRUDERS : Nat
  vSizeMM : Point3 → ℚ

/-- Modelled from the spec: `Point3::vSizeMM` restricted to what ℚ can express:
the integer square root of the squared length in micrometres, divided by 1000.
It is the true length whenever the squared length is a perfect square (every
axis-parallel segment); used for concrete inputs only. -/
def vSizeMMIsqrt (p : Point3) : ℚ :=
  (Nat.sqrt (p.x * p.x + p.y * p.y + p.z * p.z).toNat : ℚ) / 1000

/-- A concrete instance of the external declarations: 16 extruder slots and
the integer-square-root length. -/
def Headers.std : Headers := ⟨16, vSizeMMIsqrt⟩

/-- The C++ conversion `int(v)` of a floating value: truncation toward zero. -/
def toInt (v : ℚ) : Int := if v < 0 then -⌊-v⌋ else ⌊v⌋

/-- The C function `roundf`: nearest integer, halfway cases away from zero. -/
def roundf (v : ℚ) : ℚ := if v < 0 then -(⌊-v + 1 / 2⌋ : ℚ) else (⌊v + 1 / 2⌋ : ℚ)

/-- Rounding to the nearest integer, ties to the even one. -/
def roundHalfEven (q : ℚ) : Int :=
  if q - ⌊q⌋ < 1 / 2 then ⌊q⌋
  else if 1 / 2 < q - ⌊q⌋ then ⌊q⌋ + 1
  else if ⌊q⌋ % 2 = 0 then ⌊q⌋ else ⌊q⌋ + 1

/-- The IEEE 754 binary64 number nearest to `v` (53-bit significand, round to
nearest, ties to even): what an operation on `double` stores of its exact
result `v`. The exponent range is not modelled (no overflow, no subnormal
numbers). -/
def binary64 (v : ℚ) : ℚ :=
  if v = 0 then 0
  else roundHalfEven (v / 2 ^ (Int.log 2 |v| - 52)) * 2 ^ (Int.log 2 |v| - 52)

/-- The conversion `INT2MM` in double arithmetic, for an operand that is an
`int` or a `double`: the division by 1000 is rounded. -/
def INT2MM_binary64 (n : ℚ) : ℚ := binary64 (n / 1000)

/-! ## The output stream -/

/-- One operand of `<<` on the output stream. -/
inductive Tok where
  /-- a string literal of gcodeExport.cpp -/
  | lit (s : String)
  /-- text supplied by the caller (custom switch code, welder code, `writeCode`) -/
  | text (s : String)
  /-- a `char` -/
  | chr (c : Char)
  /-- an `int` -/
  | int (n : Int)
  /-- a `double` or `float` written after `std::setprecision(prec)` -/
  | real (prec : Nat) (v : ℚ)
  /-- an infinite `float` (the BFB feed rate after a division by zero) -/
  | inf (negative : Bool)
  deriving DecidableEq

/-- Whether a token opens a tool-select instruction of the encoder: the literal
`T` of the generic form or `M135 T` of the Makerbot form. Text supplied by the
caller is a different token and is not inspected. -/
def Tok.isToolSelect : Tok → Bool
  | .lit s => s = "T" || s = "M135 T"
  | _ => false

/-- Whether a token is text supplied by the caller. -/
def Tok.isText : Tok → Bool
  | .text _ => true
  | _ => false

/-- Decimal digits of a natural number, most significant first. -/
def digits (n : Nat) : List Char := Nat.toDigits 10 n

/-- The value of `v * 10 ^ prec` rounded to the nearest integer in absolute
value, halfway cases to even: what `printf("%.*f")` prints as digits. -/
def roundedScaled (prec : Nat) (v : ℚ) : Nat :=
  let a := |v| * 10 ^ prec
  let q := ⌊a⌋₊
  let r := a - q
  if r < 1 / 2 then q else if 1 / 2 < r then q + 1 else if q % 2 = 0 then q else q + 1

/-- A floating value on a `std::fixed` stream with `std::setprecision(prec)`:
sign, integer part, and `prec` decimals. `setOutputStream` puts the stream it
installs in `std::fixed`, and every floating operand in gcodeExport.cpp is
written with the precision of the `std::setprecision` before it. -/
def fmtFixed (prec : Nat) (v : ℚ) : String :=
  let n := roundedScaled prec v
  let fp := digits (n % 10 ^ prec)
  (if v < 0 then "-" else "") ++ String.mk (digits (n / 10 ^ prec))
    ++ (if prec = 0 then "" else "." ++ String.mk (List.replicate (prec - fp.length) '0' ++ fp))

/-- The characters one token puts on a `std::fixed` stream. -/
def Tok.render : Tok → String
  | .lit s => s
  | .text s => s
  | .chr c => String.singleton c
  | .int n => toString n
  | .real prec v => fmtFixed prec v
  | .inf negative => if negative then "-inf" else "inf"

/-- The characters a token list puts on a `std::fixed` stream. -/
def render (ts : List Tok) : String := String.join (ts.map Tok.render)

/-! ## The time estimator (external collaborator) -/

/-- Modelled from the spec: `TimeEstimateCalculator::Position(x, y, z, e)`. -/
structure Position where
  x : ℚ
  y : ℚ
  z : ℚ
  e : ℚ
  deriving DecidableEq

/-- Modelled from the spec: the time estimator "accepts `plan(position,
extrusion, speed)` samples"; only the samples it was fed are recorded, oldest
first, each with its feed rate. -/
abbrev TimeEstimateCalculator := List (Position × ℚ)

/-! ## gcodeExport.h -/

/-- The class `RetractionConfig`. -/
structure RetractionConfig where
  amount : ℚ
  speed : Int
  primeSpeed : Int
  primeAmount : ℚ
  zHop : Int

/-- The data members of the class `GCodeExport`; `output_stream` holds what has
been written to the stream. -/
structure GCodeExport where
  output_stream : List Tok
  extrusion_amount : ℚ
  extruderSwitchRetraction : ℚ
  extruderSwitchRetractionSpeed : Int
  extruderSwitchPrimeSpeed : Int
  retraction_extrusion_window : ℚ
  retraction_count_max : Int
  extrusion_amount_at_previous_n_retractions : List ℚ
  currentPosition : Point3
  startPosition : Point3
  extruderOffset : Int → Point
  extruderCharacter : Int → Char
  currentTemperature : Int → Int
  currentSpeed : Int
  zPos : Int
  isRetracted : Bool
  isZHopped : Bool
  retractionPrimeSpeed : Int
  current_extruder : Int
  currentFanSpeed : Int
  flavor : EGCodeFlavor
  preSwitchExtruderCode : Int → String
  postSwitchExtruderCode : Int → String
  totalFilament : Int → ℚ
  filament_diameter : Int → ℚ
  totalPrintTime : ℚ
  estimateCalculator : TimeEstimateCalculator
  is_volumatric : Bool
  welder_on : String
  welder_off : String
  min_dist_welder_off : ℚ
  isWelding : Bool
  isMetalPrinting : Bool

namespace GCodeExport

/-- Writing the operands `ts` to `*output_stream`. -/
def emit (s : GCodeExport) (ts : List Tok) : GCodeExport :=
  { s with output_stream := s.output_stream ++ ts }

/-- The call `estimateCalculator.plan(Position(x, y, z, e), feedrate)` with the
current position and the extrusion value `e`. -/
def plan (s : GCodeExport) (e feedrate : ℚ) : GCodeExport :=
  { s with estimateCalculator := s.estimateCalculator ++
      [(⟨INT2MM s.currentPosition.x, INT2MM s.currentPosition.y, INT2MM s.currentPosition.z, e⟩,
        feedrate)] }

/-- A loop `for (n = 0; n < bound; n++) a[n] = v(n)` over a C array. -/
def fill {α : Type} (bound : Nat) (v : Int → α) (a : Int → α) (n : Int) : α :=
  if 0 ≤ n ∧ n < (bound : Int) then v n else a n

/-- The method `GCodeExport::setFlavor`. -/
def setFlavor (H : Headers) (s : GCodeExport) (flavor : EGCodeFlavor) : GCodeExport :=
  { s with
    flavor := flavor
    extruderCharacter :=
      if flavor = GCODE_FLAVOR_MACH3 then
        fill H.MAX_EXTRUDERS (fun n => Char.ofNat (65 + n.toNat)) s.extruderCharacter
      else
        fill H.MAX_EXTRUDERS (fun _ => 'E') s.extruderCharacter
    is_volumatric :=
      if flavor = GCODE_FLAVOR_ULTIGCODE ∨ flavor = GCODE_FLAVOR_REPRAP_VOLUMATRIC then true
      else false }

/-- The constructor `GCodeExport::GCodeExport`. The members it does not
initialise (`retraction_count_max`, `extruderSwitchRetractionSpeed`,
`extruderSwitchPrimeSpeed`, `zPos`, `min_dist_welder_off`, `isWelding`,
`isMetalPrinting`, array entries past `MAX_EXTRUDERS`) keep the indeterminate
values of `mem`; strings, the deque and the estimator are default-constructed
empty, and nothing has been written to the stream. -/
def GCodeExport (H : Headers) (mem : cura.GCodeExport) : cura.GCodeExport :=
  setFlavor H
    { mem with
      output_stream := []
      currentPosition := ⟨0, 0, 0⟩
      startPosition := ⟨INT32_MIN, INT32_MIN, 0⟩
      extrusion_amount := 0
      retraction_extrusion_window := 0
      extruderSwitchRetraction := 145 / 10
      current_extruder := 0
      currentFanSpeed := -1
      totalPrintTime := 0
      totalFilament := fill H.MAX_EXTRUDERS (fun _ => 0) mem.totalFilament
      currentTemperature := fill H.MAX_EXTRUDERS (fun _ => 0) mem.currentTemperature
      filament_diameter := fill H.MAX_EXTRUDERS (fun _ => 0) mem.filament_diameter
      currentSpeed := 1
      retractionPrimeSpeed := 1
      isRetracted := false
      isZHopped := false
      extruderOffset := fill H.MAX_EXTRUDERS (fun _ => ⟨0, 0⟩) mem.extruderOffset
      extrusion_amount_at_previous_n_retractions := []
      estimateCalculator := []
      preSwitchExtruderCode := fun _ => ""
      postSwitchExtruderCode := fun _ => ""
      welder_on := ""
      welder_off := "" }
    GCODE_FLAVOR_REPRAP

/-- The method `GCodeExport::setExtruderOffset`. -/
def setExtruderOffset (s : cura.GCodeExport) (id : Int) (p : Point) : cura.GCodeExport :=
  { s with extruderOffset := Function.update s.extruderOffset id p }

/-- The method `GCodeExport::setSwitchExtruderCode`. -/
def setSwitchExtruderCode (s : cura.GCodeExport) (id : Int)
    (preSwitchExtruderCode postSwitchExtruderCode : String) : cura.GCodeExport :=
  { s with
    preSwitchExtruderCode := Function.update s.preSwitchExtruderCode id preSwitchExtruderCode
    postSwitchExtruderCode := Function.update s.postSwitchExtruderCode id postSwitchExtruderCode }

/-- The method `GCodeExport::setRetractionSettings`. -/
def setRetractionSettings (s : cura.GCodeExport) (extruderSwitchRetraction
    extruderSwitchRetractionSpeed extruderSwitchPrimeSpeed retraction_extrusion_window
    retraction_count_max : Int) : cura.GCodeExport :=
  { s with
    extruderSwitchRetraction := INT2MM extruderSwitchRetraction
    extruderSwitchRetractionSpeed := extruderSwitchRetractionSpeed
    extruderSwitchPrimeSpeed := extruderSwitchPrimeSpeed
    retraction_extrusion_window := INT2MM retraction_extrusion_window
    retraction_count_max := retraction_count_max }

/-- The method `GCodeExport::setZ`. -/
def setZ (s : cura.GCodeExport) (z : Int) : cura.GCodeExport := { s with zPos := z }

/-- The method `GCodeExport::getPosition`. -/
def getPosition (s : cura.GCodeExport) : Point3 := s.currentPosition

/-- The method `GCodeExport::getPositionZ`. -/
def getPositionZ (s : cura.GCodeExport) : Int := s.currentPosition.z

/-- The method `GCodeExport::getExtruderNr`. -/
def getExtruderNr (s : cura.GCodeExport) : Int := s.current_extruder

/-- The method `GCodeExport::getFilamentArea`. -/
def getFilamentArea (s : cura.GCodeExport) (extruder : Int) : ℚ :=
  let r := INT2MM (s.filament_diameter extruder) / 2
  M_PI * r * r

/-- The method `GCodeExport::setFilamentDiameter`. -/
def setFilamentDiameter (s : cura.GCodeExport) (n : Int) (diameter : Int) : cura.GCodeExport :=
  { s with filament_diameter := Function.update s.filament_diameter n diameter }

/-- The method `GCodeExport::getExtrusionAmountMM3`. -/
def getExtrusionAmountMM3 (s : cura.GCodeExport) (extruder : Int) : ℚ :=
  if s.is_volumatric then s.extrusion_amount
  else s.extrusion_amount * s.getFilamentArea extruder

/-- The method `GCodeExport::getTotalFilamentUsed`. -/
def getTotalFilamentUsed (s : cura.GCodeExport) (e : Int) : ℚ :=
  if e = s.current_extruder then s.totalFilament e + s.getExtrusionAmountMM3 e
  else s.totalFilament e

/-- The method `GCodeExport::setWelderOn`. -/
def setWelderOn (s : cura.GCodeExport) (welder_on_gcode : String) : cura.GCodeExport :=
  { s with welder_on := welder_on_gcode }

/-- The method `GCodeExport::setWelderOff`. -/
def setWelderOff (s : cura.GCodeExport) (welder_off_gcode : String) : cura.GCodeExport :=
  { s with welder_off := welder_off_gcode }

/-- The method `GCodeExport::setMinDistWelderOff`. -/
def setMinDistWelderOff (s : cura.GCodeExport) (machine_min_dist_welder_off : ℚ) :
    cura.GCodeExport :=
  { s with min_dist_welder_off := machine_min_dist_welder_off }

/-- The method `GCodeExport::setIsMetalPrinting`. -/
def setIsMetalPrinting (s : cura.GCodeExport) (machine_metal_printing : Bool) :
    cura.GCodeExport :=
  { s with isMetalPrinting := machine_metal_printing }

/-- The method `GCodeExport::setIsWelding`. -/
def setIsWelding (s : cura.GCodeExport) (is_welding : Bool) : cura.GCodeExport :=
  { s with isWelding := is_welding }

/-- The method `GCodeExport::getFlavor`. -/
def getFlavor (s : cura.GCodeExport) : EGCodeFlavor := s.flavor

/-- The method `GCodeExport::getPositionXY`. -/
def getPositionXY (s : cura.GCodeExport) : Point := ⟨s.currentPosition.x, s.currentPosition.y⟩

/-- The method `GCodeExport::resetStartPosition`. -/
def resetStartPosition (s : cura.GCodeExport) : cura.GCodeExport :=
  { s with startPosition := { s.startPosition with x := INT32_MIN, y := INT32_MIN } }

/-- The method `GCodeExport::getStartPositionXY`. -/
def getStartPositionXY (s : cura.GCodeExport) : Point := ⟨s.startPosition.x, s.startPosition.y⟩

/-- The method `GCodeExport::getTotalPrintTime`. -/
def getTotalPrintTime (s : cura.GCodeExport) : ℚ := s.totalPrintTime

/-- The method `GCodeExport::resetTotalPrintTimeAndFilament`; the estimator's
`reset()` drops the recorded samples. -/
def resetTotalPrintTimeAndFilament (H : Headers) (s : cura.GCodeExport) : cura.GCodeExport :=
  { s with
    totalPrintTime := 0
    totalFilament := fill H.MAX_EXTRUDERS (fun _ => 0) s.totalFilament
    currentTemperature := fill H.MAX_EXTRUDERS (fun _ => 0) s.currentTemperature
    extrusion_amount := 0
    estimateCalculator := [] }

/-- The method `GCodeExport::writeComment`. -/
def writeComment (s : cura.GCodeExport) (comment : String) : cura.GCodeExport :=
  s.emit [.lit ";", .text comment, .lit "\n"]

/-- The method `GCodeExport::writeTypeComment`. -/
def writeTypeComment (s : cura.GCodeExport) (type : String) : cura.GCodeExport :=
  s.emit [.lit ";TYPE:", .text type, .lit "\n"]

/-- The method `GCodeExport::writeLayerComment`. -/
def writeLayerComment (s : cura.GCodeExport) (layer_nr : Int) : cura.GCodeExport :=
  s.emit [.lit ";LAYER:", .int layer_nr, .lit "\n"]

/-- The method `GCodeExport::writeLine`. -/
def writeLine (s : cura.GCodeExport) (line : String) : cura.GCodeExport :=
  s.emit [.text line, .lit "\n"]

/-- The method `GCodeExport::resetExtrusionValue`. -/
def resetExtrusionValue (s : cura.GCodeExport) : cura.GCodeExport :=
  if s.extrusion_amount ≠ 0 ∧ s.flavor ≠ GCODE_FLAVOR_MAKERBOT ∧ s.flavor ≠ GCODE_FLAVOR_BFB then
    { s with
      output_stream := s.output_stream ++
        [.lit "G92 ", .chr (s.extruderCharacter s.current_extruder), .lit "0\n"]
      totalFilament := Function.update s.totalFilament s.current_extruder
        (s.totalFilament s.current_extruder + s.getExtrusionAmountMM3 s.current_extruder)
      extrusion_amount_at_previous_n_retractions :=
        s.extrusion_amount_at_previous_n_retractions.map (fun a => a - s.extrusion_amount)
      extrusion_amount := 0 }
  else s

/-- The method `GCodeExport::writeCode`. -/
def writeCode (s : cura.GCodeExport) (str : String) : cura.GCodeExport :=
  if s.flavor = GCODE_FLAVOR_BFB then s.emit [.text str, .lit "\r\n"]
  else s.emit [.text str, .lit "\n"]

/-- The method `GCodeExport::writeDelay`. -/
def writeDelay (s : cura.GCodeExport) (timeAmount : ℚ) : cura.GCodeExport :=
  { (s.emit [.lit "G4 P", .int (toInt (timeAmount * 1000)), .lit "\n"]) with
    totalPrintTime := s.totalPrintTime + timeAmount }

/-- The per-millimetre extrusion of a move in the unit of the flavor (lines
237-241 of `writeMove`): the requested volume per millimetre for a volumetric
flavor, divided by the filament area of the active extruder otherwise. -/
def extrusion_per_mm (s : cura.GCodeExport) (extrusion_mm3_per_mm : ℚ) : ℚ :=
  if !s.is_volumatric then extrusion_mm3_per_mm / s.getFilamentArea s.current_extruder
  else extrusion_mm3_per_mm

/-- The RPM of a BFB move (lines 247-249): `extrusion_per_mm * speed * 60`
divided by the 4 mm per revolution of the machine family. -/
def BFB_rpm (speed : Int) (extrusion_per_mm : ℚ) : ℚ := extrusion_per_mm * speed * 60 / 4

/-- The feed rate of an extruding BFB move as written (line 267):
`speed * 60` times `rpm / (roundf(rpm * 100) / 100)`, infinite when the
rounded RPM is zero. -/
def BFB_fspeed (speed : Int) (rpm : ℚ) : Tok :=
  if roundf (rpm * 100) = 0 then .inf (decide ((speed * 60 : ℚ) < 0))
  else .real 1 ((speed * 60 : ℚ) * (rpm / (roundf (rpm * 100) / 100)))

/-- The coordinate line of a BFB move (line 281) with the feed-rate operand
`fspeed`. -/
def BFB_line (s : cura.GCodeExport) (x y z : Int) (fspeed : Tok) : List Tok :=
  [.lit "G1 X", .real 3 (INT2MM (x - (s.extruderOffset s.current_extruder).X)),
    .lit " Y", .real 3 (INT2MM (y - (s.extruderOffset s.current_extruder).Y)),
    .lit " Z", .real 3 (INT2MM z), .lit " F", fspeed, .lit "\r\n"]

/-- The BFB branch of `writeMove` (lines 245-281): RPM-based extrusion. -/
def writeMove_BFB (H : Headers) (s : cura.GCodeExport) (x y z speed : Int)
    (extrusion_per_mm : ℚ) : cura.GCodeExport :=
  let fspeed : ℚ := speed * 60
  let rpm : ℚ := BFB_rpm speed extrusion_per_mm
  if 0 < rpm then
    let s1 :=
      if s.isRetracted then
        let s2 :=
          if s.currentSpeed ≠ toInt (rpm * 10) then
            { (s.emit [.lit "M108 S", .real 1 rpm, .lit "\r\n"]) with
              currentSpeed := toInt (rpm * 10) }
          else s
        { (s2.emit [.lit "M", .int ((s2.current_extruder + 1) * 100 + 1), .lit "\r\n"]) with
          isRetracted := false }
      else s
    let diff : Point3 := ⟨x, y, z⟩ - s1.getPosition
    let s3 := { s1 with extrusion_amount := s1.extrusion_amount + extrusion_per_mm * H.vSizeMM diff }
    s3.emit (s3.BFB_line x y z (BFB_fspeed speed rpm))
  else
    let s1 :=
      if !s.isRetracted then { (s.emit [.lit "M103\r\n"]) with isRetracted := true }
      else s
    s1.emit (s1.BFB_line x y z (.real 1 fspeed))

/-- The un-retract step of an extruding move (lines 296-311 of `writeMove`),
entered when `isRetracted` holds. -/
def writeMove_prime (s : cura.GCodeExport) : cura.GCodeExport :=
  let s1 :=
    if s.flavor = GCODE_FLAVOR_ULTIGCODE ∨ s.flavor = GCODE_FLAVOR_REPRAP_VOLUMATRIC then
      (s.emit [.lit "G11\n"]).plan s.extrusion_amount 25
    else
      let s2 := { (s.emit [.lit "G1 F", .int (s.retractionPrimeSpeed * 60), .lit " ",
          .chr (s.extruderCharacter s.current_extruder), .real 5 s.extrusion_amount,
          .lit "\n"]) with currentSpeed := s.retractionPrimeSpeed }
      s2.plan s2.extrusion_amount s2.currentSpeed
  let s3 :=
    if 10000 < s1.getExtrusionAmountMM3 s1.current_extruder then s1.resetExtrusionValue else s1
  { s3 with isRetracted := false }

/-- The extruding case of the non-BFB branch of `writeMove` (lines 288-324),
up to and including the instruction code `G1`. -/
def writeMove_extrude (H : Headers) (s : cura.GCodeExport) (diff : Point3)
    (extrusion_per_mm : ℚ) : cura.GCodeExport :=
  let s1 :=
    if s.isZHopped then
      { (s.emit [.lit "G1 Z", .real 3 (INT2MM s.currentPosition.z), .lit "\n"]) with
        isZHopped := false }
    else s
  let s2 := if s1.isRetracted then s1.writeMove_prime else s1
  let s3 :=
    if s2.isMetalPrinting then
      if !s2.isWelding then { s2 with isWelding := true }.emit [.text s2.welder_on] else s2
    else s2
  let s4 := { s3 with extrusion_amount := s3.extrusion_amount + extrusion_per_mm * H.vSizeMM diff }
  s4.emit [.lit "G1"]

/-- The travel case of the non-BFB branch of `writeMove` (lines 326-338), up to
and including the instruction code `G0`. -/
def writeMove_travel (H : Headers) (s : cura.GCodeExport) (diff : Point3) : cura.GCodeExport :=
  let s1 :=
    if s.isMetalPrinting then
      if s.isWelding ∧ s.min_dist_welder_off < H.vSizeMM diff then
        { s with isWelding := false }.emit [.text s.welder_off]
      else s
    else s
  s1.emit [.lit "G0"]

/-- The non-BFB branch of `writeMove` (lines 283-355): position-based extrusion. -/
def writeMove_E (H : Headers) (s : cura.GCodeExport) (x y z speed : Int)
    (extrusion_mm3_per_mm extrusion_per_mm : ℚ) : cura.GCodeExport :=
  let diff : Point3 := ⟨x, y, z⟩ - s.getPosition
  let s1 :=
    if 1 / 1000000 < extrusion_mm3_per_mm then s.writeMove_extrude H diff extrusion_per_mm
    else s.writeMove_travel H diff
  let s2 :=
    if s1.currentSpeed ≠ speed then
      { (s1.emit [.lit " F", .int (speed * 60)]) with currentSpeed := speed }
    else s1
  let s3 := s2.emit [.lit " X", .real 3 (INT2MM (x - (s2.extruderOffset s2.current_extruder).X)),
    .lit " Y", .real 3 (INT2MM (y - (s2.extruderOffset s2.current_extruder).Y))]
  let s4 := if z ≠ s3.currentPosition.z then s3.emit [.lit " Z", .real 3 (INT2MM z)] else s3
  let s5 :=
    if !s4.isMetalPrinting then
      if 1 / 1000000 < extrusion_mm3_per_mm then
        s4.emit [.lit " ", .chr (s4.extruderCharacter s4.current_extruder),
          .real 5 s4.extrusion_amount]
      else s4
    else s4
  s5.emit [.lit "\n"]

/-- The method `GCodeExport::writeMove(int x, int y, int z, int speed, double
extrusion_mm3_per_mm)`, which the two public overloads call. -/
def writeMove (H : Headers) (s : cura.GCodeExport) (x y z speed : Int)
    (extrusion_mm3_per_mm : ℚ) : cura.GCodeExport :=
  if s.currentPosition.x = x ∧ s.currentPosition.y = y ∧ s.currentPosition.z = z then s
  else
    let extrusion_per_mm := s.extrusion_per_mm extrusion_mm3_per_mm
    let s1 :=
      if s.flavor = GCODE_FLAVOR_BFB then s.writeMove_BFB H x y z speed extrusion_per_mm
      else s.writeMove_E H x y z speed extrusion_mm3_per_mm extrusion_per_mm
    let s2 := { s1 with currentPosition := ⟨x, y, z⟩, startPosition := ⟨x, y, z⟩ }
    s2.plan s2.extrusion_amount speed

/-- The public overload `GCodeExport::writeMove(Point p, ...)`: the Z
coordinate is the pending `zPos`. -/
def writeMovePoint (H : Headers) (s : cura.GCodeExport) (p : Point) (speed : Int)
    (extrusion_mm3_per_mm : ℚ) : cura.GCodeExport :=
  s.writeMove H p.X p.Y s.zPos speed extrusion_mm3_per_mm

/-- The part of `writeRetraction` after the guards (lines 376-401): the
retraction is carried out. -/
def writeRetraction_proceed (s : cura.GCodeExport) (config : RetractionConfig) :
    cura.GCodeExport :=
  let s1 :=
    if 0 < config.primeAmount then
      { s with extrusion_amount := s.extrusion_amount + config.primeAmount }
    else s
  let s2 := { s1 with retractionPrimeSpeed := config.primeSpeed }
  let s3 :=
    if s2.flavor = GCODE_FLAVOR_ULTIGCODE ∨ s2.flavor = GCODE_FLAVOR_REPRAP_VOLUMATRIC then
      (s2.emit [.lit "G10\n"]).plan (s2.extrusion_amount - 45 / 10) 25
    else
      let s4 := { (s2.emit [.lit "G1 F", .int (config.speed * 60), .lit " ",
          .chr (s2.extruderCharacter s2.current_extruder),
          .real 5 (s2.extrusion_amount - config.amount), .lit "\n"]) with
        currentSpeed := config.speed }
      s4.plan (s4.extrusion_amount - config.amount) s4.currentSpeed
  let s5 :=
    if 0 < config.zHop then
      { (s3.emit [.lit "G1 Z", .real 3 (INT2MM (s3.currentPosition.z + config.zHop)),
          .lit "\n"]) with isZHopped := true }
    else s3
  let pushed := s5.extrusion_amount :: s5.extrusion_amount_at_previous_n_retractions
  let s6 := { s5 with
    extrusion_amount_at_previous_n_retractions :=
      if (pushed.length : Int) = s5.retraction_count_max then pushed.dropLast else pushed }
  { s6 with isRetracted := true }

/-- The method `GCodeExport::writeRetraction`. The result is `none` where the
window test reads `back()` of an empty deque, which is undefined in C++. -/
def writeRetraction (s : cura.GCodeExport) (config : RetractionConfig) (force : Bool) :
    Option cura.GCodeExport :=
  if s.flavor = GCODE_FLAVOR_BFB then some s
  else if s.isRetracted then some s
  else if config.amount ≤ 0 then some s
  else if !force ∧ 0 < s.retraction_count_max ∧
      (s.extrusion_amount_at_previous_n_retractions.length : Int) = s.retraction_count_max - 1 then
    match s.extrusion_amount_at_previous_n_retractions.getLast? with
    | none => none
    | some back =>
      if s.extrusion_amount < back + s.retraction_extrusion_window then some s
      else some (s.writeRetraction_proceed config)
  else some (s.writeRetraction_proceed config)

/-- The BFB branch of `switchExtruder` (lines 409-416): the motor is switched
off, no tool is selected. -/
def switchExtruder_BFB (s : cura.GCodeExport) : cura.GCodeExport :=
  let s1 := if !s.isRetracted then s.emit [.lit "M103\r\n"] else s
  { s1 with isRetracted := true }

/-- The switch retraction of `switchExtruder` (lines 419-425). -/
def switchExtruder_retract (s : cura.GCodeExport) : cura.GCodeExport :=
  if s.flavor = GCODE_FLAVOR_ULTIGCODE ∨ s.flavor = GCODE_FLAVOR_REPRAP_VOLUMATRIC then
    s.emit [.lit "G10 S1\n"]
  else
    { (s.emit [.lit "G1 F", .int (s.extruderSwitchRetractionSpeed * 60), .lit " ",
        .chr (s.extruderCharacter s.current_extruder),
        .real 5 (s.extrusion_amount - s.extruderSwitchRetraction), .lit "\n"]) with
      currentSpeed := s.extruderSwitchRetractionSpeed }

/-- The tool selection of `switchExtruder` (lines 431-436): the pre-switch
text, the tool-select instruction and the post-switch text, each indexed by
`current_extruder`. -/
def switchExtruder_select (s : cura.GCodeExport) : cura.GCodeExport :=
  let s1 := s.writeCode (s.preSwitchExtruderCode s.current_extruder)
  let s2 :=
    if s1.flavor = GCODE_FLAVOR_MAKERBOT then
      s1.emit [.lit "M135 T", .int s1.current_extruder, .lit "\n"]
    else s1.emit [.lit "T", .int s1.current_extruder, .lit "\n"]
  s2.writeCode (s2.postSwitchExtruderCode s2.current_extruder)

/-- The method `GCodeExport::switchExtruder`. -/
def switchExtruder (s : cura.GCodeExport) (newExtruder : Int) : cura.GCodeExport :=
  if s.current_extruder = newExtruder then s
  else if s.flavor = GCODE_FLAVOR_BFB then s.switchExtruder_BFB
  else
    let s1 := s.resetExtrusionValue
    let s2 := s1.switchExtruder_retract
    let s3 := { s2 with current_extruder := newExtruder }
    let s4 := if s3.flavor = GCODE_FLAVOR_MACH3 then s3.resetExtrusionValue else s3
    let s5 := { s4 with isRetracted := true }
    let s6 := s5.switchExtruder_select
    { s6 with currentPosition := { s6.currentPosition with z := s6.currentPosition.z + 1 } }

/-- The method `GCodeExport::writeFanCommand`. -/
def writeFanCommand (s : cura.GCodeExport) (speed : Int) : cura.GCodeExport :=
  if s.currentFanSpeed = speed then s
  else
    let s1 :=
      if 0 < speed then
        if s.flavor = GCODE_FLAVOR_MAKERBOT then s.emit [.lit "M126 T0\n"]
        else s.emit [.lit "M106 S", .int ((speed * 255).tdiv 100), .lit "\n"]
      else
        if s.flavor = GCODE_FLAVOR_MAKERBOT then s.emit [.lit "M127 T0\n"]
        else s.emit [.lit "M107\n"]
    { s1 with currentFanSpeed := speed }

/-- The method `GCodeExport::writeTemperatureCommand`. -/
def writeTemperatureCommand (s : cura.GCodeExport) (extruder temperature : Int) (wait : Bool) :
    cura.GCodeExport :=
  if !s.isMetalPrinting then
    if !wait ∧ s.currentTemperature extruder = temperature then s
    else
      let s1 := if wait then s.emit [.lit "M109"] else s.emit [.lit "M104"]
      let s2 := if extruder ≠ s1.current_extruder then s1.emit [.lit " T", .int extruder] else s1
      let s3 := s2.emit [.lit " S", .int temperature, .lit "\n"]
      { s3 with currentTemperature := Function.update s3.currentTemperature extruder temperature }
  else
    { s with currentTemperature := Function.update s.currentTemperature extruder temperature }

/-- The method `GCodeExport::writeBedTemperatureCommand`. -/
def writeBedTemperatureCommand (s : cura.GCodeExport) (temperature : Int) (wait : Bool) :
    cura.GCodeExport :=
  let s1 := if wait then s.emit [.lit "M190 S"] else s.emit [.lit "M140 S"]
  s1.emit [.int temperature, .lit "\n"]

/-! ### The reset and the retraction in double arithmetic

The definitions above compute with exact rationals. The ones below are
`resetExtrusionValue` and `writeRetraction` once more, with the result of
every operation on `double` rounded to binary64. -/

/-- The call `estimateCalculator.plan(Position(x, y, z, e), feedrate)` with the
coordinates converted in double arithmetic. -/
def plan_binary64 (s : cura.GCodeExport) (e feedrate : ℚ) : cura.GCodeExport :=
  { s with estimateCalculator := s.estimateCalculator ++
      [(⟨INT2MM_binary64 s.currentPosition.x, INT2MM_binary64 s.currentPosition.y,
          INT2MM_binary64 s.currentPosition.z, e⟩, feedrate)] }

/-- The method `GCodeExport::getFilamentArea` in double arithmetic. -/
def getFilamentArea_binary64 (s : cura.GCodeExport) (extruder : Int) : ℚ :=
  let r := binary64 (INT2MM_binary64 (s.filament_diameter extruder) / 2)
  binary64 (binary64 (M_PI * r) * r)

/-- The method `GCodeExport::getExtrusionAmountMM3` in double arithmetic. -/
def getExtrusionAmountMM3_binary64 (s : cura.GCodeExport) (extruder : Int) : ℚ :=
  if s.is_volumatric then s.extrusion_amount
  else binary64 (s.extrusion_amount * s.getFilamentArea_binary64 extruder)

/-- The method `GCodeExport::resetExtrusionValue` in double arithmetic. -/
def resetExtrusionValue_binary64 (s : cura.GCodeExport) : cura.GCodeExport :=
  if s.extrusion_amount ≠ 0 ∧ s.flavor ≠ GCODE_FLAVOR_MAKERBOT ∧ s.flavor ≠ GCODE_FLAVOR_BFB then
    { s with
      output_stream := s.output_stream ++
        [.lit "G92 ", .chr (s.extruderCharacter s.current_extruder), .lit "0\n"]
      totalFilament := Function.update s.totalFilament s.current_extruder
        (binary64 (s.totalFilament s.current_extruder
          + s.getExtrusionAmountMM3_binary64 s.current_extruder))
      extrusion_amount_at_previous_n_retractions :=
        s.extrusion_amount_at_previous_n_retractions.map
          (fun a => binary64 (a - s.extrusion_amount))
      extrusion_amount := 0 }
  else s

/-- The part of `writeRetraction` after the guards (lines 376-401) in double
arithmetic. -/
def writeRetraction_proceed_binary64 (s : cura.GCodeExport) (config : RetractionConfig) :
    cura.GCodeExport :=
  let s1 :=
    if 0 < config.primeAmount then
      { s with extrusion_amount := binary64 (s.extrusion_amount + config.primeAmount) }
    else s
  let s2 := { s1 with retractionPrimeSpeed := config.primeSpeed }
  let s3 :=
    if s2.flavor = GCODE_FLAVOR_ULTIGCODE ∨ s2.flavor = GCODE_FLAVOR_REPRAP_VOLUMATRIC then
      (s2.emit [.lit "G10\n"]).plan_binary64 (binary64 (s2.extrusion_amount - 45 / 10)) 25
    else
      let s4 := { (s2.emit [.lit "G1 F", .int (config.speed * 60), .lit " ",
          .chr (s2.extruderCharacter s2.current_extruder),
          .real 5 (binary64 (s2.extrusion_amount - config.amount)), .lit "\n"]) with
        currentSpeed := config.speed }
      s4.plan_binary64 (binary64 (s4.extrusion_amount - config.amount)) s4.currentSpeed
  let s5 :=
    if 0 < config.zHop then
      { (s3.emit [.lit "G1 Z", .real 3 (INT2MM_binary64 ((s3.currentPosition.z + config.zHop : Int) : ℚ)),
          .lit "\n"]) with isZHopped := true }
    else s3
  let pushed := s5.extrusion_amount :: s5.extrusion_amount_at_previous_n_retractions
  let s6 := { s5 with
    extrusion_amount_at_previous_n_retractions :=
      if (pushed.length : Int) = s5.retraction_count_max then pushed.dropLast else pushed }
  { s6 with isRetracted := true }

/-- The method `GCodeExport::writeRetraction` in double arithmetic: the window
test compares `extrusion_amount` with the rounded sum `back() +
retraction_extrusion_window`. The result is `none` where `back()` is read of
an empty deque. -/
def writeRetraction_binary64 (s : cura.GCodeExport) (config : RetractionConfig)
    (force : Bool) : Option cura.GCodeExport :=
  if s.flavor = GCODE_FLAVOR_BFB then some s
  else if s.isRetracted then some s
  else if config.amount ≤ 0 then some s
  else if !force ∧ 0 < s.retraction_count_max ∧
      (s.extrusion_amount_at_previous_n_retractions.length : Int) = s.retraction_count_max - 1 then
    match s.extrusion_amount_at_previous_n_retractions.getLast? with
    | none => none
    | some back =>
      if s.extrusion_amount < binary64 (back + s.retraction_extrusion_window) then some s
      else some (s.writeRetraction_proceed_binary64 config)
  else some (s.writeRetraction_proceed_binary64 config)

end GCodeExport

/-! ## Command sequences -/

/-- One call of the encoder. -/
inductive Command where
  | writeMove (x y z speed : Int) (extrusion_mm3_per_mm : ℚ)
  | writeRetraction (config : RetractionConfig) (force : Bool)
  | switchExtruder (newExtruder : Int)
  | resetExtrusionValue

/-- The state after one call; `none` where the call is undefined. -/
def step (H : Headers) (s : GCodeExport) : Command → Option GCodeExport
  | .writeMove x y z speed e => some (s.writeMove H x y z speed e)
  | .writeRetraction config force => s.writeRetraction config force
  | .switchExtruder newExtruder => some (s.switchExtruder newExtruder)
  | .resetExtrusionValue => some s.resetExtrusionValue

/-- The state after a sequence of calls, issued one at a time. -/
def run (H : Headers) (s : GCodeExport) : List Command → Option GCodeExport
  | [] => some s
  | c :: cs => (step H s c).bind (fun s1 => run H s1 cs)

/-- One move of a sequence: the target, the speed and the requested volume per
millimetre of path. -/
structure Move where
  x : Int
  y : Int
  z : Int
  speed : Int
  extrusion_mm3_per_mm : ℚ

/-- The state after a sequence of `writeMove` calls. -/
def writeMoves (H : Headers) (s : GCodeExport) : List Move → GCodeExport
  | [] => s
  | m :: ms => writeMoves H (s.writeMove H m.x m.y m.z m.speed m.extrusion_mm3_per_mm) ms

/-- The spec's total for a sequence of moves starting at `start`: "the sum of
per-segment `extrusion_per_length × segment_length`", the requested volume per
millimetre times the length of the segment in millimetres. -/
def segmentVolumeSum (H : Headers) (start : Point3) : List Move → ℚ
  | [] => 0
  | m :: ms => m.extrusion_mm3_per_mm * H.vSizeMM (⟨m.x, m.y, m.z⟩ - start)
      + segmentVolumeSum H ⟨m.x, m.y, m.z⟩ ms

/-- Every segment of a sequence of moves starting at `start` is at most `bound`
millimetres long. -/
def segmentsWithin (H : Headers) (bound : ℚ) (start : Point3) : List Move → Prop
  | [] => True
  | m :: ms => H.vSizeMM (⟨m.x, m.y, m.z⟩ - start) ≤ bound
      ∧ segmentsWithin H bound ⟨m.x, m.y, m.z⟩ ms

/-! ## Concrete encoders -/

/-- An all-zero memory image, for the members the constructor leaves
indeterminate. -/
def mem0 : GCodeExport :=
  { output_stream := [], extrusion_amount := 0, extruderSwitchRetraction := 0,
    extruderSwitchRetractionSpeed := 0, extruderSwitchPrimeSpeed := 0,
    retraction_extrusion_window := 0, retraction_count_max := 0,
    extrusion_amount_at_previous_n_retractions := [], currentPosition := ⟨0, 0, 0⟩,
    startPosition := ⟨0, 0, 0⟩, extruderOffset := fun _ => ⟨0, 0⟩,
    extruderCharacter := fun _ => 'E', currentTemperature := fun _ => 0, currentSpeed := 0,
    zPos := 0, isRetracted := false, isZHopped := false, retractionPrimeSpeed := 0,
    current_extruder := 0, currentFanSpeed := 0, flavor := EGCodeFlavor.GCODE_FLAVOR_REPRAP,
    preSwitchExtruderCode := fun _ => "", postSwitchExtruderCode := fun _ => "",
    totalFilament := fun _ => 0, filament_diameter := fun _ => 0, totalPrintTime := 0,
    estimateCalculator := [], is_volumatric := false, welder_on := "", welder_off := "",
    min_dist_welder_off := 0, isWelding := false, isMetalPrinting := false }

/-- A freshly constructed encoder (flavor RepRap) with 16 extruder slots. -/
def fresh : GCodeExport := GCodeExport.GCodeExport Headers.std mem0

/-- The encoder of the end-to-end scenario for the external declarations `H`
and the memory image `mem`: freshly constructed (flavor RepRap, no offsets),
2.85 mm filament in extruder 0, metal printing off. -/
def reprapScenario (H : Headers) (mem : GCodeExport) : GCodeExport :=
  ((GCodeExport.GCodeExport H mem).setFilamentDiameter 0 2850).setIsMetalPrinting false

/-- The one move of the end-to-end scenario: 10 mm along X at speed 50 with
0.03 mm³ per millimetre. -/
def move10 : Move := ⟨10000, 0, 0, 50, 3 / 100⟩

/-- A fresh encoder set to BFB with 2.85 mm filament in extruder 0. -/
def bfbBase : GCodeExport :=
  (fresh.setFlavor Headers.std EGCodeFlavor.GCODE_FLAVOR_BFB).setFilamentDiameter 0 2850

/-- The BFB encoder after a first travel move, 1 mm up at speed 50 without
extrusion. -/
def bfbAfterTravel : GCodeExport := bfbBase.writeMove Headers.std 0 0 1000 50 0

/-- A retraction request with a z-hop: 4.5 mm at 25 mm/s, lifted by 1 mm. -/
def retractHop : RetractionConfig := ⟨45 / 10, 25, 25, 0, 1000⟩

/-- The scenario encoder after a retraction with z-hop has been carried out. -/
def hoppedState : GCodeExport :=
  (reprapScenario Headers.std mem0).writeRetraction_proceed retractHop

/-- A fresh encoder in metal-printing mode with the welder off, welder texts
`M42 P0 S1` and `M42 P0 S0`, a minimum welder-off travel of 5 mm and 2.85 mm
filament in extruder 0. -/
def weldBase : GCodeExport :=
  (((((fresh.setIsMetalPrinting true).setIsWelding false).setWelderOn "M42 P0 S1\n").setWelderOff
    "M42 P0 S0\n").setMinDistWelderOff 5).setFilamentDiameter 0 2850

/-- The welding encoder after a 10 mm extruding segment, which turns the welder
on. -/
def weldAfterExtrusion : GCodeExport := weldBase.writeMove Headers.std 10000 0 0 50 (3 / 100)

/-- Two travel moves of 3 mm each along X from (10000, 0, 0). -/
def shortTravels : List Move := [⟨13000, 0, 0, 50, 0⟩, ⟨16000, 0, 0, 50, 0⟩]

/-- A fresh encoder whose two extruders have distinct switch texts. -/
def twoCodes : GCodeExport :=
  (fresh.setSwitchExtruderCode 0 "PRE0" "POST0").setSwitchExtruderCode 1 "PRE1" "POST1"

/-- A fresh encoder set to Makerbot with 2.85 mm filament in extruders 0 and 1. -/
def makerbotBase : GCodeExport :=
  ((fresh.setFlavor Headers.std EGCodeFlavor.GCODE_FLAVOR_MAKERBOT).setFilamentDiameter 0
    2850).setFilamentDiameter 1 2850

/-- The Makerbot encoder after extruding one 10 mm segment at 0.03 mm³ per
millimetre with extruder 0. -/
def makerbotAfterMove : GCodeExport :=
  makerbotBase.writeMove Headers.std 10000 0 0 50 (3 / 100)

/-- A fresh encoder set to Makerbot with 2.85 mm filament in extruder 0 and
1.75 mm filament in extruder 1. -/
def makerbotMixed : GCodeExport :=
  ((fresh.setFlavor Headers.std EGCodeFlavor.GCODE_FLAVOR_MAKERBOT).setFilamentDiameter 0
    2850).setFilamentDiameter 1 1750

/-- The encoder `makerbotMixed` after extruding one 10 mm segment at 0.03 mm³
per millimetre with extruder 0. -/
def makerbotMixedAfterMove : GCodeExport :=
  makerbotMixed.writeMove Headers.std 10000 0 0 50 (3 / 100)

/-- The scenario encoder (flavor RepRap) after the scenario move: 0.3 mm³
extruded with extruder 0. -/
def reprapAfterMove : GCodeExport :=
  (reprapScenario Headers.std mem0).writeMove Headers.std 10000 0 0 50 (3 / 100)

/-- A retraction request: 4.5 mm at 25 mm/s, primed at 25 mm/s, no prime
amount, no z-hop. -/
def retract45 : RetractionConfig := ⟨45 / 10, 25, 25, 0, 0⟩

/-- The scenario encoder with a retraction count ceiling of 2 at the edge of
its extrusion window, every member a `double`: the window is the double nearest
0.1, the one history entry the double nearest 0.7, and `extrusion_amount` is
their sum as double addition rounds it, 0.7999999999999999. -/
def windowEdge : GCodeExport :=
  { (reprapScenario Headers.std mem0).setRetractionSettings 14500 25 25 100 2 with
    retraction_extrusion_window := binary64 (1 / 10)
    extrusion_amount := binary64 (binary64 (7 / 10) + binary64 (1 / 10))
    extrusion_amount_at_previous_n_retractions := [binary64 (7 / 10)] }

/-- The scenario encoder with a retraction count ceiling of 2 inside its
extrusion window of 1 mm, with members on which the window test computes
exactly: one history entry 0.5 and `extrusion_amount` 1. -/
def windowExact : GCodeExport :=
  { (reprapScenario Headers.std mem0).setRetractionSettings 14500 25 25 1000 2 with
    extrusion_amount := 1
    extrusion_amount_at_previous_n_retractions := [1 / 2] }

/-- The scenario encoder configured with a retraction count ceiling of 1. -/
def ceilingOne : GCodeExport :=
  (reprapScenario Headers.std mem0).setRetractionSettings 14500 25 25 1000 1

/-- A session on `ceilingOne`: a forced retraction, then the scenario move,
which primes. -/
def ceilingOneSession : List Command :=
  [.writeRetraction retract45 true, .writeMove 10000 0 0 50 (3 / 100)]

/-- The state `ceilingOneSession` leaves. -/
def ceilingOneAfter : GCodeExport :=
  (ceilingOne.writeRetraction_proceed retract45).writeMove Headers.std 10000 0 0 50 (3 / 100)

end cura

/-! ## Theorems -/

namespace cura

open EGCodeFlavor GCodeExport

/-- C1: `writeMove` to a target whose x, y and z all equal the current position
returns the state unchanged, whatever the flavor, speed and extrusion value: no
token is written, no field changes, no sample reaches the estimator (the
output stream and the estimator samples are fields of the state). -/
theorem writeMove_same_position (H : Headers) (s : GCodeExport) (speed : Int)
    (extrusion_mm3_per_mm : ℚ) :
    s.writeMove H s.currentPosition.x s.currentPosition.y s.currentPosition.z speed
      extrusion_mm3_per_mm = s := by
  simp [writeMove]

/-! ### resetExtrusionValue -/

theorem resetExtrusionValue_of_guard (s : GCodeExport)
    (h : s.extrusion_amount ≠ 0 ∧ s.flavor ≠ GCODE_FLAVOR_MAKERBOT ∧ s.flavor ≠ GCODE_FLAVOR_BFB) :
    s.resetExtrusionValue =
      { s with
        output_stream := s.output_stream ++
          [.lit "G92 ", .chr (s.extruderCharacter s.current_extruder), .lit "0\n"]
        totalFilament := Function.update s.totalFilament s.current_extruder
          (s.totalFilament s.current_extruder + s.getExtrusionAmountMM3 s.current_extruder)
        extrusion_amount_at_previous_n_retractions :=
          s.extrusion_amount_at_previous_n_retractions.map (fun a => a - s.extrusion_amount)
        extrusion_amount := 0 } := by
  simp only [resetExtrusionValue, if_pos h]

theorem resetExtrusionValue_of_not_guard (s : GCodeExport)
    (h : ¬(s.extrusion_amount ≠ 0 ∧ s.flavor ≠ GCODE_FLAVOR_MAKERBOT ∧
      s.flavor ≠ GCODE_FLAVOR_BFB)) :
    s.resetExtrusionValue = s := by
  simp only [resetExtrusionValue, if_neg h]

/-- C5: `resetExtrusionValue` is idempotent: a second consecutive call returns the
state the first call left, output stream included, so it writes no `G92` line
and changes no field. -/
theorem resetExtrusionValue_idempotent (s : GCodeExport) :
    s.resetExtrusionValue.resetExtrusionValue = s.resetExtrusionValue := by
  by_cases h : s.extrusion_amount ≠ 0 ∧ s.flavor ≠ GCODE_FLAVOR_MAKERBOT ∧
      s.flavor ≠ GCODE_FLAVOR_BFB
  · rw [resetExtrusionValue_of_guard s h]
    exact resetExtrusionValue_of_not_guard _ (fun h2 => h2.1 rfl)
  · rw [resetExtrusionValue_of_not_guard s h, resetExtrusionValue_of_not_guard s h]

theorem getTotalFilamentUsed_resetExtrusionValue (s : GCodeExport) (e : Int) :
    s.resetExtrusionValue.getTotalFilamentUsed e = s.getTotalFilamentUsed e := by
  by_cases h : s.extrusion_amount ≠ 0 ∧ s.flavor ≠ GCODE_FLAVOR_MAKERBOT ∧
      s.flavor ≠ GCODE_FLAVOR_BFB
  · rw [resetExtrusionValue_of_guard s h]
    by_cases he : e = s.current_extruder
    · subst he
      simp [getTotalFilamentUsed, getExtrusionAmountMM3, getFilamentArea]
    · simp [getTotalFilamentUsed, he, Function.update_noteq he]
  · rw [resetExtrusionValue_of_not_guard s h]

/-- C6: `resetExtrusionValue` preserves the filament accounting: for every state,
flavor and extruder index `e`, `getTotalFilamentUsed e` is the same after the
call as before it. -/
theorem resetExtrusionValue_preserves_total (s : GCodeExport) (e : Int) :
    s.resetExtrusionValue.getTotalFilamentUsed e = s.getTotalFilamentUsed e :=
  getTotalFilamentUsed_resetExtrusionValue s e

/-! ### Fields each call leaves unchanged -/

theorem resetExtrusionValue_frame (s : GCodeExport) :
    (s.resetExtrusionValue).flavor = s.flavor ∧
    (s.resetExtrusionValue).is_volumatric = s.is_volumatric ∧
    (s.resetExtrusionValue).filament_diameter = s.filament_diameter ∧
    (s.resetExtrusionValue).retraction_count_max = s.retraction_count_max ∧
    (s.resetExtrusionValue).retraction_extrusion_window = s.retraction_extrusion_window ∧
    (s.resetExtrusionValue).extruderCharacter = s.extruderCharacter ∧
    (s.resetExtrusionValue).extruderOffset = s.extruderOffset ∧
    (s.resetExtrusionValue).preSwitchExtruderCode = s.preSwitchExtruderCode ∧
    (s.resetExtrusionValue).postSwitchExtruderCode = s.postSwitchExtruderCode ∧
    (s.resetExtrusionValue).isMetalPrinting = s.isMetalPrinting ∧
    (s.resetExtrusionValue).welder_on = s.welder_on ∧
    (s.resetExtrusionValue).welder_off = s.welder_off ∧
    (s.resetExtrusionValue).min_dist_welder_off = s.min_dist_welder_off ∧
    (s.resetExtrusionValue).extruderSwitchRetraction = s.extruderSwitchRetraction ∧
    (s.resetExtrusionValue).extruderSwitchRetractionSpeed = s.extruderSwitchRetractionSpeed ∧
    (s.resetExtrusionValue).extruderSwitchPrimeSpeed = s.extruderSwitchPrimeSpeed ∧
    (s.resetExtrusionValue).currentTemperature = s.currentTemperature ∧
    (s.resetExtrusionValue).currentFanSpeed = s.currentFanSpeed ∧
    (s.resetExtrusionValue).totalPrintTime = s.totalPrintTime ∧
    (s.resetExtrusionValue).zPos = s.zPos ∧
    (s.resetExtrusionValue).current_extruder = s.current_extruder ∧
    (s.resetExtrusionValue).currentPosition = s.currentPosition ∧
    (s.resetExtrusionValue).startPosition = s.startPosition ∧
    (s.resetExtrusionValue).currentSpeed = s.currentSpeed ∧
    (s.resetExtrusionValue).isRetracted = s.isRetracted ∧
    (s.resetExtrusionValue).isZHopped = s.isZHopped ∧
    (s.resetExtrusionValue).retractionPrimeSpeed = s.retractionPrimeSpeed ∧
    (s.resetExtrusionValue).estimateCalculator = s.estimateCalculator ∧
    (s.resetExtrusionValue).isWelding = s.isWelding := by
  unfold resetExtrusionValue
  try simp only [emit, plan]
  split_ifs <;> simp 

theorem writeCode_frame (s : GCodeExport) (str : String) :
    (s.writeCode str).flavor = s.flavor ∧
    (s.writeCode str).is_volumatric = s.is_volumatric ∧
    (s.writeCode str).filament_diameter = s.filament_diameter ∧
    (s.writeCode str).retraction_count_max = s.retraction_count_max ∧
    (s.writeCode str).retraction_extrusion_window = s.retraction_extrusion_window ∧
    (s.writeCode str).extruderCharacter = s.extruderCharacter ∧
    (s.writeCode str).extruderOffset = s.extruderOffset ∧
    (s.writeCode str).preSwitchExtruderCode = s.preSwitchExtruderCode ∧
    (s.writeCode str).postSwitchExtruderCode = s.postSwitchExtruderCode ∧
    (s.writeCode str).isMetalPrinting = s.isMetalPrinting ∧
    (s.writeCode str).welder_on = s.welder_on ∧
    (s.writeCode str).welder_off = s.welder_off ∧
    (s.writeCode str).min_dist_welder_off = s.min_dist_welder_off ∧
    (s.writeCode str).extruderSwitchRetraction = s.extruderSwitchRetraction ∧
    (s.writeCode str).extruderSwitchRetractionSpeed = s.extruderSwitchRetractionSpeed ∧
    (s.writeCode str).extruderSwitchPrimeSpeed = s.extruderSwitchPrimeSpeed ∧
    (s.writeCode str).currentTemperature = s.currentTemperature ∧
    (s.writeCode str).currentFanSpeed = s.currentFanSpeed ∧
    (s.writeCode str).totalPrintTime = s.totalPrintTime ∧
    (s.writeCode str).zPos = s.zPos ∧
    (s.writeCode str).current_extruder = s.current_extruder ∧
    (s.writeCode str).extrusion_amount = s.extrusion_amount ∧
    (s.writeCode str).extrusion_amount_at_previous_n_retractions = s.extrusion_amount_at_previous_n_retractions ∧
    (s.writeCode str).currentPosition = s.currentPosition ∧
    (s.writeCode str).startPosition = s.startPosition ∧
    (s.writeCode str).currentSpeed = s.currentSpeed ∧
    (s.writeCode str).isRetracted = s.isRetracted ∧
    (s.writeCode str).isZHopped = s.isZHopped ∧
    (s.writeCode str).retractionPrimeSpeed = s.retractionPrimeSpeed ∧
    (s.writeCode str).totalFilament = s.totalFilament ∧
    (s.writeCode str).estimateCalculator = s.estimateCalculator ∧
    (s.writeCode str).isWelding = s.isWelding := by
  unfold writeCode
  try simp only [emit, plan]
  split_ifs <;> simp 

theorem switchExtruder_retract_frame (s : GCodeExport) :
    (s.switchExtruder_retract).flavor = s.flavor ∧
    (s.switchExtruder_retract).is_volumatric = s.is_volumatric ∧
    (s.switchExtruder_retract).filament_diameter = s.filament_diameter ∧
    (s.switchExtruder_retract).retraction_count_max = s.retraction_count_max ∧
    (s.switchExtruder_retract).retraction_extrusion_window = s.retraction_extrusion_window ∧
    (s.switchExtruder_retract).extruderCharacter = s.extruderCharacter ∧
    (s.switchExtruder_retract).extruderOffset = s.extruderOffset ∧
    (s.switchExtruder_retract).preSwitchExtruderCode = s.preSwitchExtruderCode ∧
    (s.switchExtruder_retract).postSwitchExtruderCode = s.postSwitchExtruderCode ∧
    (s.switchExtruder_retract).isMetalPrinting = s.isMetalPrinting ∧
    (s.switchExtruder_retract).welder_on = s.welder_on ∧
    (s.switchExtruder_retract).welder_off = s.welder_off ∧
    (s.switchExtruder_retract).min_dist_welder_off = s.min_dist_welder_off ∧
    (s.switchExtruder_retract).extruderSwitchRetraction = s.extruderSwitchRetraction ∧
    (s.switchExtruder_retract).extruderSwitchRetractionSpeed = s.extruderSwitchRetractionSpeed ∧
    (s.switchExtruder_retract).extruderSwitchPrimeSpeed = s.extruderSwitchPrimeSpeed ∧
    (s.switchExtruder_retract).currentTemperature = s.currentTemperature ∧
    (s.switchExtruder_retract).currentFanSpeed = s.currentFanSpeed ∧
    (s.switchExtruder_retract).totalPrintTime = s.totalPrintTime ∧
    (s.switchExtruder_retract).zPos = s.zPos ∧
    (s.switchExtruder_retract).current_extruder = s.current_extruder ∧
    (s.switchExtruder_retract).extrusion_amount = s.extrusion_amount ∧
    (s.switchExtruder_retract).extrusion_amount_at_previous_n_retractions = s.extrusion_amount_at_previous_n_retractions ∧
    (s.switchExtruder_retract).currentPosition = s.currentPosition ∧
    (s.switchExtruder_retract).startPosition = s.startPosition ∧
    (s.switchExtruder_retract).isRetracted = s.isRetracted ∧
    (s.switchExtruder_retract).isZHopped = s.isZHopped ∧
    (s.switchExtruder_retract).retractionPrimeSpeed = s.retractionPrimeSpeed ∧
    (s.switchExtruder_retract).totalFilament = s.totalFilament ∧
    (s.switchExtruder_retract).estimateCalculator = s.estimateCalculator ∧
    (s.switchExtruder_retract).isWelding = s.isWelding := by
  unfold switchExtruder_retract
  try simp only [emit, plan]
  split_ifs <;> simp 

theorem switchExtruder_select_frame (s : GCodeExport) :
    (s.switchExtruder_select).flavor = s.flavor ∧
    (s.switchExtruder_select).is_volumatric = s.is_volumatric ∧
    (s.switchExtruder_select).filament_diameter = s.filament_diameter ∧
    (s.switchExtruder_select).retraction_count_max = s.retraction_count_max ∧
    (s.switchExtruder_select).retraction_extrusion_window = s.retraction_extrusion_window ∧
    (s.switchExtruder_select).extruderCharacter = s.extruderCharacter ∧
    (s.switchExtruder_select).extruderOffset = s.extruderOffset ∧
    (s.switchExtruder_select).preSwitchExtruderCode = s.preSwitchExtruderCode ∧
    (s.switchExtruder_select).postSwitchExtruderCode = s.postSwitchExtruderCode ∧
    (s.switchExtruder_select).isMetalPrinting = s.isMetalPrinting ∧
    (s.switchExtruder_select).welder_on = s.welder_on ∧
    (s.switchExtruder_select).welder_off = s.welder_off ∧
    (s.switchExtruder_select).min_dist_welder_off = s.min_dist_welder_off ∧
    (s.switchExtruder_select).extruderSwitchRetraction = s.extruderSwitchRetraction ∧
    (s.switchExtruder_select).extruderSwitchRetractionSpeed = s.extruderSwitchRetractionSpeed ∧
    (s.switchExtruder_select).extruderSwitchPrimeSpeed = s.extruderSwitchPrimeSpeed ∧
    (s.switchExtruder_select).currentTemperature = s.currentTemperature ∧
    (s.switchExtruder_select).currentFanSpeed = s.currentFanSpeed ∧
    (s.switchExtruder_select).totalPrintTime = s.totalPrintTime ∧
    (s.switchExtruder_select).zPos = s.zPos ∧
    (s.switchExtruder_select).current_extruder = s.current_extruder ∧
    (s.switchExtruder_select).extrusion_amount = s.extrusion_amount ∧
    (s.switchExtruder_select).extrusion_amount_at_previous_n_retractions = s.extrusion_amount_at_previous_n_retractions ∧
    (s.switchExtruder_select).currentPosition = s.currentPosition ∧
    (s.switchExtruder_select).startPosition = s.startPosition ∧
    (s.switchExtruder_select).currentSpeed = s.currentSpeed ∧
    (s.switchExtruder_select).isRetracted = s.isRetracted ∧
    (s.switchExtruder_select).isZHopped = s.isZHopped ∧
    (s.switchExtruder_select).retractionPrimeSpeed = s.retractionPrimeSpeed ∧
    (s.switchExtruder_select).totalFilament = s.totalFilament ∧
    (s.switchExtruder_select).estimateCalculator = s.estimateCalculator ∧
    (s.switchExtruder_select).isWelding = s.isWelding := by
  unfold switchExtruder_select
  try simp only [emit, plan]
  split_ifs <;> simp [writeCode_frame]

theorem switchExtruder_BFB_frame (s : GCodeExport) :
    (s.switchExtruder_BFB).flavor = s.flavor ∧
    (s.switchExtruder_BFB).is_volumatric = s.is_volumatric ∧
    (s.switchExtruder_BFB).filament_diameter = s.filament_diameter ∧
    (s.switchExtruder_BFB).retraction_count_max = s.retraction_count_max ∧
    (s.switchExtruder_BFB).retraction_extrusion_window = s.retraction_extrusion_window ∧
    (s.switchExtruder_BFB).extruderCharacter = s.extruderCharacter ∧
    (s.switchExtruder_BFB).extruderOffset = s.extruderOffset ∧
    (s.switchExtruder_BFB).preSwitchExtruderCode = s.preSwitchExtruderCode ∧
    (s.switchExtruder_BFB).postSwitchExtruderCode = s.postSwitchExtruderCode ∧
    (s.switchExtruder_BFB).isMetalPrinting = s.isMetalPrinting ∧
    (s.switchExtruder_BFB).welder_on = s.welder_on ∧
    (s.switchExtruder_BFB).welder_off = s.welder_off ∧
    (s.switchExtruder_BFB).min_dist_welder_off = s.min_dist_welder_off ∧
    (s.switchExtruder_BFB).extruderSwitchRetraction = s.extruderSwitchRetraction ∧
    (s.switchExtruder_BFB).extruderSwitchRetractionSpeed = s.extruderSwitchRetractionSpeed ∧
    (s.switchExtruder_BFB).extruderSwitchPrimeSpeed = s.extruderSwitchPrimeSpeed ∧
    (s.switchExtruder_BFB).currentTemperature = s.currentTemperature ∧
    (s.switchExtruder_BFB).currentFanSpeed = s.currentFanSpeed ∧
    (s.switchExtruder_BFB).totalPrintTime = s.totalPrintTime ∧
    (s.switchExtruder_BFB).zPos = s.zPos ∧
    (s.switchExtruder_BFB).current_extruder = s.current_extruder ∧
    (s.switchExtruder_BFB).extrusion_amount = s.extrusion_amount ∧
    (s.switchExtruder_BFB).extrusion_amount_at_previous_n_retractions = s.extrusion_amount_at_previous_n_retractions ∧
    (s.switchExtruder_BFB).currentPosition = s.currentPosition ∧
    (s.switchExtruder_BFB).startPosition = s.startPosition ∧
    (s.switchExtruder_BFB).currentSpeed = s.currentSpeed ∧
    (s.switchExtruder_BFB).isZHopped = s.isZHopped ∧
    (s.switchExtruder_BFB).retractionPrimeSpeed = s.retractionPrimeSpeed ∧
    (s.switchExtruder_BFB).totalFilament = s.totalFilament ∧
    (s.switchExtruder_BFB).estimateCalculator = s.estimateCalculator ∧
    (s.switchExtruder_BFB).isWelding = s.isWelding := by
  unfold switchExtruder_BFB
  try simp only [emit, plan]
  split_ifs <;> simp 

theorem writeMove_prime_frame (s : GCodeExport) :
    (s.writeMove_prime).flavor = s.flavor ∧
    (s.writeMove_prime).is_volumatric = s.is_volumatric ∧
    (s.writeMove_prime).filament_diameter = s.filament_diameter ∧
    (s.writeMove_prime).retraction_count_max = s.retraction_count_max ∧
    (s.writeMove_prime).retraction_extrusion_window = s.retraction_extrusion_window ∧
    (s.writeMove_prime).extruderCharacter = s.extruderCharacter ∧
    (s.writeMove_prime).extruderOffset = s.extruderOffset ∧
    (s.writeMove_prime).preSwitchExtruderCode = s.preSwitchExtruderCode ∧
    (s.writeMove_prime).postSwitchExtruderCode = s.postSwitchExtruderCode ∧
    (s.writeMove_prime).isMetalPrinting = s.isMetalPrinting ∧
    (s.writeMove_prime).welder_on = s.welder_on ∧
    (s.writeMove_prime).welder_off = s.welder_off ∧
    (s.writeMove_prime).min_dist_welder_off = s.min_dist_welder_off ∧
    (s.writeMove_prime).extruderSwitchRetraction = s.extruderSwitchRetraction ∧
    (s.writeMove_prime).extruderSwitchRetractionSpeed = s.extruderSwitchRetractionSpeed ∧
    (s.writeMove_prime).extruderSwitchPrimeSpeed = s.extruderSwitchPrimeSpeed ∧
    (s.writeMove_prime).currentTemperature = s.currentTemperature ∧
    (s.writeMove_prime).currentFanSpeed = s.currentFanSpeed ∧
    (s.writeMove_prime).totalPrintTime = s.totalPrintTime ∧
    (s.writeMove_prime).zPos = s.zPos ∧
    (s.writeMove_prime).current_extruder = s.current_extruder ∧
    (s.writeMove_prime).currentPosition = s.currentPosition ∧
    (s.writeMove_prime).startPosition = s.startPosition ∧
    (s.writeMove_prime).isZHopped = s.isZHopped ∧
    (s.writeMove_prime).retractionPrimeSpeed = s.retractionPrimeSpeed ∧
    (s.writeMove_prime).isWelding = s.isWelding := by
  unfold writeMove_prime
  try simp only [emit, plan]
  split_ifs <;> simp [resetExtrusionValue_frame]

theorem writeMove_extrude_frame (H : Headers) (s : GCodeExport) (d : Point3) (e : ℚ) :
    (s.writeMove_extrude H d e).flavor = s.flavor ∧
    (s.writeMove_extrude H d e).is_volumatric = s.is_volumatric ∧
    (s.writeMove_extrude H d e).filament_diameter = s.filament_diameter ∧
    (s.writeMove_extrude H d e).retraction_count_max = s.retraction_count_max ∧
    (s.writeMove_extrude H d e).retraction_extrusion_window = s.retraction_extrusion_window ∧
    (s.writeMove_extrude H d e).extruderCharacter = s.extruderCharacter ∧
    (s.writeMove_extrude H d e).extruderOffset = s.extruderOffset ∧
    (s.writeMove_extrude H d e).preSwitchExtruderCode = s.preSwitchExtruderCode ∧
    (s.writeMove_extrude H d e).postSwitchExtruderCode = s.postSwitchExtruderCode ∧
    (s.writeMove_extrude H d e).isMetalPrinting = s.isMetalPrinting ∧
    (s.writeMove_extrude H d e).welder_on = s.welder_on ∧
    (s.writeMove_extrude H d e).welder_off = s.welder_off ∧
    (s.writeMove_extrude H d e).min_dist_welder_off = s.min_dist_welder_off ∧
    (s.writeMove_extrude H d e).extruderSwitchRetraction = s.extruderSwitchRetraction ∧
    (s.writeMove_extrude H d e).extruderSwitchRetractionSpeed = s.extruderSwitchRetractionSpeed ∧
    (s.writeMove_extrude H d e).extruderSwitchPrimeSpeed = s.extruderSwitchPrimeSpeed ∧
    (s.writeMove_extrude H d e).currentTemperature = s.currentTemperature ∧
    (s.writeMove_extrude H d e).currentFanSpeed = s.currentFanSpeed ∧
    (s.writeMove_extrude H d e).totalPrintTime = s.totalPrintTime ∧
    (s.writeMove_extrude H d e).zPos = s.zPos ∧
    (s.writeMove_extrude H d e).current_extruder = s.current_extruder ∧
    (s.writeMove_extrude H d e).currentPosition = s.currentPosition ∧
    (s.writeMove_extrude H d e).startPosition = s.startPosition ∧
    (s.writeMove_extrude H d e).retractionPrimeSpeed = s.retractionPrimeSpeed := by
  unfold writeMove_extrude
  try simp only [emit, plan]
  split_ifs <;> simp [writeMove_prime_frame]

theorem writeMove_travel_frame (H : Headers) (s : GCodeExport) (d : Point3) :
    (s.writeMove_travel H d).flavor = s.flavor ∧
    (s.writeMove_travel H d).is_volumatric = s.is_volumatric ∧
    (s.writeMove_travel H d).filament_diameter = s.filament_diameter ∧
    (s.writeMove_travel H d).retraction_count_max = s.retraction_count_max ∧
    (s.writeMove_travel H d).retraction_extrusion_window = s.retraction_extrusion_window ∧
    (s.writeMove_travel H d).extruderCharacter = s.extruderCharacter ∧
    (s.writeMove_travel H d).extruderOffset = s.extruderOffset ∧
    (s.writeMove_travel H d).preSwitchExtruderCode = s.preSwitchExtruderCode ∧
    (s.writeMove_travel H d).postSwitchExtruderCode = s.postSwitchExtruderCode ∧
    (s.writeMove_travel H d).isMetalPrinting = s.isMetalPrinting ∧
    (s.writeMove_travel H d).welder_on = s.welder_on ∧
    (s.writeMove_travel H d).welder_off = s.welder_off ∧
    (s.writeMove_travel H d).min_dist_welder_off = s.min_dist_welder_off ∧
    (s.writeMove_travel H d).extruderSwitchRetraction = s.extruderSwitchRetraction ∧
    (s.writeMove_travel H d).extruderSwitchRetractionSpeed = s.extruderSwitchRetractionSpeed ∧
    (s.writeMove_travel H d).extruderSwitchPrimeSpeed = s.extruderSwitchPrimeSpeed ∧
    (s.writeMove_travel H d).currentTemperature = s.currentTemperature ∧
    (s.writeMove_travel H d).currentFanSpeed = s.currentFanSpeed ∧
    (s.writeMove_travel H d).totalPrintTime = s.totalPrintTime ∧
    (s.writeMove_travel H d).zPos = s.zPos ∧
    (s.writeMove_travel H d).current_extruder = s.current_extruder ∧
    (s.writeMove_travel H d).extrusion_amount = s.extrusion_amount ∧
    (s.writeMove_travel H d).extrusion_amount_at_previous_n_retractions = s.extrusion_amount_at_previous_n_retractions ∧
    (s.writeMove_travel H d).currentPosition = s.currentPosition ∧
    (s.writeMove_travel H d).startPosition = s.startPosition ∧
    (s.writeMove_travel H d).currentSpeed = s.currentSpeed ∧
    (s.writeMove_travel H d).isRetracted = s.isRetracted ∧
    (s.writeMove_travel H d).isZHopped = s.isZHopped ∧
    (s.writeMove_travel H d).retractionPrimeSpeed = s.retractionPrimeSpeed ∧
    (s.writeMove_travel H d).totalFilament = s.totalFilament ∧
    (s.writeMove_travel H d).estimateCalculator = s.estimateCalculator := by
  unfold writeMove_travel
  try simp only [emit, plan]
  split_ifs <;> simp 

theorem writeMove_E_frame (H : Headers) (s : GCodeExport) (x y z speed : Int) (e e1 : ℚ) :
    (s.writeMove_E H x y z speed e e1).flavor = s.flavor ∧
    (s.writeMove_E H x y z speed e e1).is_volumatric = s.is_volumatric ∧
    (s.writeMove_E H x y z speed e e1).filament_diameter = s.filament_diameter ∧
    (s.writeMove_E H x y z speed e e1).retraction_count_max = s.retraction_count_max ∧
    (s.writeMove_E H x y z speed e e1).retraction_extrusion_window = s.retraction_extrusion_window ∧
    (s.writeMove_E H x y z speed e e1).extruderCharacter = s.extruderCharacter ∧
    (s.writeMove_E H x y z speed e e1).extruderOffset = s.extruderOffset ∧
    (s.writeMove_E H x y z speed e e1).preSwitchExtruderCode = s.preSwitchExtruderCode ∧
    (s.writeMove_E H x y z speed e e1).postSwitchExtruderCode = s.postSwitchExtruderCode ∧
    (s.writeMove_E H x y z speed e e1).isMetalPrinting = s.isMetalPrinting ∧
    (s.writeMove_E H x y z speed e e1).welder_on = s.welder_on ∧
    (s.writeMove_E H x y z speed e e1).welder_off = s.welder_off ∧
    (s.writeMove_E H x y z speed e e1).min_dist_welder_off = s.min_dist_welder_off ∧
    (s.writeMove_E H x y z speed e e1).extruderSwitchRetraction = s.extruderSwitchRetraction ∧
    (s.writeMove_E H x y z speed e e1).extruderSwitchRetractionSpeed = s.extruderSwitchRetractionSpeed ∧
    (s.writeMove_E H x y z speed e e1).extruderSwitchPrimeSpeed = s.extruderSwitchPrimeSpeed ∧
    (s.writeMove_E H x y z speed e e1).currentTemperature = s.currentTemperature ∧
    (s.writeMove_E H x y z speed e e1).currentFanSpeed = s.currentFanSpeed ∧
    (s.writeMove_E H x y z speed e e1).totalPrintTime = s.totalPrintTime ∧
    (s.writeMove_E H x y z speed e e1).zPos = s.zPos ∧
    (s.writeMove_E H x y z speed e e1).current_extruder = s.current_extruder ∧
    (s.writeMove_E H x y z speed e e1).currentPosition = s.currentPosition ∧
    (s.writeMove_E H x y z speed e e1).startPosition = s.startPosition ∧
    (s.writeMove_E H x y z speed e e1).retractionPrimeSpeed = s.retractionPrimeSpeed := by
  unfold writeMove_E
  try simp only [emit, plan]
  split_ifs <;> simp [writeMove_extrude_frame, writeMove_travel_frame]

theorem writeMove_BFB_frame (H : Headers) (s : GCodeExport) (x y z speed : Int) (e : ℚ) :
    (s.writeMove_BFB H x y z speed e).flavor = s.flavor ∧
    (s.writeMove_BFB H x y z speed e).is_volumatric = s.is_volumatric ∧
    (s.writeMove_BFB H x y z speed e).filament_diameter = s.filament_diameter ∧
    (s.writeMove_BFB H x y z speed e).retraction_count_max = s.retraction_count_max ∧
    (s.writeMove_BFB H x y z speed e).retraction_extrusion_window = s.retraction_extrusion_window ∧
    (s.writeMove_BFB H x y z speed e).extruderCharacter = s.extruderCharacter ∧
    (s.writeMove_BFB H x y z speed e).extruderOffset = s.extruderOffset ∧
    (s.writeMove_BFB H x y z speed e).preSwitchExtruderCode = s.preSwitchExtruderCode ∧
    (s.writeMove_BFB H x y z speed e).postSwitchExtruderCode = s.postSwitchExtruderCode ∧
    (s.writeMove_BFB H x y z speed e).isMetalPrinting = s.isMetalPrinting ∧
    (s.writeMove_BFB H x y z speed e).welder_on = s.welder_on ∧
    (s.writeMove_BFB H x y z speed e).welder_off = s.welder_off ∧
    (s.writeMove_BFB H x y z speed e).min_dist_welder_off = s.min_dist_welder_off ∧
    (s.writeMove_BFB H x y z speed e).extruderSwitchRetraction = s.extruderSwitchRetraction ∧
    (s.writeMove_BFB H x y z speed e).extruderSwitchRetractionSpeed = s.extruderSwitchRetractionSpeed ∧
    (s.writeMove_BFB H x y z speed e).extruderSwitchPrimeSpeed = s.extruderSwitchPrimeSpeed ∧
    (s.writeMove_BFB H x y z speed e).currentTemperature = s.currentTemperature ∧
    (s.writeMove_BFB H x y z speed e).currentFanSpeed = s.currentFanSpeed ∧
    (s.writeMove_BFB H x y z speed e).totalPrintTime = s.totalPrintTime ∧
    (s.writeMove_BFB H x y z speed e).zPos = s.zPos ∧
    (s.writeMove_BFB H x y z speed e).current_extruder = s.current_extruder ∧
    (s.writeMove_BFB H x y z speed e).extrusion_amount_at_previous_n_retractions = s.extrusion_amount_at_previous_n_retractions ∧
    (s.writeMove_BFB H x y z speed e).currentPosition = s.currentPosition ∧
    (s.writeMove_BFB H x y z speed e).startPosition = s.startPosition ∧
    (s.writeMove_BFB H x y z speed e).isZHopped = s.isZHopped ∧
    (s.writeMove_BFB H x y z speed e).retractionPrimeSpeed = s.retractionPrimeSpeed ∧
    (s.writeMove_BFB H x y z speed e).totalFilament = s.totalFilament ∧
    (s.writeMove_BFB H x y z speed e).estimateCalculator = s.estimateCalculator ∧
    (s.writeMove_BFB H x y z speed e).isWelding = s.isWelding := by
  unfold writeMove_BFB
  try simp only [emit, plan]
  split_ifs <;> simp 

theorem writeMove_frame (H : Headers) (s : GCodeExport) (x y z speed : Int) (e : ℚ) :
    (s.writeMove H x y z speed e).flavor = s.flavor ∧
    (s.writeMove H x y z speed e).is_volumatric = s.is_volumatric ∧
    (s.writeMove H x y z speed e).filament_diameter = s.filament_diameter ∧
    (s.writeMove H x y z speed e).retraction_count_max = s.retraction_count_max ∧
    (s.writeMove H x y z speed e).retraction_extrusion_window = s.retraction_extrusion_window ∧
    (s.writeMove H x y z speed e).extruderCharacter = s.extruderCharacter ∧
    (s.writeMove H x y z speed e).extruderOffset = s.extruderOffset ∧
    (s.writeMove H x y z speed e).preSwitchExtruderCode = s.preSwitchExtruderCode ∧
    (s.writeMove H x y z speed e).postSwitchExtruderCode = s.postSwitchExtruderCode ∧
    (s.writeMove H x y z speed e).isMetalPrinting = s.isMetalPrinting ∧
    (s.writeMove H x y z speed e).welder_on = s.welder_on ∧
    (s.writeMove H x y z speed e).welder_off = s.welder_off ∧
    (s.writeMove H x y z speed e).min_dist_welder_off = s.min_dist_welder_off ∧
    (s.writeMove H x y z speed e).extruderSwitchRetraction = s.extruderSwitchRetraction ∧
    (s.writeMove H x y z speed e).extruderSwitchRetractionSpeed = s.extruderSwitchRetractionSpeed ∧
    (s.writeMove H x y z speed e).extruderSwitchPrimeSpeed = s.extruderSwitchPrimeSpeed ∧
    (s.writeMove H x y z speed e).currentTemperature = s.currentTemperature ∧
    (s.writeMove H x y z speed e).currentFanSpeed = s.currentFanSpeed ∧
    (s.writeMove H x y z speed e).totalPrintTime = s.totalPrintTime ∧
    (s.writeMove H x y z speed e).zPos = s.zPos ∧
    (s.writeMove H x y z speed e).current_extruder = s.current_extruder ∧
    (s.writeMove H x y z speed e).retractionPrimeSpeed = s.retractionPrimeSpeed := by
  unfold writeMove
  try simp only [emit, plan]
  split_ifs <;> simp [writeMove_E_frame, writeMove_BFB_frame]

theorem writeRetraction_proceed_frame (s : GCodeExport) (config : RetractionConfig) :
    (s.writeRetraction_proceed config).flavor = s.flavor ∧
    (s.writeRetraction_proceed config).is_volumatric = s.is_volumatric ∧
    (s.writeRetraction_proceed config).filament_diameter = s.filament_diameter ∧
    (s.writeRetraction_proceed config).retraction_count_max = s.retraction_count_max ∧
    (s.writeRetraction_proceed config).retraction_extrusion_window = s.retraction_extrusion_window ∧
    (s.writeRetraction_proceed config).extruderCharacter = s.extruderCharacter ∧
    (s.writeRetraction_proceed config).extruderOffset = s.extruderOffset ∧
    (s.writeRetraction_proceed config).preSwitchExtruderCode = s.preSwitchExtruderCode ∧
    (s.writeRetraction_proceed config).postSwitchExtruderCode = s.postSwitchExtruderCode ∧
    (s.writeRetraction_proceed config).isMetalPrinting = s.isMetalPrinting ∧
    (s.writeRetraction_proceed config).welder_on = s.welder_on ∧
    (s.writeRetraction_proceed config).welder_off = s.welder_off ∧
    (s.writeRetraction_proceed config).min_dist_welder_off = s.min_dist_welder_off ∧
    (s.writeRetraction_proceed config).extruderSwitchRetraction = s.extruderSwitchRetraction ∧
    (s.writeRetraction_proceed config).extruderSwitchRetractionSpeed = s.extruderSwitchRetractionSpeed ∧
    (s.writeRetraction_proceed config).extruderSwitchPrimeSpeed = s.extruderSwitchPrimeSpeed ∧
    (s.writeRetraction_proceed config).currentTemperature = s.currentTemperature ∧
    (s.writeRetraction_proceed config).currentFanSpeed = s.currentFanSpeed ∧
    (s.writeRetraction_proceed config).totalPrintTime = s.totalPrintTime ∧
    (s.writeRetraction_proceed config).zPos = s.zPos ∧
    (s.writeRetraction_proceed config).current_extruder = s.current_extruder ∧
    (s.writeRetraction_proceed config).currentPosition = s.currentPosition ∧
    (s.writeRetraction_proceed config).startPosition = s.startPosition ∧
    (s.writeRetraction_proceed config).totalFilament = s.totalFilament ∧
    (s.writeRetraction_proceed config).isWelding = s.isWelding := by
  unfold writeRetraction_proceed
  try simp only [emit, plan]
  split_ifs <;> simp

/-! ### The retraction history under each call -/

theorem resetExtrusionValue_history (s : GCodeExport) :
    s.resetExtrusionValue.extrusion_amount_at_previous_n_retractions.length
      = s.extrusion_amount_at_previous_n_retractions.length ∧
    s.resetExtrusionValue.retraction_count_max = s.retraction_count_max := by
  unfold resetExtrusionValue
  split_ifs <;> simp

theorem writeMove_prime_history (s : GCodeExport) :
    s.writeMove_prime.extrusion_amount_at_previous_n_retractions.length
      = s.extrusion_amount_at_previous_n_retractions.length ∧
    s.writeMove_prime.retraction_count_max = s.retraction_count_max := by
  unfold writeMove_prime
  simp only [plan, emit]
  split_ifs <;> simp [resetExtrusionValue_history]

theorem writeMove_extrude_history (H : Headers) (s : GCodeExport) (d : Point3) (e : ℚ) :
    (s.writeMove_extrude H d e).extrusion_amount_at_previous_n_retractions.length
      = s.extrusion_amount_at_previous_n_retractions.length ∧
    (s.writeMove_extrude H d e).retraction_count_max = s.retraction_count_max := by
  unfold writeMove_extrude
  simp only [emit]
  split_ifs <;> simp [writeMove_prime_history]

theorem writeMove_travel_history (H : Headers) (s : GCodeExport) (d : Point3) :
    (s.writeMove_travel H d).extrusion_amount_at_previous_n_retractions.length
      = s.extrusion_amount_at_previous_n_retractions.length ∧
    (s.writeMove_travel H d).retraction_count_max = s.retraction_count_max := by
  unfold writeMove_travel
  simp only [emit]
  split_ifs <;> simp

theorem writeMove_E_history (H : Headers) (s : GCodeExport) (x y z speed : Int) (e e1 : ℚ) :
    (s.writeMove_E H x y z speed e e1).extrusion_amount_at_previous_n_retractions.length
      = s.extrusion_amount_at_previous_n_retractions.length ∧
    (s.writeMove_E H x y z speed e e1).retraction_count_max = s.retraction_count_max := by
  unfold writeMove_E
  simp only [emit]
  split_ifs <;> simp [writeMove_extrude_history, writeMove_travel_history]

theorem writeMove_BFB_history (H : Headers) (s : GCodeExport) (x y z speed : Int) (e : ℚ) :
    (s.writeMove_BFB H x y z speed e).extrusion_amount_at_previous_n_retractions.length
      = s.extrusion_amount_at_previous_n_retractions.length ∧
    (s.writeMove_BFB H x y z speed e).retraction_count_max = s.retraction_count_max := by
  unfold writeMove_BFB
  simp only [emit]
  split_ifs <;> simp

theorem writeMove_history (H : Headers) (s : GCodeExport) (x y z speed : Int) (e : ℚ) :
    (s.writeMove H x y z speed e).extrusion_amount_at_previous_n_retractions.length
      = s.extrusion_amount_at_previous_n_retractions.length ∧
    (s.writeMove H x y z speed e).retraction_count_max = s.retraction_count_max := by
  unfold writeMove
  simp only [plan]
  split_ifs <;> simp [writeMove_E_history, writeMove_BFB_history]

theorem switchExtruder_retract_history (s : GCodeExport) :
    s.switchExtruder_retract.extrusion_amount_at_previous_n_retractions
      = s.extrusion_amount_at_previous_n_retractions ∧
    s.switchExtruder_retract.retraction_count_max = s.retraction_count_max := by
  unfold switchExtruder_retract
  simp only [emit]
  split_ifs <;> simp

theorem switchExtruder_select_history (s : GCodeExport) :
    s.switchExtruder_select.extrusion_amount_at_previous_n_retractions
      = s.extrusion_amount_at_previous_n_retractions ∧
    s.switchExtruder_select.retraction_count_max = s.retraction_count_max := by
  unfold switchExtruder_select
  simp only [writeCode, emit]
  split_ifs <;> simp

theorem switchExtruder_history (s : GCodeExport) (n : Int) :
    (s.switchExtruder n).extrusion_amount_at_previous_n_retractions.length
      = s.extrusion_amount_at_previous_n_retractions.length ∧
    (s.switchExtruder n).retraction_count_max = s.retraction_count_max := by
  unfold switchExtruder
  split_ifs
  · simp
  · simp [switchExtruder_BFB_frame]
  · by_cases hm : s.flavor = GCODE_FLAVOR_MACH3 <;>
      simp [hm, switchExtruder_select_frame, resetExtrusionValue_frame,
        switchExtruder_retract_frame, resetExtrusionValue_history]

theorem writeRetraction_proceed_history (s : GCodeExport) (config : RetractionConfig)
    (h : (s.extrusion_amount_at_previous_n_retractions.length : Int)
      ≤ s.retraction_count_max - 1) :
    ((s.writeRetraction_proceed config).extrusion_amount_at_previous_n_retractions.length : Int)
      ≤ s.retraction_count_max - 1 ∧
    (s.writeRetraction_proceed config).retraction_count_max = s.retraction_count_max := by
  unfold writeRetraction_proceed
  simp only [plan, emit]
  split_ifs <;> simp at * <;> omega

theorem writeRetraction_history (s s1 : GCodeExport) (config : RetractionConfig) (force : Bool)
    (h : (s.extrusion_amount_at_previous_n_retractions.length : Int)
      ≤ s.retraction_count_max - 1)
    (hs : s.writeRetraction config force = some s1) :
    (s1.extrusion_amount_at_previous_n_retractions.length : Int) ≤ s1.retraction_count_max - 1 ∧
    s1.retraction_count_max = s.retraction_count_max := by
  have hp := writeRetraction_proceed_history s config h
  unfold writeRetraction at hs
  split_ifs at hs
  · cases hs; exact ⟨h, rfl⟩
  · cases hs; exact ⟨h, rfl⟩
  · cases hs; exact ⟨h, rfl⟩
  · split at hs
    · cases hs
    · split_ifs at hs
      · cases hs; exact ⟨h, rfl⟩
      · cases hs; exact ⟨by rw [hp.2]; exact hp.1, hp.2⟩
  · cases hs; exact ⟨by rw [hp.2]; exact hp.1, hp.2⟩

theorem step_history (H : Headers) (s s1 : GCodeExport) (c : Command)
    (h : (s.extrusion_amount_at_previous_n_retractions.length : Int)
      ≤ s.retraction_count_max - 1)
    (hs : step H s c = some s1) :
    (s1.extrusion_amount_at_previous_n_retractions.length : Int) ≤ s1.retraction_count_max - 1 ∧
    s1.retraction_count_max = s.retraction_count_max := by
  cases c with
  | writeMove x y z speed e =>
    simp only [step, Option.some.injEq] at hs
    subst hs
    simp [writeMove_history, h]
  | writeRetraction config force => exact writeRetraction_history s s1 config force h hs
  | switchExtruder n =>
    simp only [step, Option.some.injEq] at hs
    subst hs
    simp [switchExtruder_history, h]
  | resetExtrusionValue =>
    simp only [step, Option.some.injEq] at hs
    subst hs
    simp [resetExtrusionValue_history, h]

theorem run_history (H : Headers) (cmds : List Command) (s s1 : GCodeExport)
    (h : (s.extrusion_amount_at_previous_n_retractions.length : Int)
      ≤ s.retraction_count_max - 1)
    (hs : run H s cmds = some s1) :
    (s1.extrusion_amount_at_previous_n_retractions.length : Int) ≤ s1.retraction_count_max - 1 ∧
    s1.retraction_count_max = s.retraction_count_max := by
  induction cmds generalizing s with
  | nil =>
    simp only [run, Option.some.injEq] at hs
    subst hs
    exact ⟨h, rfl⟩
  | cons c cs ih =>
    simp only [run] at hs
    cases hc : step H s c with
    | none => simp [hc] at hs
    | some s2 =>
      rw [hc] at hs
      have h2 := step_history H s s2 c h hc
      have h3 := ih s2 h2.1 hs
      exact ⟨h3.1, h3.2.trans h2.2⟩

/-- C3: with a retraction-count ceiling of at least 1, from an encoder whose
history is empty (as the constructor leaves it, whatever the configuration),
after every sequence of moves, forced or non-forced retractions, extruder
switches and extrusion-value resets the history holds at most
`retraction_count_max - 1` entries, and the ceiling is still the configured one. -/
theorem history_length_bound (H : Headers) (s0 s1 : GCodeExport) (cmds : List Command)
    (hempty : s0.extrusion_amount_at_previous_n_retractions = [])
    (hmax : 1 ≤ s0.retraction_count_max)
    (hrun : run H s0 cmds = some s1) :
    (s1.extrusion_amount_at_previous_n_retractions.length : Int) ≤ s0.retraction_count_max - 1 ∧
    s1.retraction_count_max = s0.retraction_count_max := by
  have h0 : (s0.extrusion_amount_at_previous_n_retractions.length : Int)
      ≤ s0.retraction_count_max - 1 := by
    rw [hempty]; simp; omega
  have h := run_history H cmds s0 s1 h0 hrun
  exact ⟨by rw [← h.2]; exact h.1, h.2⟩

/-! ### switchExtruder -/

theorem resetExtrusionValue_extrusion_amount (s : GCodeExport)
    (h : s.flavor = GCODE_FLAVOR_MAKERBOT ∨ s.flavor = GCODE_FLAVOR_BFB → s.extrusion_amount = 0) :
    s.resetExtrusionValue.extrusion_amount = 0 := by
  unfold resetExtrusionValue
  split_ifs with hg
  · rfl
  · by_contra hne
    exact hg ⟨hne, fun hm => hne (h (Or.inl hm)), fun hb => hne (h (Or.inr hb))⟩

/-- The non-BFB path of `switchExtruder` without the second reset of Mach3,
which finds `extrusion_amount` already zero. -/
theorem switchExtruder_of_ne (s : GCodeExport) (n : Int) (hn : s.current_extruder ≠ n)
    (hf : s.flavor ≠ GCODE_FLAVOR_BFB) :
    s.switchExtruder n =
      { ({ s.resetExtrusionValue.switchExtruder_retract with
            current_extruder := n, isRetracted := true }).switchExtruder_select with
        currentPosition :=
          { s.currentPosition with z := s.currentPosition.z + 1 } } := by
  have h0 : s.flavor = GCODE_FLAVOR_MACH3 →
      ({ s.resetExtrusionValue.switchExtruder_retract with
          current_extruder := n } : GCodeExport).resetExtrusionValue =
      { s.resetExtrusionValue.switchExtruder_retract with current_extruder := n } := by
    intro hm
    apply resetExtrusionValue_of_not_guard
    have : s.resetExtrusionValue.extrusion_amount = 0 :=
      resetExtrusionValue_extrusion_amount s (by simp [hm])
    simp [switchExtruder_retract_frame, this]
  unfold switchExtruder
  rw [if_neg hn, if_neg hf]
  by_cases hm : s.flavor = GCODE_FLAVOR_MACH3
  · have hfl : ({ s.resetExtrusionValue.switchExtruder_retract with
        current_extruder := n } : GCodeExport).flavor = GCODE_FLAVOR_MACH3 := by
      simp [switchExtruder_retract_frame, resetExtrusionValue_frame, hm]
    simp only [hfl, if_true, h0 hm]
    simp [switchExtruder_select_frame, switchExtruder_retract_frame, resetExtrusionValue_frame]
  · have hfl : ¬ ({ s.resetExtrusionValue.switchExtruder_retract with
        current_extruder := n } : GCodeExport).flavor = GCODE_FLAVOR_MACH3 := by
      simp [switchExtruder_retract_frame, resetExtrusionValue_frame, hm]
    simp only [hfl, if_false]
    simp [switchExtruder_select_frame, switchExtruder_retract_frame, resetExtrusionValue_frame]

theorem resetExtrusionValue_output (s : GCodeExport) :
    s.resetExtrusionValue.output_stream = s.output_stream ++
      (if s.extrusion_amount ≠ 0 ∧ s.flavor ≠ GCODE_FLAVOR_MAKERBOT ∧
          s.flavor ≠ GCODE_FLAVOR_BFB then
        [.lit "G92 ", .chr (s.extruderCharacter s.current_extruder), .lit "0\n"]
      else []) := by
  unfold resetExtrusionValue
  split_ifs <;> simp

theorem switchExtruder_retract_output (s : GCodeExport) :
    s.switchExtruder_retract.output_stream = s.output_stream ++
      (if s.flavor = GCODE_FLAVOR_ULTIGCODE ∨ s.flavor = GCODE_FLAVOR_REPRAP_VOLUMATRIC then
        [.lit "G10 S1\n"]
      else
        [.lit "G1 F", .int (s.extruderSwitchRetractionSpeed * 60), .lit " ",
          .chr (s.extruderCharacter s.current_extruder),
          .real 5 (s.extrusion_amount - s.extruderSwitchRetraction), .lit "\n"]) := by
  unfold switchExtruder_retract
  split_ifs <;> simp [emit]

theorem switchExtruder_select_output (s : GCodeExport) (hf : s.flavor ≠ GCODE_FLAVOR_BFB) :
    s.switchExtruder_select.output_stream = s.output_stream ++
      [.text (s.preSwitchExtruderCode s.current_extruder), .lit "\n",
        .lit (if s.flavor = GCODE_FLAVOR_MAKERBOT then "M135 T" else "T"),
        .int s.current_extruder, .lit "\n",
        .text (s.postSwitchExtruderCode s.current_extruder), .lit "\n"] := by
  unfold switchExtruder_select
  simp only [writeCode, emit]
  split_ifs <;> simp_all

/-- C4, amended to the flavors that select a tool: for every flavor other than
BFB and every state, `switchExtruder newIndex` with `newIndex` different from
the current extruder writes `before`, then the tool-select instruction
(`M135 T<new>` for Makerbot, `T<new>` otherwise), then the post-switch text;
`before` holds no tool-select instruction, so exactly one is written, and the
tracked Z of the current position is one unit larger than before the call. -/
theorem switchExtruder_tool_select (s : GCodeExport) (newIndex : Int)
    (hf : s.flavor ≠ GCODE_FLAVOR_BFB) (hn : s.current_extruder ≠ newIndex) :
    (∃ before : List Tok,
      (s.switchExtruder newIndex).output_stream = s.output_stream ++ before ++
        [.lit (if s.flavor = GCODE_FLAVOR_MAKERBOT then "M135 T" else "T"),
          .int newIndex, .lit "\n",
          .text (s.postSwitchExtruderCode newIndex), .lit "\n"] ∧
      before.countP Tok.isToolSelect = 0) ∧
    (s.switchExtruder newIndex).currentPosition.z = s.currentPosition.z + 1 := by
  rw [switchExtruder_of_ne s newIndex hn hf]
  refine ⟨⟨(if s.extrusion_amount ≠ 0 ∧ s.flavor ≠ GCODE_FLAVOR_MAKERBOT ∧
          s.flavor ≠ GCODE_FLAVOR_BFB then
        [.lit "G92 ", .chr (s.extruderCharacter s.current_extruder), .lit "0\n"]
      else []) ++
      (if s.flavor = GCODE_FLAVOR_ULTIGCODE ∨ s.flavor = GCODE_FLAVOR_REPRAP_VOLUMATRIC then
        [.lit "G10 S1\n"]
      else
        [.lit "G1 F", .int (s.extruderSwitchRetractionSpeed * 60), .lit " ",
          .chr (s.extruderCharacter s.current_extruder),
          .real 5 (s.resetExtrusionValue.extrusion_amount - s.extruderSwitchRetraction),
          .lit "\n"]) ++
      [.text (s.preSwitchExtruderCode newIndex), .lit "\n"], ?_, ?_⟩, ?_⟩
  · have hsel := switchExtruder_select_output
      ({ s.resetExtrusionValue.switchExtruder_retract with
          current_extruder := newIndex, isRetracted := true })
      (by simpa [switchExtruder_retract_frame, resetExtrusionValue_frame] using hf)
    simp only [hsel]
    simp [switchExtruder_retract_frame, resetExtrusionValue_frame,
      switchExtruder_retract_output, resetExtrusionValue_output]
  · split_ifs <;> simp [Tok.isToolSelect]
  · simp

/-! ### writeRetraction -/

/-- The outcome of `writeRetraction` past the three guards when the history has
an oldest entry `back`: skipped exactly when the request is not forced, a
ceiling is configured, the history holds `retraction_count_max - 1` entries and
`extrusion_amount < back + retraction_extrusion_window`; carried out otherwise. -/
theorem writeRetraction_of_back (s : GCodeExport) (config : RetractionConfig) (force : Bool)
    (back : ℚ) (hf : s.flavor ≠ GCODE_FLAVOR_BFB) (hr : s.isRetracted = false)
    (ha : 0 < config.amount)
    (hb : s.extrusion_amount_at_previous_n_retractions.getLast? = some back) :
    s.writeRetraction config force =
      if force = false ∧ 0 < s.retraction_count_max ∧
          (s.extrusion_amount_at_previous_n_retractions.length : Int)
            = s.retraction_count_max - 1 ∧
          s.extrusion_amount < back + s.retraction_extrusion_window then some s
      else some (s.writeRetraction_proceed config) := by
  unfold writeRetraction
  rw [if_neg hf, if_neg (by simp [hr]), if_neg (not_le.mpr ha), hb]
  by_cases h1 : force = false ∧ 0 < s.retraction_count_max ∧
      (s.extrusion_amount_at_previous_n_retractions.length : Int) = s.retraction_count_max - 1
  · by_cases h2 : s.extrusion_amount < back + s.retraction_extrusion_window
    · simp [h1, h2]
    · simp [h1, h2]
  · have h3 : ¬(force = false ∧ 0 < s.retraction_count_max ∧
        (s.extrusion_amount_at_previous_n_retractions.length : Int)
          = s.retraction_count_max - 1 ∧
        s.extrusion_amount < back + s.retraction_extrusion_window) :=
      fun h => h1 ⟨h.1, h.2.1, h.2.2.1⟩
    rw [if_neg h3]
    have h4 : ¬((!force) = true ∧ 0 < s.retraction_count_max ∧
        (s.extrusion_amount_at_previous_n_retractions.length : Int)
          = s.retraction_count_max - 1) := by
      simpa using h1
    rw [if_neg h4]

/-- A forced request past the three guards is always carried out. -/
theorem writeRetraction_forced (s : GCodeExport) (config : RetractionConfig)
    (hf : s.flavor ≠ GCODE_FLAVOR_BFB) (hr : s.isRetracted = false) (ha : 0 < config.amount) :
    s.writeRetraction config true = some (s.writeRetraction_proceed config) := by
  unfold writeRetraction
  rw [if_neg hf, if_neg (by simp [hr]), if_neg (not_le.mpr ha)]
  simp

/-- C2, evaluated where the code fails it: a fresh encoder configured with
`retraction_count_max = 1` has an empty history, the count test
`size() == retraction_count_max - 1` holds, and a non-forced `writeRetraction`
with `amount > 0` evaluates `back()` on the empty deque: the call has no
defined result, where the claim has the retraction proceed. -/
theorem writeRetraction_ceiling_one_undefined :
    (fresh.setRetractionSettings 14500 25 25 1000 1).writeRetraction retract45 false = none := by
  simp [writeRetraction, fresh, GCodeExport.GCodeExport, setFlavor, setRetractionSettings,
    retract45, mem0]

/-- The suppression example of the spec: with `retraction_count_max = 3`, a
window of 1.0 and the history 5.0, 3.0 (front to back), a non-forced request
at extrusion 3.5 is skipped and one at 4.5 is carried out. -/
theorem writeRetraction_window_example (s : GCodeExport) (config : RetractionConfig)
    (hf : s.flavor ≠ GCODE_FLAVOR_BFB) (hr : s.isRetracted = false) (ha : 0 < config.amount)
    (hmax : s.retraction_count_max = 3) (hw : s.retraction_extrusion_window = 1)
    (hh : s.extrusion_amount_at_previous_n_retractions = [5, 3]) :
    (s.extrusion_amount = 35 / 10 → s.writeRetraction config false = some s) ∧
    (s.extrusion_amount = 45 / 10 →
      s.writeRetraction config false = some (s.writeRetraction_proceed config)) := by
  have hb : s.extrusion_amount_at_previous_n_retractions.getLast? = some 3 := by simp [hh]
  rw [writeRetraction_of_back s config false 3 hf hr ha hb]
  constructor
  · intro he
    rw [if_pos]
    refine ⟨rfl, by omega, by simp [hh, hmax], ?_⟩
    rw [he, hw]; norm_num
  · intro he
    rw [if_neg]
    rintro ⟨-, -, -, h⟩
    rw [he, hw] at h
    norm_num at h

/-! ### Concrete runs -/

theorem fresh_fields :
    fresh.flavor = GCODE_FLAVOR_REPRAP ∧ fresh.current_extruder = 0 ∧
    fresh.isRetracted = false ∧ fresh.extrusion_amount_at_previous_n_retractions = [] ∧
    fresh.extrusion_amount = 0 ∧ fresh.currentPosition = ⟨0, 0, 0⟩ ∧
    fresh.output_stream = [] ∧ fresh.is_volumatric = false ∧ fresh.isZHopped = false ∧
    fresh.currentSpeed = 1 := by
  simp [fresh, GCodeExport.GCodeExport, setFlavor]

/-- Witness of C3: a fresh encoder with ceiling 3 carries out a non-forced
retraction and then switches to extruder 1. -/
theorem history_length_bound_witness :
    (fresh.setRetractionSettings 14500 25 25 1000 3).extrusion_amount_at_previous_n_retractions
      = [] ∧
    1 ≤ (fresh.setRetractionSettings 14500 25 25 1000 3).retraction_count_max ∧
    run Headers.std (fresh.setRetractionSettings 14500 25 25 1000 3)
        [.writeRetraction retract45 false, .switchExtruder 1] =
      some (((fresh.setRetractionSettings 14500 25 25 1000 3).writeRetraction_proceed
        retract45).switchExtruder 1) ∧
    ((((fresh.setRetractionSettings 14500 25 25 1000 3).writeRetraction_proceed
        retract45).switchExtruder 1).extrusion_amount_at_previous_n_retractions.length : Int)
      ≤ (fresh.setRetractionSettings 14500 25 25 1000 3).retraction_count_max - 1 ∧
    (((fresh.setRetractionSettings 14500 25 25 1000 3).writeRetraction_proceed
        retract45).switchExtruder 1).retraction_count_max =
      (fresh.setRetractionSettings 14500 25 25 1000 3).retraction_count_max := by
  have h1 : (fresh.setRetractionSettings 14500 25 25 1000 3).extrusion_amount_at_previous_n_retractions
      = [] := by
    simp [setRetractionSettings, fresh_fields]
  have h2 : 1 ≤ (fresh.setRetractionSettings 14500 25 25 1000 3).retraction_count_max := by
    simp [setRetractionSettings]
  have h3 : run Headers.std (fresh.setRetractionSettings 14500 25 25 1000 3)
        [.writeRetraction retract45 false, .switchExtruder 1] =
      some (((fresh.setRetractionSettings 14500 25 25 1000 3).writeRetraction_proceed
        retract45).switchExtruder 1) := by
    have hw : (fresh.setRetractionSettings 14500 25 25 1000 3).writeRetraction retract45 false
        = some ((fresh.setRetractionSettings 14500 25 25 1000 3).writeRetraction_proceed
            retract45) := by
      simp [writeRetraction, setRetractionSettings, fresh_fields, retract45]
    simp [run, step, hw]
  exact ⟨h1, h2, h3, history_length_bound Headers.std _ _ _ h1 h2 h3⟩

/-- Witness of C4 (amended): a fresh RepRap encoder switching from extruder 0 to
extruder 1. -/
theorem switchExtruder_tool_select_witness :
    fresh.flavor ≠ GCODE_FLAVOR_BFB ∧ fresh.current_extruder ≠ 1 ∧
    ((∃ before : List Tok,
      (fresh.switchExtruder 1).output_stream = fresh.output_stream ++ before ++
        [.lit (if fresh.flavor = GCODE_FLAVOR_MAKERBOT then "M135 T" else "T"),
          .int 1, .lit "\n",
          .text (fresh.postSwitchExtruderCode 1), .lit "\n"] ∧
      before.countP Tok.isToolSelect = 0) ∧
    (fresh.switchExtruder 1).currentPosition.z = fresh.currentPosition.z + 1) :=
  ⟨by simp [fresh_fields], by simp [fresh_fields],
    switchExtruder_tool_select fresh 1 (by simp [fresh_fields]) (by simp [fresh_fields])⟩

/-- C4 fails for the BFB flavor: a fresh encoder set to BFB, asked to switch from
extruder 0 to extruder 1, writes only the motor-off command `M103`, no
tool-select instruction, and leaves the tracked Z where it was. -/
theorem switchExtruder_BFB_no_tool_select :
    (fresh.setFlavor Headers.std GCODE_FLAVOR_BFB).current_extruder ≠ 1 ∧
    ((fresh.setFlavor Headers.std GCODE_FLAVOR_BFB).switchExtruder 1).output_stream
      = [.lit "M103\r\n"] ∧
    ((fresh.setFlavor Headers.std GCODE_FLAVOR_BFB).switchExtruder 1).currentPosition.z
      ≠ (fresh.setFlavor Headers.std GCODE_FLAVOR_BFB).currentPosition.z + 1 := by
  simp [switchExtruder, switchExtruder_BFB, setFlavor, emit, fresh_fields]

/-! ### Extruding moves -/

theorem writeMove_extrude_not_retracted (H : Headers) (s : GCodeExport) (d : Point3) (e : ℚ)
    (hr : s.isRetracted = false) :
    (s.writeMove_extrude H d e).extrusion_amount = s.extrusion_amount + e * H.vSizeMM d ∧
    (s.writeMove_extrude H d e).isRetracted = false ∧
    (s.writeMove_extrude H d e).totalFilament = s.totalFilament ∧
    (s.writeMove_extrude H d e).extrusion_amount_at_previous_n_retractions
      = s.extrusion_amount_at_previous_n_retractions := by
  unfold writeMove_extrude
  simp only [emit]
  split_ifs <;> simp_all

theorem writeMove_E_extruding (H : Headers) (s : GCodeExport) (x y z speed : Int) (e e1 : ℚ)
    (he : 1 / 1000000 < e) :
    (s.writeMove_E H x y z speed e e1).extrusion_amount
      = (s.writeMove_extrude H (⟨x, y, z⟩ - s.getPosition) e1).extrusion_amount ∧
    (s.writeMove_E H x y z speed e e1).isRetracted
      = (s.writeMove_extrude H (⟨x, y, z⟩ - s.getPosition) e1).isRetracted ∧
    (s.writeMove_E H x y z speed e e1).totalFilament
      = (s.writeMove_extrude H (⟨x, y, z⟩ - s.getPosition) e1).totalFilament ∧
    (s.writeMove_E H x y z speed e e1).extrusion_amount_at_previous_n_retractions
      = (s.writeMove_extrude H (⟨x, y, z⟩ - s.getPosition)
          e1).extrusion_amount_at_previous_n_retractions := by
  unfold writeMove_E
  simp only [emit, if_pos he]
  split_ifs <;> simp

/-- An extruding move of a non-BFB encoder that is not retracted adds the
per-millimetre extrusion times the segment length to `extrusion_amount`. -/
theorem writeMove_extruding (H : Headers) (s : GCodeExport) (x y z speed : Int) (e : ℚ)
    (hf : s.flavor ≠ GCODE_FLAVOR_BFB) (hr : s.isRetracted = false) (he : 1 / 1000000 < e)
    (hp : ¬(s.currentPosition.x = x ∧ s.currentPosition.y = y ∧ s.currentPosition.z = z)) :
    (s.writeMove H x y z speed e).extrusion_amount = s.extrusion_amount +
      s.extrusion_per_mm e * H.vSizeMM (⟨x, y, z⟩ - s.currentPosition) ∧
    (s.writeMove H x y z speed e).isRetracted = false ∧
    (s.writeMove H x y z speed e).totalFilament = s.totalFilament ∧
    (s.writeMove H x y z speed e).currentPosition = ⟨x, y, z⟩ := by
  unfold writeMove
  rw [if_neg hp]
  simp only [if_neg hf, plan]
  have h1 := writeMove_E_extruding H s x y z speed e (s.extrusion_per_mm e) he
  have h2 := writeMove_extrude_not_retracted H s (⟨x, y, z⟩ - s.getPosition)
    (s.extrusion_per_mm e) hr
  refine ⟨?_, ?_, ?_, trivial⟩
  · rw [h1.1, h2.1]
    rfl
  · rw [h1.2.1, h2.2.1]
  · rw [h1.2.2.1, h2.2.2.1]

theorem getFilamentArea_ne_zero (s : GCodeExport) (extruder : Int)
    (hd : s.filament_diameter extruder ≠ 0) : s.getFilamentArea extruder ≠ 0 := by
  unfold getFilamentArea INT2MM M_PI
  simp only []
  have : s.filament_diameter extruder / 1000 / 2 ≠ 0 := by
    intro h
    apply hd
    linarith
  positivity

theorem writeMoves_volume (H : Headers) (hz : H.vSizeMM ⟨0, 0, 0⟩ = 0) (moves : List Move) :
    ∀ s : GCodeExport, s.flavor ≠ GCODE_FLAVOR_BFB → s.isRetracted = false →
      s.filament_diameter s.current_extruder ≠ 0 →
      (∀ m ∈ moves, 1 / 1000000 < m.extrusion_mm3_per_mm) →
      (writeMoves H s moves).current_extruder = s.current_extruder ∧
      (writeMoves H s moves).getExtrusionAmountMM3 s.current_extruder
        = s.getExtrusionAmountMM3 s.current_extruder
          + segmentVolumeSum H s.currentPosition moves := by
  induction moves with
  | nil => intro s _ _ _ _; simp [writeMoves, segmentVolumeSum]
  | cons m ms ih =>
    intro s hf hr hd hm
    have hm1 : 1 / 1000000 < m.extrusion_mm3_per_mm := hm m (List.mem_cons_self _ _)
    have hms : ∀ m1 ∈ ms, 1 / 1000000 < m1.extrusion_mm3_per_mm :=
      fun m1 h1 => hm m1 (List.mem_cons_of_mem _ h1)
    have hfr := writeMove_frame H s m.x m.y m.z m.speed m.extrusion_mm3_per_mm
    simp only [writeMoves, segmentVolumeSum]
    by_cases hp : s.currentPosition.x = m.x ∧ s.currentPosition.y = m.y ∧
        s.currentPosition.z = m.z
    · have hsame : s.writeMove H m.x m.y m.z m.speed m.extrusion_mm3_per_mm = s := by
        simp [writeMove, hp]
      have hpos : (⟨m.x, m.y, m.z⟩ : Point3) = s.currentPosition := by
        cases hc : s.currentPosition
        simp [hc] at hp
        simp [hp]
      have hdiff : (⟨m.x, m.y, m.z⟩ : Point3) - s.currentPosition = ⟨0, 0, 0⟩ := by
        rw [hpos]
        show (⟨_, _, _⟩ : Point3) = _
        simp
      rw [hsame, hdiff, hz, hpos]
      simpa using ih s hf hr hd hms
    · obtain ⟨hea, hr1, -, hpos⟩ :=
        writeMove_extruding H s m.x m.y m.z m.speed m.extrusion_mm3_per_mm hf hr hm1 hp
      have hcur : (s.writeMove H m.x m.y m.z m.speed m.extrusion_mm3_per_mm).current_extruder
          = s.current_extruder := by simp [hfr]
      have hih := ih (s.writeMove H m.x m.y m.z m.speed m.extrusion_mm3_per_mm)
        (by simpa [hfr] using hf) hr1 (by simpa [hfr] using hd) hms
      rw [hcur, hpos] at hih
      refine ⟨hih.1, ?_⟩
      rw [hih.2]
      have ha := getFilamentArea_ne_zero s s.current_extruder hd
      have hvol : (s.writeMove H m.x m.y m.z m.speed m.extrusion_mm3_per_mm).getExtrusionAmountMM3
          s.current_extruder = s.getExtrusionAmountMM3 s.current_extruder
            + m.extrusion_mm3_per_mm * H.vSizeMM (⟨m.x, m.y, m.z⟩ - s.currentPosition) := by
        have hga : (s.writeMove H m.x m.y m.z m.speed m.extrusion_mm3_per_mm).getFilamentArea
            s.current_extruder = s.getFilamentArea s.current_extruder := by
          simp [getFilamentArea, hfr]
        simp only [getExtrusionAmountMM3, hga, hea, extrusion_per_mm]
        simp only [hfr]
        cases s.is_volumatric
        · simp; field_simp
        · simp
      rw [hvol]
      ring

theorem vSizeMMIsqrt_x10 : vSizeMMIsqrt ⟨10000, 0, 0⟩ = 10 := by
  have h : Nat.sqrt 100000000 = 10000 := by
    have : (100000000 : Nat) = 10000 * 10000 := by norm_num
    rw [this, Nat.sqrt_eq]
  have ht : Int.toNat 100000000 = 100000000 := rfl
  norm_num [vSizeMMIsqrt, ht, h]

theorem vSizeMMIsqrt_zero : vSizeMMIsqrt ⟨0, 0, 0⟩ = 0 := by
  simp [vSizeMMIsqrt]

theorem makerbotBase_fields :
    makerbotBase.flavor = GCODE_FLAVOR_MAKERBOT ∧
    makerbotBase.current_extruder = 0 ∧
    makerbotBase.is_volumatric = false ∧
    makerbotBase.isRetracted = false ∧
    makerbotBase.currentPosition = ⟨0, 0, 0⟩ ∧
    makerbotBase.extrusion_amount = 0 ∧
    makerbotBase.filament_diameter 0 = 2850 ∧
    makerbotBase.filament_diameter 1 = 2850 ∧
    makerbotBase.totalFilament 0 = 0 ∧
    makerbotBase.totalFilament 1 = 0 := by
  simp [makerbotBase, fresh, GCodeExport.GCodeExport, setFlavor, setFilamentDiameter, fill,
    Headers.std]

theorem makerbotAfterMove_fields :
    makerbotAfterMove.flavor = GCODE_FLAVOR_MAKERBOT ∧
    makerbotAfterMove.current_extruder = 0 ∧
    makerbotAfterMove.is_volumatric = false ∧
    makerbotAfterMove.filament_diameter 0 = 2850 ∧
    makerbotAfterMove.filament_diameter 1 = 2850 ∧
    makerbotAfterMove.totalFilament 0 = 0 ∧
    makerbotAfterMove.totalFilament 1 = 0 ∧
    makerbotAfterMove.extrusion_amount
      = 3 / 100 / (M_PI * (2850 / 1000 / 2) * (2850 / 1000 / 2)) * 10 := by
  have hsub : (⟨10000, 0, 0⟩ : Point3) - ⟨0, 0, 0⟩ = ⟨10000, 0, 0⟩ := rfl
  have hfr := writeMove_frame Headers.std makerbotBase 10000 0 0 50 (3 / 100)
  have hex := writeMove_extruding Headers.std makerbotBase 10000 0 0 50 (3 / 100)
    (by simp [makerbotBase_fields]) (by simp [makerbotBase_fields]) (by norm_num)
    (by simp [makerbotBase_fields])
  unfold makerbotAfterMove
  refine ⟨by simp [hfr, makerbotBase_fields], by simp [hfr, makerbotBase_fields],
    by simp [hfr, makerbotBase_fields], by simp [hfr, makerbotBase_fields],
    by simp [hfr, makerbotBase_fields], ?_, ?_, ?_⟩
  · rw [hex.2.2.1]; simp [makerbotBase_fields]
  · rw [hex.2.2.1]; simp [makerbotBase_fields]
  · rw [hex.1]
    simp [makerbotBase_fields, extrusion_per_mm, getFilamentArea, INT2MM, hsub, Headers.std,
      vSizeMMIsqrt_x10]

/-! ### Filament accounting across an extruder switch -/

theorem switchExtruder_accounting_fields (s : GCodeExport) (n : Int)
    (hn : s.current_extruder ≠ n) (hf : s.flavor ≠ GCODE_FLAVOR_BFB) :
    (s.switchExtruder n).current_extruder = n ∧
    (s.switchExtruder n).totalFilament = s.resetExtrusionValue.totalFilament ∧
    (s.switchExtruder n).extrusion_amount = s.resetExtrusionValue.extrusion_amount ∧
    (s.switchExtruder n).is_volumatric = s.is_volumatric ∧
    (s.switchExtruder n).filament_diameter = s.filament_diameter := by
  rw [switchExtruder_of_ne s n hn hf]
  simp [switchExtruder_select_frame, switchExtruder_retract_frame, resetExtrusionValue_frame]

theorem switchExtruder_totals_of_reset (s : GCodeExport) (newIndex : Int)
    (hn : s.current_extruder ≠ newIndex)
    (hmk : s.flavor = GCODE_FLAVOR_MAKERBOT → s.extrusion_amount = 0) :
    (s.switchExtruder newIndex).getTotalFilamentUsed s.current_extruder
      = s.getTotalFilamentUsed s.current_extruder ∧
    (s.switchExtruder newIndex).getTotalFilamentUsed newIndex
      = s.getTotalFilamentUsed newIndex := by
  by_cases hf : s.flavor = GCODE_FLAVOR_BFB
  · have hfr := switchExtruder_BFB_frame s
    have he : s.switchExtruder newIndex = s.switchExtruder_BFB := by
      simp [switchExtruder, hn, hf]
    rw [he]
    simp [getTotalFilamentUsed, getExtrusionAmountMM3, getFilamentArea, hfr]
  · obtain ⟨hc, ht, he, hv, hd⟩ := switchExtruder_accounting_fields s newIndex hn hf
    have h0 : s.resetExtrusionValue.extrusion_amount = 0 :=
      resetExtrusionValue_extrusion_amount s (by
        rintro (h | h)
        · exact hmk h
        · exact absurd h hf)
    have hr := resetExtrusionValue_frame s
    have hold := getTotalFilamentUsed_resetExtrusionValue s s.current_extruder
    have hnew := getTotalFilamentUsed_resetExtrusionValue s newIndex
    have hn2 : newIndex ≠ s.current_extruder := fun h => hn h.symm
    have e1 : s.resetExtrusionValue.getTotalFilamentUsed s.current_extruder
        = s.resetExtrusionValue.totalFilament s.current_extruder := by
      simp [getTotalFilamentUsed, getExtrusionAmountMM3, hr, h0]
    have e2 : s.resetExtrusionValue.getTotalFilamentUsed newIndex
        = s.resetExtrusionValue.totalFilament newIndex := by
      simp [getTotalFilamentUsed, hr, hn2]
    constructor
    · rw [← hold, e1]
      simp [getTotalFilamentUsed, hc, hn, ht]
    · rw [← hnew, e2]
      simp [getTotalFilamentUsed, getExtrusionAmountMM3, hc, ht, he, h0]

/-- Under Makerbot the switch folds nothing: the outgoing extruder is left with
its stored total, and the carried-over `extrusion_amount` is reported for the
new extruder, converted with the filament area of the new extruder. -/
theorem switchExtruder_totals_of_makerbot (s : GCodeExport) (newIndex : Int)
    (hn : s.current_extruder ≠ newIndex) (hmk : s.flavor = GCODE_FLAVOR_MAKERBOT) :
    (s.switchExtruder newIndex).getTotalFilamentUsed s.current_extruder
      = s.totalFilament s.current_extruder ∧
    (s.switchExtruder newIndex).getTotalFilamentUsed newIndex
      = s.totalFilament newIndex + s.getExtrusionAmountMM3 newIndex := by
  have hf : s.flavor ≠ GCODE_FLAVOR_BFB := by simp [hmk]
  obtain ⟨hc, ht, he, hv, hd⟩ := switchExtruder_accounting_fields s newIndex hn hf
  have hreset : s.resetExtrusionValue = s :=
    resetExtrusionValue_of_not_guard _ (by simp [hmk])
  rw [hreset] at ht he
  constructor
  · simp [getTotalFilamentUsed, hc, hn, ht]
  · simp [getTotalFilamentUsed, getExtrusionAmountMM3, getFilamentArea, hc, ht, he, hv, hd]

/-- C7, amended to the flavors whose switch resets the extrusion value: for
every state, after `switchExtruder newIndex` with `newIndex` different from
the outgoing extruder, (1) if the flavor is not Makerbot (or is Makerbot with
`extrusion_amount = 0`), `getTotalFilamentUsed` of the outgoing extruder and of
the new extruder are what they were before the switch; (2) if the flavor is
Makerbot, nothing is folded: `getTotalFilamentUsed` of the outgoing extruder
is its stored total `totalFilament[old]`, and `getTotalFilamentUsed` of the new
extruder is `totalFilament[newIndex]` plus the carried-over `extrusion_amount`
times the filament area of the new extruder, which is the volume extruded so
far only when the two extruders have the same filament diameter. -/
theorem switchExtruder_preserves_totals (s : GCodeExport) (newIndex : Int)
    (hn : s.current_extruder ≠ newIndex) :
    ((s.flavor = GCODE_FLAVOR_MAKERBOT → s.extrusion_amount = 0) →
      (s.switchExtruder newIndex).getTotalFilamentUsed s.current_extruder
        = s.getTotalFilamentUsed s.current_extruder ∧
      (s.switchExtruder newIndex).getTotalFilamentUsed newIndex
        = s.getTotalFilamentUsed newIndex) ∧
    (s.flavor = GCODE_FLAVOR_MAKERBOT →
      (s.switchExtruder newIndex).getTotalFilamentUsed s.current_extruder
        = s.totalFilament s.current_extruder ∧
      (s.switchExtruder newIndex).getTotalFilamentUsed newIndex
        = s.totalFilament newIndex + s.getExtrusionAmountMM3 newIndex) :=
  ⟨switchExtruder_totals_of_reset s newIndex hn,
    switchExtruder_totals_of_makerbot s newIndex hn⟩

theorem reprapAfterMove_fields :
    reprapAfterMove.flavor = GCODE_FLAVOR_REPRAP ∧
    reprapAfterMove.current_extruder = 0 ∧
    reprapAfterMove.is_volumatric = false ∧
    reprapAfterMove.filament_diameter 0 = 2850 ∧
    reprapAfterMove.totalFilament 0 = 0 ∧
    reprapAfterMove.totalFilament 1 = 0 ∧
    reprapAfterMove.extrusion_amount
      = 3 / 100 / (M_PI * (2850 / 1000 / 2) * (2850 / 1000 / 2)) * 10 := by
  have hb : (reprapScenario Headers.std mem0).flavor = GCODE_FLAVOR_REPRAP ∧
      (reprapScenario Headers.std mem0).current_extruder = 0 ∧
      (reprapScenario Headers.std mem0).is_volumatric = false ∧
      (reprapScenario Headers.std mem0).isRetracted = false ∧
      (reprapScenario Headers.std mem0).currentPosition = ⟨0, 0, 0⟩ ∧
      (reprapScenario Headers.std mem0).extrusion_amount = 0 ∧
      (reprapScenario Headers.std mem0).filament_diameter 0 = 2850 ∧
      (reprapScenario Headers.std mem0).totalFilament 0 = 0 ∧
      (reprapScenario Headers.std mem0).totalFilament 1 = 0 := by
    simp [reprapScenario, GCodeExport.GCodeExport, setFlavor, setFilamentDiameter,
      setIsMetalPrinting, fill, Headers.std]
  have hsub : (⟨10000, 0, 0⟩ : Point3) - ⟨0, 0, 0⟩ = ⟨10000, 0, 0⟩ := rfl
  have hfr := writeMove_frame Headers.std (reprapScenario Headers.std mem0) 10000 0 0 50
    (3 / 100)
  have hex := writeMove_extruding Headers.std (reprapScenario Headers.std mem0) 10000 0 0 50
    (3 / 100) (by simp [hb]) (by simp [hb]) (by norm_num) (by simp [hb])
  unfold reprapAfterMove
  refine ⟨by simp [hfr, hb], by simp [hfr, hb], by simp [hfr, hb], by simp [hfr, hb],
    ?_, ?_, ?_⟩
  · rw [hex.2.2.1]; simp [hb]
  · rw [hex.2.2.1]; simp [hb]
  · have hlen : Headers.std.vSizeMM ⟨10000, 0, 0⟩ = 10 := vSizeMMIsqrt_x10
    rw [hex.1]
    simp [hb, extrusion_per_mm, getFilamentArea, INT2MM, hsub, hlen]

theorem makerbotMixedAfterMove_fields :
    makerbotMixedAfterMove.flavor = GCODE_FLAVOR_MAKERBOT ∧
    makerbotMixedAfterMove.current_extruder = 0 ∧
    makerbotMixedAfterMove.is_volumatric = false ∧
    makerbotMixedAfterMove.filament_diameter 0 = 2850 ∧
    makerbotMixedAfterMove.filament_diameter 1 = 1750 ∧
    makerbotMixedAfterMove.totalFilament 0 = 0 ∧
    makerbotMixedAfterMove.totalFilament 1 = 0 ∧
    makerbotMixedAfterMove.extrusion_amount
      = 3 / 100 / (M_PI * (2850 / 1000 / 2) * (2850 / 1000 / 2)) * 10 := by
  have hb : makerbotMixed.flavor = GCODE_FLAVOR_MAKERBOT ∧
      makerbotMixed.current_extruder = 0 ∧
      makerbotMixed.is_volumatric = false ∧
      makerbotMixed.isRetracted = false ∧
      makerbotMixed.currentPosition = ⟨0, 0, 0⟩ ∧
      makerbotMixed.extrusion_amount = 0 ∧
      makerbotMixed.filament_diameter 0 = 2850 ∧
      makerbotMixed.filament_diameter 1 = 1750 ∧
      makerbotMixed.totalFilament 0 = 0 ∧
      makerbotMixed.totalFilament 1 = 0 := by
    simp [makerbotMixed, fresh, GCodeExport.GCodeExport, setFlavor, setFilamentDiameter, fill,
      Headers.std]
  have hsub : (⟨10000, 0, 0⟩ : Point3) - ⟨0, 0, 0⟩ = ⟨10000, 0, 0⟩ := rfl
  have hfr := writeMove_frame Headers.std makerbotMixed 10000 0 0 50 (3 / 100)
  have hex := writeMove_extruding Headers.std makerbotMixed 10000 0 0 50 (3 / 100)
    (by simp [hb]) (by simp [hb]) (by norm_num) (by simp [hb])
  unfold makerbotMixedAfterMove
  refine ⟨by simp [hfr, hb], by simp [hfr, hb], by simp [hfr, hb], by simp [hfr, hb],
    by simp [hfr, hb], ?_, ?_, ?_⟩
  · rw [hex.2.2.1]; simp [hb]
  · rw [hex.2.2.1]; simp [hb]
  · rw [hex.1]
    simp [hb, extrusion_per_mm, getFilamentArea, INT2MM, hsub, Headers.std, vSizeMMIsqrt_x10]

theorem reprapAfterMove_used :
    reprapAfterMove.extrusion_amount ≠ 0 ∧
    reprapAfterMove.getTotalFilamentUsed 0 = 3 / 10 ∧
    reprapAfterMove.getTotalFilamentUsed 1 = 0 ∧
    (reprapAfterMove.switchExtruder 1).totalFilament 0 = 3 / 10 := by
  obtain ⟨hfl, hcur, hvol, hd0, ht0, ht1, hea⟩ := reprapAfterMove_fields
  have hpi : M_PI ≠ 0 := by norm_num [M_PI]
  have hne : reprapAfterMove.extrusion_amount ≠ 0 := by
    rw [hea]
    norm_num [M_PI]
  have hmm3 : reprapAfterMove.getExtrusionAmountMM3 0 = 3 / 10 := by
    simp [getExtrusionAmountMM3, getFilamentArea, INT2MM, hvol, hd0, hea]
    field_simp
    ring
  have hn : reprapAfterMove.current_extruder ≠ 1 := by simp [hcur]
  obtain ⟨-, ht, -, -, -⟩ := switchExtruder_accounting_fields reprapAfterMove 1 hn
    (by simp [hfl])
  refine ⟨hne, ?_, ?_, ?_⟩
  · simp [getTotalFilamentUsed, hcur, ht0, hmm3]
  · simp [getTotalFilamentUsed, hcur, ht1]
  · rw [ht, resetExtrusionValue_of_guard reprapAfterMove ⟨hne, by simp [hfl], by simp [hfl]⟩]
    simp only [hcur, ht0, hmm3, zero_add]
    rw [Function.update_apply, if_pos hcur.symm]

theorem makerbotMixedAfterMove_used :
    makerbotMixedAfterMove.getTotalFilamentUsed 0 = 3 / 10 ∧
    makerbotMixedAfterMove.totalFilament 0 = 0 ∧
    makerbotMixedAfterMove.totalFilament 1 + makerbotMixedAfterMove.getExtrusionAmountMM3 1
      = 245 / 2166 := by
  obtain ⟨hfl, hcur, hvol, hd0, hd1, ht0, ht1, hea⟩ := makerbotMixedAfterMove_fields
  have hpi : M_PI ≠ 0 := by norm_num [M_PI]
  refine ⟨?_, ht0, ?_⟩
  · simp [getTotalFilamentUsed, getExtrusionAmountMM3, getFilamentArea, INT2MM, hcur, hvol,
      hd0, ht0, hea]
    field_simp
    ring
  · simp [getExtrusionAmountMM3, getFilamentArea, INT2MM, hvol, hd1, ht1, hea]
    field_simp
    ring

/-- Witness of C7 (amended). The RepRap encoder that has extruded 0.3 mm³ with
extruder 0 switches to extruder 1: the reset fires, the 0.3 mm³ are folded into
the stored total of extruder 0 and both reported totals are unchanged. The
Makerbot encoder with 2.85 mm and 1.75 mm filament does the same: extruder 0,
which reported 0.3 mm³, is left with its stored total 0, and extruder 1 reports
245/2166 ≈ 0.113 mm³. -/
theorem switchExtruder_preserves_totals_witness :
    (reprapAfterMove.current_extruder ≠ 1 ∧
      (reprapAfterMove.flavor = GCODE_FLAVOR_MAKERBOT → reprapAfterMove.extrusion_amount = 0) ∧
      reprapAfterMove.extrusion_amount ≠ 0 ∧
      reprapAfterMove.getTotalFilamentUsed 0 = 3 / 10 ∧
      (reprapAfterMove.switchExtruder 1).totalFilament 0 = 3 / 10 ∧
      (reprapAfterMove.switchExtruder 1).getTotalFilamentUsed reprapAfterMove.current_extruder
        = reprapAfterMove.getTotalFilamentUsed reprapAfterMove.current_extruder ∧
      (reprapAfterMove.switchExtruder 1).getTotalFilamentUsed 1
        = reprapAfterMove.getTotalFilamentUsed 1) ∧
    (makerbotMixedAfterMove.current_extruder ≠ 1 ∧
      makerbotMixedAfterMove.flavor = GCODE_FLAVOR_MAKERBOT ∧
      makerbotMixedAfterMove.getTotalFilamentUsed 0 = 3 / 10 ∧
      makerbotMixedAfterMove.totalFilament makerbotMixedAfterMove.current_extruder = 0 ∧
      makerbotMixedAfterMove.totalFilament 1 + makerbotMixedAfterMove.getExtrusionAmountMM3 1
        = 245 / 2166 ∧
      (makerbotMixedAfterMove.switchExtruder 1).getTotalFilamentUsed
          makerbotMixedAfterMove.current_extruder
        = makerbotMixedAfterMove.totalFilament makerbotMixedAfterMove.current_extruder ∧
      (makerbotMixedAfterMove.switchExtruder 1).getTotalFilamentUsed 1
        = makerbotMixedAfterMove.totalFilament 1
          + makerbotMixedAfterMove.getExtrusionAmountMM3 1) :=
  have hn : reprapAfterMove.current_extruder ≠ 1 := by simp [reprapAfterMove_fields]
  have hmk : reprapAfterMove.flavor = GCODE_FLAVOR_MAKERBOT →
      reprapAfterMove.extrusion_amount = 0 := by simp [reprapAfterMove_fields]
  have hn2 : makerbotMixedAfterMove.current_extruder ≠ 1 := by
    simp [makerbotMixedAfterMove_fields]
  have hfl2 : makerbotMixedAfterMove.flavor = GCODE_FLAVOR_MAKERBOT :=
    makerbotMixedAfterMove_fields.1
  have ht0 : makerbotMixedAfterMove.totalFilament makerbotMixedAfterMove.current_extruder
      = 0 := by
    rw [makerbotMixedAfterMove_fields.2.1]
    exact makerbotMixedAfterMove_used.2.1
  ⟨⟨hn, hmk, reprapAfterMove_used.1, reprapAfterMove_used.2.1, reprapAfterMove_used.2.2.2,
      (switchExtruder_preserves_totals reprapAfterMove 1 hn).1 hmk⟩,
    ⟨hn2, hfl2, makerbotMixedAfterMove_used.1, ht0, makerbotMixedAfterMove_used.2.2,
      (switchExtruder_preserves_totals makerbotMixedAfterMove 1 hn2).2 hfl2⟩⟩

/-- C7 fails for the Makerbot flavor: after a 10 mm segment at 0.03 mm³ per
millimetre extruded with extruder 0, `switchExtruder 1` takes the 0.3 mm³ away
from extruder 0 and attributes it to extruder 1. -/
theorem switchExtruder_makerbot_moves_total :
    makerbotAfterMove.current_extruder ≠ 1 ∧
    makerbotAfterMove.getTotalFilamentUsed 0 = 3 / 10 ∧
    (makerbotAfterMove.switchExtruder 1).getTotalFilamentUsed 0 = 0 ∧
    makerbotAfterMove.getTotalFilamentUsed 1 = 0 ∧
    (makerbotAfterMove.switchExtruder 1).getTotalFilamentUsed 1 = 3 / 10 := by
  obtain ⟨hfl, hcur, hvol, hd0, hd1, ht0, ht1, hea⟩ := makerbotAfterMove_fields
  have hn : makerbotAfterMove.current_extruder ≠ 1 := by simp [hcur]
  have hf : makerbotAfterMove.flavor ≠ GCODE_FLAVOR_BFB := by simp [hfl]
  obtain ⟨hc, ht, he, hv, hd⟩ := switchExtruder_accounting_fields makerbotAfterMove 1 hn hf
  have hreset : makerbotAfterMove.resetExtrusionValue = makerbotAfterMove :=
    resetExtrusionValue_of_not_guard _ (by simp [hfl])
  rw [hreset] at ht he
  have hpi : M_PI ≠ 0 := by norm_num [M_PI]
  refine ⟨hn, ?_, ?_, ?_, ?_⟩
  · simp [getTotalFilamentUsed, getExtrusionAmountMM3, getFilamentArea, INT2MM, hcur, hvol,
      hd0, ht0, hea]
    field_simp
    ring
  · simp [getTotalFilamentUsed, hc, ht, ht0]
  · simp [getTotalFilamentUsed, hcur, ht1]
  · simp [getTotalFilamentUsed, getExtrusionAmountMM3, getFilamentArea, INT2MM, hc, ht, he, hv,
      hd, hvol, hd1, ht1, hea]
    field_simp
    ring

/-! ### Flavor equivalence of the extruded volume -/

/-- C8: a sequence of extruding moves (each `extrusion_mm3_per_mm > 1e-6`) issued
to an encoder that has extruded nothing, is not retracted and has a positive
filament diameter leaves `getExtrusionAmountMM3 current_extruder` equal to the
sum over the segments of `extrusion_mm3_per_mm` times the segment length in mm,
for every flavor other than BFB, set by `setFlavor`; so the value is the same
for the volumetric flavors (UltiGCode, RepRap-volumetric) and the linear ones
(RepRap, Mach3, Makerbot). `hz` is the fact that the length of the zero vector
is zero. -/
theorem extrusion_volume_segment_sum (H : Headers) (s : GCodeExport)
    (flavor flavor2 : EGCodeFlavor) (moves : List Move)
    (hz : H.vSizeMM ⟨0, 0, 0⟩ = 0)
    (hfl : flavor ≠ GCODE_FLAVOR_BFB) (hfl2 : flavor2 ≠ GCODE_FLAVOR_BFB)
    (hea : s.extrusion_amount = 0) (hr : s.isRetracted = false)
    (hd : 0 < s.filament_diameter s.current_extruder)
    (hm : ∀ m ∈ moves, 1 / 1000000 < m.extrusion_mm3_per_mm) :
    (writeMoves H (s.setFlavor H flavor) moves).getExtrusionAmountMM3
        (writeMoves H (s.setFlavor H flavor) moves).current_extruder
      = segmentVolumeSum H s.currentPosition moves ∧
    (writeMoves H (s.setFlavor H flavor2) moves).getExtrusionAmountMM3
        (writeMoves H (s.setFlavor H flavor2) moves).current_extruder
      = (writeMoves H (s.setFlavor H flavor) moves).getExtrusionAmountMM3
        (writeMoves H (s.setFlavor H flavor) moves).current_extruder := by
  have key : ∀ f : EGCodeFlavor, f ≠ GCODE_FLAVOR_BFB →
      (writeMoves H (s.setFlavor H f) moves).getExtrusionAmountMM3
          (writeMoves H (s.setFlavor H f) moves).current_extruder
        = segmentVolumeSum H s.currentPosition moves := by
    intro f hf
    have h := writeMoves_volume H hz moves (s.setFlavor H f) (by simpa [setFlavor] using hf)
      (by simpa [setFlavor] using hr) (by simpa [setFlavor] using hd.ne') hm
    rw [h.1, h.2]
    simp [setFlavor, getExtrusionAmountMM3, hea]
  exact ⟨key flavor hfl, by rw [key flavor hfl, key flavor2 hfl2]⟩

/-- Witness of C8: the 10 mm segment at 0.03 mm³ per millimetre, on a fresh
encoder with 2.85 mm filament, under RepRap and under UltiGCode. -/
theorem extrusion_volume_segment_sum_witness :
    Headers.std.vSizeMM ⟨0, 0, 0⟩ = 0 ∧
    GCODE_FLAVOR_REPRAP ≠ GCODE_FLAVOR_BFB ∧ GCODE_FLAVOR_ULTIGCODE ≠ GCODE_FLAVOR_BFB ∧
    (reprapScenario Headers.std mem0).extrusion_amount = 0 ∧
    (reprapScenario Headers.std mem0).isRetracted = false ∧
    0 < (reprapScenario Headers.std mem0).filament_diameter
      (reprapScenario Headers.std mem0).current_extruder ∧
    (∀ m ∈ [move10], 1 / 1000000 < m.extrusion_mm3_per_mm) ∧
    ((writeMoves Headers.std ((reprapScenario Headers.std mem0).setFlavor Headers.std
          GCODE_FLAVOR_REPRAP) [move10]).getExtrusionAmountMM3
        (writeMoves Headers.std ((reprapScenario Headers.std mem0).setFlavor Headers.std
          GCODE_FLAVOR_REPRAP) [move10]).current_extruder
      = segmentVolumeSum Headers.std (reprapScenario Headers.std mem0).currentPosition [move10] ∧
    (writeMoves Headers.std ((reprapScenario Headers.std mem0).setFlavor Headers.std
          GCODE_FLAVOR_ULTIGCODE) [move10]).getExtrusionAmountMM3
        (writeMoves Headers.std ((reprapScenario Headers.std mem0).setFlavor Headers.std
          GCODE_FLAVOR_ULTIGCODE) [move10]).current_extruder
      = (writeMoves Headers.std ((reprapScenario Headers.std mem0).setFlavor Headers.std
          GCODE_FLAVOR_REPRAP) [move10]).getExtrusionAmountMM3
        (writeMoves Headers.std ((reprapScenario Headers.std mem0).setFlavor Headers.std
          GCODE_FLAVOR_REPRAP) [move10]).current_extruder) := by
  have hz : Headers.std.vSizeMM ⟨0, 0, 0⟩ = 0 := vSizeMMIsqrt_zero
  have hea : (reprapScenario Headers.std mem0).extrusion_amount = 0 := by
    simp [reprapScenario, GCodeExport.GCodeExport, setFlavor, setFilamentDiameter,
      setIsMetalPrinting]
  have hr : (reprapScenario Headers.std mem0).isRetracted = false := by
    simp [reprapScenario, GCodeExport.GCodeExport, setFlavor, setFilamentDiameter,
      setIsMetalPrinting]
  have hd : 0 < (reprapScenario Headers.std mem0).filament_diameter
      (reprapScenario Headers.std mem0).current_extruder := by
    simp [reprapScenario, GCodeExport.GCodeExport, setFlavor, setFilamentDiameter,
      setIsMetalPrinting]
  have hm : ∀ m ∈ [move10], 1 / 1000000 < m.extrusion_mm3_per_mm := by
    intro m hmem
    simp only [List.mem_singleton] at hmem
    subst hmem
    norm_num [move10]
  exact ⟨hz, by decide, by decide, hea, hr, hd, hm,
    extrusion_volume_segment_sum Headers.std (reprapScenario Headers.std mem0)
      GCODE_FLAVOR_REPRAP GCODE_FLAVOR_ULTIGCODE [move10] hz (by decide) (by decide) hea hr hd hm⟩

/-! ### Rendering on a `std::fixed` stream -/

theorem writeMove_of_BFB (H : Headers) (s : GCodeExport) (x y z speed : Int) (e : ℚ)
    (hf : s.flavor = GCODE_FLAVOR_BFB)
    (hp : ¬(s.currentPosition.x = x ∧ s.currentPosition.y = y ∧ s.currentPosition.z = z)) :
    (s.writeMove H x y z speed e).output_stream
      = (s.writeMove_BFB H x y z speed (s.extrusion_per_mm e)).output_stream ∧
    (s.writeMove H x y z speed e).isRetracted
      = (s.writeMove_BFB H x y z speed (s.extrusion_per_mm e)).isRetracted ∧
    (s.writeMove H x y z speed e).currentSpeed
      = (s.writeMove_BFB H x y z speed (s.extrusion_per_mm e)).currentSpeed ∧
    (s.writeMove H x y z speed e).currentPosition = ⟨x, y, z⟩ := by
  unfold writeMove
  rw [if_neg hp]
  simp only [if_pos hf, plan]
  exact ⟨trivial, trivial, trivial, trivial⟩

theorem writeMove_BFB_enable (H : Headers) (s : GCodeExport) (x y z speed : Int) (epm : ℚ)
    (hrpm : 0 < BFB_rpm speed epm) (hr : s.isRetracted = true)
    (hs : s.currentSpeed ≠ toInt (BFB_rpm speed epm * 10)) :
    (s.writeMove_BFB H x y z speed epm).output_stream = s.output_stream ++
      [.lit "M108 S", .real 1 (BFB_rpm speed epm), .lit "\r\n",
        .lit "M", .int ((s.current_extruder + 1) * 100 + 1), .lit "\r\n"] ++
      s.BFB_line x y z (BFB_fspeed speed (BFB_rpm speed epm)) ∧
    (s.writeMove_BFB H x y z speed epm).isRetracted = false := by
  unfold writeMove_BFB
  simp [hrpm, hr, hs, emit, BFB_line]

theorem writeMove_BFB_running (H : Headers) (s : GCodeExport) (x y z speed : Int) (epm : ℚ)
    (hrpm : 0 < BFB_rpm speed epm) (hr : s.isRetracted = false) :
    (s.writeMove_BFB H x y z speed epm).output_stream = s.output_stream ++
      s.BFB_line x y z (BFB_fspeed speed (BFB_rpm speed epm)) ∧
    (s.writeMove_BFB H x y z speed epm).isRetracted = false := by
  unfold writeMove_BFB
  simp [hrpm, hr, emit, BFB_line]

theorem writeMove_BFB_travel (H : Headers) (s : GCodeExport) (x y z speed : Int) (epm : ℚ)
    (hrpm : ¬ 0 < BFB_rpm speed epm) (hr : s.isRetracted = false) :
    (s.writeMove_BFB H x y z speed epm).output_stream = s.output_stream ++
      [.lit "M103\r\n"] ++ s.BFB_line x y z (.real 1 (speed * 60)) ∧
    (s.writeMove_BFB H x y z speed epm).isRetracted = true ∧
    (s.writeMove_BFB H x y z speed epm).currentSpeed = s.currentSpeed := by
  unfold writeMove_BFB
  simp [hrpm, hr, emit, BFB_line]

/-- The first extruding move of a BFB encoder that is not retracted writes only
its coordinate line, and so does every later one. -/
theorem writeMove_BFB_not_retracted (H : Headers) (s : GCodeExport) (x y z speed : Int) (e : ℚ)
    (hf : s.flavor = GCODE_FLAVOR_BFB) (hr : s.isRetracted = false)
    (hp : ¬(s.currentPosition.x = x ∧ s.currentPosition.y = y ∧ s.currentPosition.z = z))
    (hrpm : 0 < BFB_rpm speed (s.extrusion_per_mm e)) :
    (s.writeMove H x y z speed e).output_stream = s.output_stream ++
      s.BFB_line x y z (BFB_fspeed speed (BFB_rpm speed (s.extrusion_per_mm e))) ∧
    (s.writeMove H x y z speed e).isRetracted = false := by
  obtain ⟨h1, h2, -, -⟩ := writeMove_of_BFB H s x y z speed e hf hp
  obtain ⟨h3, h4⟩ := writeMove_BFB_running H s x y z speed (s.extrusion_per_mm e) hrpm hr
  exact ⟨h1.trans h3, h2.trans h4⟩

/-- C10, amended to the retracted state: on a BFB encoder that is retracted (the
motor is off, as after the `M103` of a travel move) and whose remembered RPM
`currentSpeed` differs from `int(rpm * 10)`, an extruding move (RPM > 0) writes
`M108 S<rpm>`, then the motor-enable command `M<100 (e + 1) + 1>` of the
active extruder `e` (`M101` for extruder 0), then its coordinate line; a second
extruding move with the same speed and extrusion, hence the identical RPM,
writes only its coordinate line. -/
theorem writeMove_BFB_first_and_second (H : Headers) (s : GCodeExport)
    (x y z x2 y2 z2 speed : Int) (e : ℚ)
    (hf : s.flavor = GCODE_FLAVOR_BFB) (hr : s.isRetracted = true)
    (hp : ¬(s.currentPosition.x = x ∧ s.currentPosition.y = y ∧ s.currentPosition.z = z))
    (hp2 : ¬(x = x2 ∧ y = y2 ∧ z = z2))
    (hrpm : 0 < BFB_rpm speed (s.extrusion_per_mm e))
    (hs : s.currentSpeed ≠ toInt (BFB_rpm speed (s.extrusion_per_mm e) * 10)) :
    (s.writeMove H x y z speed e).output_stream = s.output_stream ++
      [.lit "M108 S", .real 1 (BFB_rpm speed (s.extrusion_per_mm e)), .lit "\r\n",
        .lit "M", .int ((s.current_extruder + 1) * 100 + 1), .lit "\r\n"] ++
      s.BFB_line x y z (BFB_fspeed speed (BFB_rpm speed (s.extrusion_per_mm e))) ∧
    ((s.writeMove H x y z speed e).writeMove H x2 y2 z2 speed e).output_stream
      = (s.writeMove H x y z speed e).output_stream ++
        s.BFB_line x2 y2 z2 (BFB_fspeed speed (BFB_rpm speed (s.extrusion_per_mm e))) := by
  obtain ⟨h1, h2, -, h5⟩ := writeMove_of_BFB H s x y z speed e hf hp
  obtain ⟨h3, h4⟩ := writeMove_BFB_enable H s x y z speed (s.extrusion_per_mm e) hrpm hr hs
  have hfr := writeMove_frame H s x y z speed e
  have hepm : (s.writeMove H x y z speed e).extrusion_per_mm e = s.extrusion_per_mm e := by
    simp [extrusion_per_mm, getFilamentArea, hfr]
  have hline : ∀ t : Tok, (s.writeMove H x y z speed e).BFB_line x2 y2 z2 t
      = s.BFB_line x2 y2 z2 t := by
    intro t
    simp [BFB_line, hfr]
  have hsecond := writeMove_BFB_not_retracted H (s.writeMove H x y z speed e) x2 y2 z2 speed e
    (by simpa [hfr] using hf) (h2.trans h4) (by rw [h5]; exact hp2) (by rw [hepm]; exact hrpm)
  rw [hepm, hline] at hsecond
  exact ⟨h1.trans h3, hsecond.1⟩

theorem bfbBase_fields :
    bfbBase.flavor = GCODE_FLAVOR_BFB ∧ bfbBase.current_extruder = 0 ∧
    bfbBase.is_volumatric = false ∧ bfbBase.isRetracted = false ∧
    bfbBase.currentPosition = ⟨0, 0, 0⟩ ∧ bfbBase.currentSpeed = 1 ∧
    bfbBase.filament_diameter 0 = 2850 ∧ bfbBase.output_stream = [] := by
  simp [bfbBase, fresh, GCodeExport.GCodeExport, setFlavor, setFilamentDiameter]

theorem bfb_scenario_rpm (s : GCodeExport) (hv : s.is_volumatric = false)
    (hc : s.current_extruder = 0) (hd : s.filament_diameter 0 = 2850) :
    0 < BFB_rpm 50 (s.extrusion_per_mm (3 / 100)) ∧
    toInt (BFB_rpm 50 (s.extrusion_per_mm (3 / 100)) * 10) = 35 := by
  have hval : BFB_rpm 50 (s.extrusion_per_mm (3 / 100))
      = 3 / 100 / (M_PI * (2850 / 1000 / 2) * (2850 / 1000 / 2)) * 50 * 60 / 4 := by
    simp [BFB_rpm, extrusion_per_mm, getFilamentArea, INT2MM, hv, hc, hd]
  rw [hval]
  constructor
  · norm_num [M_PI]
  · unfold toInt
    rw [if_neg (by norm_num [M_PI])]
    rw [Int.floor_eq_iff]
    norm_num [M_PI]

theorem bfbAfterTravel_fields :
    bfbAfterTravel.flavor = GCODE_FLAVOR_BFB ∧ bfbAfterTravel.current_extruder = 0 ∧
    bfbAfterTravel.is_volumatric = false ∧ bfbAfterTravel.isRetracted = true ∧
    bfbAfterTravel.currentPosition = ⟨0, 0, 1000⟩ ∧ bfbAfterTravel.currentSpeed = 1 ∧
    bfbAfterTravel.filament_diameter 0 = 2850 ∧
    bfbAfterTravel.output_stream
      = [.lit "M103\r\n"] ++ bfbBase.BFB_line 0 0 1000 (.real 1 (50 * 60)) := by
  obtain ⟨hf, hc, hv, hr, hp, hs, hd, ho⟩ := bfbBase_fields
  have hfr := writeMove_frame Headers.std bfbBase 0 0 1000 50 0
  obtain ⟨h1, h2, h3, h4⟩ := writeMove_of_BFB Headers.std bfbBase 0 0 1000 50 0 hf
    (by simp [hp])
  obtain ⟨h5, h6, h7⟩ := writeMove_BFB_travel Headers.std bfbBase 0 0 1000 50
    (bfbBase.extrusion_per_mm 0) (by simp [BFB_rpm, extrusion_per_mm]) hr
  unfold bfbAfterTravel
  refine ⟨by simp [hfr, hf], by simp [hfr, hc], by simp [hfr, hv], h2.trans h6, h4,
    (h3.trans h7).trans hs, by simp [hfr, hd], ?_⟩
  rw [h1, h5, ho]
  simp

/-- Witness of C10 (amended): the fresh BFB encoder after a first travel move,
then two 10 mm extruding segments at speed 50 and 0.03 mm³ per millimetre. -/
theorem writeMove_BFB_first_and_second_witness :
    bfbAfterTravel.flavor = GCODE_FLAVOR_BFB ∧ bfbAfterTravel.isRetracted = true ∧
    ¬(bfbAfterTravel.currentPosition.x = 10000 ∧ bfbAfterTravel.currentPosition.y = 0 ∧
      bfbAfterTravel.currentPosition.z = 1000) ∧
    ¬((10000 : Int) = 20000 ∧ (0 : Int) = 0 ∧ (1000 : Int) = 1000) ∧
    0 < BFB_rpm 50 (bfbAfterTravel.extrusion_per_mm (3 / 100)) ∧
    bfbAfterTravel.currentSpeed
      ≠ toInt (BFB_rpm 50 (bfbAfterTravel.extrusion_per_mm (3 / 100)) * 10) ∧
    ((bfbAfterTravel.writeMove Headers.std 10000 0 1000 50 (3 / 100)).output_stream
      = bfbAfterTravel.output_stream ++
        [.lit "M108 S", .real 1 (BFB_rpm 50 (bfbAfterTravel.extrusion_per_mm (3 / 100))),
          .lit "\r\n",
          .lit "M", .int ((bfbAfterTravel.current_extruder + 1) * 100 + 1), .lit "\r\n"] ++
        bfbAfterTravel.BFB_line 10000 0 1000
          (BFB_fspeed 50 (BFB_rpm 50 (bfbAfterTravel.extrusion_per_mm (3 / 100)))) ∧
    ((bfbAfterTravel.writeMove Headers.std 10000 0 1000 50 (3 / 100)).writeMove Headers.std
        20000 0 1000 50 (3 / 100)).output_stream
      = (bfbAfterTravel.writeMove Headers.std 10000 0 1000 50 (3 / 100)).output_stream ++
        bfbAfterTravel.BFB_line 20000 0 1000
          (BFB_fspeed 50 (BFB_rpm 50 (bfbAfterTravel.extrusion_per_mm (3 / 100))))) := by
  obtain ⟨hf, hc, hv, hr, hp, hs, hd, -⟩ := bfbAfterTravel_fields
  obtain ⟨hrpm, hti⟩ := bfb_scenario_rpm bfbAfterTravel hv hc hd
  have hp1 : ¬(bfbAfterTravel.currentPosition.x = 10000 ∧ bfbAfterTravel.currentPosition.y = 0 ∧
      bfbAfterTravel.currentPosition.z = 1000) := by simp [hp]
  have hp2 : ¬((10000 : Int) = 20000 ∧ (0 : Int) = 0 ∧ (1000 : Int) = 1000) := by decide
  have hs1 : bfbAfterTravel.currentSpeed
      ≠ toInt (BFB_rpm 50 (bfbAfterTravel.extrusion_per_mm (3 / 100)) * 10) := by
    rw [hs, hti]; decide
  exact ⟨hf, hr, hp1, hp2, hrpm, hs1,
    writeMove_BFB_first_and_second Headers.std bfbAfterTravel 10000 0 1000 20000 0 1000 50
      (3 / 100) hf hr hp1 hp2 hrpm hs1⟩

/-- C10 fails on a fresh encoder: set to BFB, it is constructed not retracted, and
its first extruding move (RPM > 0) writes only its coordinate line, with
neither `M108 S<rpm>` nor the motor-enable command `M101`. -/
theorem writeMove_BFB_fresh_no_motor_enable :
    0 < BFB_rpm 50 (bfbBase.extrusion_per_mm (3 / 100)) ∧
    (bfbBase.writeMove Headers.std 10000 0 0 50 (3 / 100)).output_stream
      = bfbBase.BFB_line 10000 0 0
          (BFB_fspeed 50 (BFB_rpm 50 (bfbBase.extrusion_per_mm (3 / 100)))) ∧
    Tok.lit "M108 S" ∉ (bfbBase.writeMove Headers.std 10000 0 0 50 (3 / 100)).output_stream ∧
    Tok.lit "M" ∉ (bfbBase.writeMove Headers.std 10000 0 0 50 (3 / 100)).output_stream := by
  obtain ⟨hf, hc, hv, hr, hp, hs, hd, ho⟩ := bfbBase_fields
  obtain ⟨hrpm, -⟩ := bfb_scenario_rpm bfbBase hv hc hd
  obtain ⟨h1, -⟩ := writeMove_BFB_not_retracted Headers.std bfbBase 10000 0 0 50 (3 / 100) hf hr
    (by simp [hp]) hrpm
  rw [ho, List.nil_append] at h1
  refine ⟨hrpm, h1, ?_, ?_⟩
  · rw [h1]
    unfold BFB_line BFB_fspeed
    split_ifs <;> simp
  · rw [h1]
    unfold BFB_line BFB_fspeed
    split_ifs <;> simp

/-! ### The guards of writeRetraction -/

theorem writeRetraction_guarded (s : GCodeExport) (config : RetractionConfig) (force : Bool)
    (h : s.flavor = GCODE_FLAVOR_BFB ∨ s.isRetracted = true ∨ config.amount ≤ 0) :
    s.writeRetraction config force = some s := by
  unfold writeRetraction
  rcases h with h | h | h
  · rw [if_pos h]
  · split_ifs <;> rfl
  · split_ifs <;> rfl

/-- C12: `writeRetraction` returns the state unchanged (no output, no change to
`extrusion_amount`, the retracted and z-hop flags, the prime speed, the current
speed or the history) whenever the flavor is BFB, or the encoder is already
retracted, or `config.amount ≤ 0`, for every value of `force` and of the other
fields of `config`. -/
theorem writeRetraction_noop (s : GCodeExport) (config : RetractionConfig) (force : Bool)
    (h : s.flavor = GCODE_FLAVOR_BFB ∨ s.isRetracted = true ∨ config.amount ≤ 0) :
    s.writeRetraction config force = some s :=
  writeRetraction_guarded s config force h

/-- Witness of C12: a forced request on the fresh BFB encoder. -/
theorem writeRetraction_noop_witness :
    (bfbBase.flavor = GCODE_FLAVOR_BFB ∨ bfbBase.isRetracted = true ∨ retract45.amount ≤ 0) ∧
    bfbBase.writeRetraction retract45 true = some bfbBase :=
  ⟨Or.inl bfbBase_fields.1, writeRetraction_noop bfbBase retract45 true (Or.inl bfbBase_fields.1)⟩

theorem writeRetraction_proceed_isRetracted (s : GCodeExport) (config : RetractionConfig) :
    (s.writeRetraction_proceed config).isRetracted = true := by
  unfold writeRetraction_proceed
  simp

theorem writeRetraction_proceed_ne (s : GCodeExport) (config : RetractionConfig)
    (hr : s.isRetracted = false) : s.writeRetraction_proceed config ≠ s := by
  intro h
  have h1 := writeRetraction_proceed_isRetracted s config
  rw [h, hr] at h1
  exact Bool.noConfusion h1

/-- A non-forced request past the three guards is skipped exactly when the
window test holds. -/
theorem writeRetraction_eq_self_iff (s : GCodeExport) (config : RetractionConfig)
    (hf : s.flavor ≠ GCODE_FLAVOR_BFB) (hr : s.isRetracted = false) (ha : 0 < config.amount) :
    s.writeRetraction config false = some s ↔
      (0 < s.retraction_count_max ∧
        (s.extrusion_amount_at_previous_n_retractions.length : Int)
          = s.retraction_count_max - 1 ∧
        ∃ back, s.extrusion_amount_at_previous_n_retractions.getLast? = some back ∧
          s.extrusion_amount < back + s.retraction_extrusion_window) := by
  have hne := writeRetraction_proceed_ne s config hr
  cases hb : s.extrusion_amount_at_previous_n_retractions.getLast? with
  | none =>
    unfold writeRetraction
    rw [if_neg hf, if_neg (by simp [hr]), if_neg (not_le.mpr ha), hb]
    by_cases h1 : 0 < s.retraction_count_max ∧
        (s.extrusion_amount_at_previous_n_retractions.length : Int) = s.retraction_count_max - 1
    · simp [h1]
    · have h4 : ¬((!false) = true ∧ 0 < s.retraction_count_max ∧
          (s.extrusion_amount_at_previous_n_retractions.length : Int)
            = s.retraction_count_max - 1) := by
        simpa using h1
      rw [if_neg h4]
      simp [hne]
  | some back =>
    rw [writeRetraction_of_back s config false back hf hr ha hb]
    by_cases h1 : 0 < s.retraction_count_max ∧
        (s.extrusion_amount_at_previous_n_retractions.length : Int)
          = s.retraction_count_max - 1 ∧
        s.extrusion_amount < back + s.retraction_extrusion_window
    · simp [h1]
    · have h2 : ¬(false = false ∧ 0 < s.retraction_count_max ∧
          (s.extrusion_amount_at_previous_n_retractions.length : Int)
            = s.retraction_count_max - 1 ∧
          s.extrusion_amount < back + s.retraction_extrusion_window) := fun h => h1 h.2
      rw [if_neg h2]
      simp only [Option.some.injEq, hne, false_iff]
      rintro ⟨h3, h4, b, hb2, h5⟩
      cases hb2
      exact h1 ⟨h3, h4, h5⟩

/-- In exact arithmetic the reset keeps the window test relative to the new
zero point: the differences `extrusion_amount - h` over the history entries `h`
are the same after the reset as before it, and a non-forced `writeRetraction`
issued right after the reset is skipped if and only if the same request issued
right before the reset is skipped. -/
theorem resetExtrusionValue_window_exact (s : GCodeExport) (config : RetractionConfig) :
    s.resetExtrusionValue.extrusion_amount_at_previous_n_retractions.map
        (fun h => s.resetExtrusionValue.extrusion_amount - h)
      = s.extrusion_amount_at_previous_n_retractions.map (fun h => s.extrusion_amount - h) ∧
    (s.resetExtrusionValue.writeRetraction config false = some s.resetExtrusionValue ↔
      s.writeRetraction config false = some s) := by
  by_cases hg : s.extrusion_amount ≠ 0 ∧ s.flavor ≠ GCODE_FLAVOR_MAKERBOT ∧
      s.flavor ≠ GCODE_FLAVOR_BFB
  · have hfr := resetExtrusionValue_frame s
    have hea : s.resetExtrusionValue.extrusion_amount = 0 := by
      rw [resetExtrusionValue_of_guard s hg]
    have hh : s.resetExtrusionValue.extrusion_amount_at_previous_n_retractions
        = s.extrusion_amount_at_previous_n_retractions.map (fun a => a - s.extrusion_amount) := by
      rw [resetExtrusionValue_of_guard s hg]
    constructor
    · rw [hea, hh, List.map_map]
      apply List.map_congr_left
      intro a _
      simp
    · by_cases hn : s.isRetracted = true ∨ config.amount ≤ 0
      · have h1 := writeRetraction_guarded s config false (Or.inr hn)
        have h2 := writeRetraction_guarded s.resetExtrusionValue config false
          (Or.inr (by simpa [hfr] using hn))
        simp [h1, h2]
      · have hr : s.isRetracted = false := by
          cases h : s.isRetracted
          · rfl
          · exact absurd (Or.inl h) hn
        have ha : 0 < config.amount := not_le.mp (fun h => hn (Or.inr h))
        rw [writeRetraction_eq_self_iff s config hg.2.2 hr ha,
          writeRetraction_eq_self_iff s.resetExtrusionValue config
            (by simpa [hfr] using hg.2.2) (by simpa [hfr] using hr) ha]
        simp only [hfr, hea, hh, List.length_map, List.getLast?_map]
        constructor
        · rintro ⟨h1, h2, b, hb, h3⟩
          cases hl : s.extrusion_amount_at_previous_n_retractions.getLast? with
          | none => simp [hl] at hb
          | some back =>
            simp only [hl, Option.map_some', Option.some.injEq] at hb
            subst hb
            exact ⟨h1, h2, back, rfl, by linarith⟩
        · rintro ⟨h1, h2, back, hb, h3⟩
          exact ⟨h1, h2, back - s.extrusion_amount, by simp [hb], by linarith⟩
  · rw [resetExtrusionValue_of_not_guard s hg]
    exact ⟨rfl, Iff.rfl⟩

/-! ### Ancillary commands -/

/-- C14: `writeTemperatureCommand extruder temperature wait` writes nothing exactly
when metal printing is active or (`wait` is false and `temperature` is the
recorded temperature of that extruder); otherwise it writes one line, `M109`
when `wait` and `M104` when not, then ` T<extruder>` if and only if `extruder`
is not the active extruder, then ` S<temperature>` and the newline. In every
case the recorded temperature of that extruder is `temperature` afterwards and
no other extruder's recorded temperature changes. -/
theorem writeTemperatureCommand_line (s : GCodeExport) (extruder temperature : Int)
    (wait : Bool) :
    (s.writeTemperatureCommand extruder temperature wait).output_stream = s.output_stream ++
      (if s.isMetalPrinting = true ∨
          (wait = false ∧ s.currentTemperature extruder = temperature) then []
        else
          [.lit (if wait = true then "M109" else "M104")] ++
          (if extruder ≠ s.current_extruder then [.lit " T", .int extruder] else []) ++
          [.lit " S", .int temperature, .lit "\n"]) ∧
    (s.writeTemperatureCommand extruder temperature wait).currentTemperature extruder
      = temperature ∧
    ∀ e, e ≠ extruder →
      (s.writeTemperatureCommand extruder temperature wait).currentTemperature e
        = s.currentTemperature e := by
  unfold writeTemperatureCommand
  simp only [emit]
  rcases eq_or_ne extruder s.current_extruder with rfl | he
  · cases hm : s.isMetalPrinting <;> cases wait <;>
      by_cases ht : s.currentTemperature s.current_extruder = temperature <;>
      refine ⟨by simp [hm, ht], by simp [hm, ht], fun e hne => ?_⟩ <;>
      simp [hm, ht, Function.update_noteq hne]
  · cases hm : s.isMetalPrinting <;> cases wait <;>
      by_cases ht : s.currentTemperature extruder = temperature <;>
      refine ⟨by simp [hm, ht, he], by simp [hm, ht, he], fun e hne => ?_⟩ <;>
      simp [hm, ht, he, Function.update_noteq hne]

theorem fan_value (speed : Int) (h : 0 < speed) :
    (speed * 255).tdiv 100 = ⌊((speed : ℚ) * 255) / 100⌋ := by
  have h1 : (0 : Int) ≤ speed * 255 := by positivity
  rw [Int.tdiv_eq_ediv h1 (by norm_num)]
  have h2 := Rat.floor_intCast_div_natCast (speed * 255) 100
  push_cast at h2
  rw [h2]

/-- C15: `writeFanCommand speed` returns the state unchanged when `speed` is the
last fan speed written; otherwise it records `speed` and writes one line: for
every flavor but Makerbot `M106 S<v>` with `v = ⌊speed * 255 / 100⌋` when
`speed > 0` and `M107` when `speed ≤ 0`; for Makerbot the fixed `M126 T0`
(on) or `M127 T0` (off). Every percentage 1..100 maps into 0..255 and 100
maps to 255. -/
theorem writeFanCommand_line (s : GCodeExport) (speed : Int) :
    (s.currentFanSpeed = speed → s.writeFanCommand speed = s) ∧
    (s.currentFanSpeed ≠ speed →
      (s.writeFanCommand speed).output_stream = s.output_stream ++
        (if 0 < speed then
          (if s.flavor = GCODE_FLAVOR_MAKERBOT then [.lit "M126 T0\n"]
            else [.lit "M106 S", .int ⌊((speed : ℚ) * 255) / 100⌋, .lit "\n"])
        else
          (if s.flavor = GCODE_FLAVOR_MAKERBOT then [.lit "M127 T0\n"]
            else [.lit "M107\n"])) ∧
      (s.writeFanCommand speed).currentFanSpeed = speed) ∧
    (1 ≤ speed → speed ≤ 100 →
      0 ≤ ⌊((speed : ℚ) * 255) / 100⌋ ∧ ⌊((speed : ℚ) * 255) / 100⌋ ≤ 255) ∧
    ⌊(((100 : Int) : ℚ) * 255) / 100⌋ = 255 := by
  refine ⟨?_, ?_, ?_, ?_⟩
  · intro h
    simp [writeFanCommand, h]
  · intro h
    unfold writeFanCommand
    rw [if_neg h]
    simp only [emit]
    by_cases hs : 0 < speed <;> by_cases hf : s.flavor = GCODE_FLAVOR_MAKERBOT <;>
      simp [hs, hf, fan_value]
  · intro h1 h2
    have hs : 0 < speed := by omega
    rw [← fan_value speed hs]
    constructor
    · apply Int.tdiv_nonneg <;> omega
    · have : (speed * 255).tdiv 100 = (speed * 255) / 100 :=
        Int.tdiv_eq_ediv (by positivity) (by norm_num)
      rw [this]
      omega
  · rw [← fan_value 100 (by norm_num)]
    decide

/-! ### A retraction that is carried out -/

theorem writeRetraction_not_suppressed (s : GCodeExport) (config : RetractionConfig)
    (force : Bool) (hf : s.flavor ≠ GCODE_FLAVOR_BFB) (hr : s.isRetracted = false)
    (ha : 0 < config.amount)
    (hns : force = true ∨
      ¬(0 < s.retraction_count_max ∧
        (s.extrusion_amount_at_previous_n_retractions.length : Int)
          = s.retraction_count_max - 1) ∨
      ∃ back, s.extrusion_amount_at_previous_n_retractions.getLast? = some back ∧
        back + s.retraction_extrusion_window ≤ s.extrusion_amount) :
    s.writeRetraction config force = some (s.writeRetraction_proceed config) := by
  rcases hns with h | h | ⟨back, hb, h⟩
  · subst h
    exact writeRetraction_forced s config hf hr ha
  · unfold writeRetraction
    rw [if_neg hf, if_neg (by simp [hr]), if_neg (not_le.mpr ha)]
    rw [if_neg (fun h2 => h h2.2)]
  · rw [writeRetraction_of_back s config force back hf hr ha hb]
    rw [if_neg (fun h2 => absurd h2.2.2.2 (not_lt.mpr h))]

theorem writeRetraction_proceed_fields (s : GCodeExport) (config : RetractionConfig) :
    (s.writeRetraction_proceed config).extrusion_amount
      = (if 0 < config.primeAmount then s.extrusion_amount + config.primeAmount
          else s.extrusion_amount) ∧
    (s.writeRetraction_proceed config).retractionPrimeSpeed = config.primeSpeed ∧
    (s.writeRetraction_proceed config).isRetracted = true ∧
    (s.writeRetraction_proceed config).isZHopped
      = (if 0 < config.zHop then true else s.isZHopped) ∧
    (s.writeRetraction_proceed config).currentPosition = s.currentPosition := by
  unfold writeRetraction_proceed
  simp only [emit, plan]
  split_ifs <;> simp

theorem writeRetraction_proceed_history_eq (s : GCodeExport) (config : RetractionConfig) :
    (s.writeRetraction_proceed config).extrusion_amount_at_previous_n_retractions
      = (if (((s.writeRetraction_proceed config).extrusion_amount ::
              s.extrusion_amount_at_previous_n_retractions).length : Int)
            = s.retraction_count_max then
          ((s.writeRetraction_proceed config).extrusion_amount ::
            s.extrusion_amount_at_previous_n_retractions).dropLast
        else (s.writeRetraction_proceed config).extrusion_amount ::
          s.extrusion_amount_at_previous_n_retractions) := by
  have hea := (writeRetraction_proceed_fields s config).1
  rw [hea]
  unfold writeRetraction_proceed
  simp only [emit, plan]
  split_ifs <;> simp_all

theorem writeRetraction_proceed_head (s : GCodeExport) (config : RetractionConfig)
    (hmax : 2 ≤ s.retraction_count_max) :
    (s.writeRetraction_proceed config).extrusion_amount_at_previous_n_retractions.head?
      = some (s.writeRetraction_proceed config).extrusion_amount := by
  rw [writeRetraction_proceed_history_eq]
  split_ifs with h
  · cases hl : s.extrusion_amount_at_previous_n_retractions with
    | nil =>
      rw [hl] at h
      simp at h
      omega
    | cons b t => simp [List.dropLast]
  · simp

theorem writeRetraction_proceed_output (s : GCodeExport) (config : RetractionConfig)
    (hnv : ¬(s.flavor = GCODE_FLAVOR_ULTIGCODE ∨ s.flavor = GCODE_FLAVOR_REPRAP_VOLUMATRIC)) :
    (s.writeRetraction_proceed config).output_stream = s.output_stream ++
      [.lit "G1 F", .int (config.speed * 60), .lit " ",
        .chr (s.extruderCharacter s.current_extruder),
        .real 5 ((s.writeRetraction_proceed config).extrusion_amount - config.amount),
        .lit "\n"] ++
      (if 0 < config.zHop then
        [.lit "G1 Z", .real 3 (INT2MM (s.currentPosition.z + config.zHop)), .lit "\n"]
      else []) := by
  have hea := (writeRetraction_proceed_fields s config).1
  rw [hea]
  unfold writeRetraction_proceed
  simp only [emit, plan]
  split_ifs <;> simp_all

/-- C16: when `writeRetraction` is carried out (flavor not BFB, not retracted,
`amount > 0`, and not suppressed: forced, or the count test fails, or the
window test fails on the oldest entry), it returns a state in which
`extrusion_amount` is the old value plus `primeAmount` if `primeAmount > 0` and
the old value otherwise, the remembered prime speed is `config.primeSpeed`, the
retracted flag is set, the z-hop flag is set if `config.zHop > 0` and unchanged
otherwise, the current position is unchanged and, when
`retraction_count_max ≥ 2`, the front entry of the history is the new
`extrusion_amount`. For the non-volumetric flavors the first line written
moves the extrusion axis to the new `extrusion_amount` minus `config.amount`
at feed rate `config.speed * 60`; the z-hop line, if any, follows it. -/
theorem writeRetraction_carried_out (s : GCodeExport) (config : RetractionConfig)
    (force : Bool) (hf : s.flavor ≠ GCODE_FLAVOR_BFB) (hr : s.isRetracted = false)
    (ha : 0 < config.amount)
    (hns : force = true ∨
      ¬(0 < s.retraction_count_max ∧
        (s.extrusion_amount_at_previous_n_retractions.length : Int)
          = s.retraction_count_max - 1) ∨
      ∃ back, s.extrusion_amount_at_previous_n_retractions.getLast? = some back ∧
        back + s.retraction_extrusion_window ≤ s.extrusion_amount) :
    ∃ s1, s.writeRetraction config force = some s1 ∧
      s1.extrusion_amount = (if 0 < config.primeAmount
        then s.extrusion_amount + config.primeAmount else s.extrusion_amount) ∧
      s1.retractionPrimeSpeed = config.primeSpeed ∧
      s1.isRetracted = true ∧
      s1.isZHopped = (if 0 < config.zHop then true else s.isZHopped) ∧
      s1.currentPosition = s.currentPosition ∧
      (2 ≤ s.retraction_count_max →
        s1.extrusion_amount_at_previous_n_retractions.head? = some s1.extrusion_amount) ∧
      (¬(s.flavor = GCODE_FLAVOR_ULTIGCODE ∨ s.flavor = GCODE_FLAVOR_REPRAP_VOLUMATRIC) →
        s1.output_stream = s.output_stream ++
          [.lit "G1 F", .int (config.speed * 60), .lit " ",
            .chr (s.extruderCharacter s.current_extruder),
            .real 5 (s1.extrusion_amount - config.amount), .lit "\n"] ++
          (if 0 < config.zHop then
            [.lit "G1 Z", .real 3 (INT2MM (s.currentPosition.z + config.zHop)), .lit "\n"]
          else [])) := by
  obtain ⟨h1, h2, h3, h4, h5⟩ := writeRetraction_proceed_fields s config
  exact ⟨s.writeRetraction_proceed config,
    writeRetraction_not_suppressed s config force hf hr ha hns, h1, h2, h3, h4, h5,
    writeRetraction_proceed_head s config, writeRetraction_proceed_output s config⟩

/-- Witness of C16: the first non-forced retraction of a fresh encoder with
ceiling 3. -/
theorem writeRetraction_carried_out_witness :
    (fresh.setRetractionSettings 14500 25 25 1000 3).flavor ≠ GCODE_FLAVOR_BFB ∧
    (fresh.setRetractionSettings 14500 25 25 1000 3).isRetracted = false ∧
    0 < retract45.amount ∧
    (false = true ∨
      ¬(0 < (fresh.setRetractionSettings 14500 25 25 1000 3).retraction_count_max ∧
        ((fresh.setRetractionSettings 14500 25 25 1000
            3).extrusion_amount_at_previous_n_retractions.length : Int)
          = (fresh.setRetractionSettings 14500 25 25 1000 3).retraction_count_max - 1) ∨
      ∃ back, (fresh.setRetractionSettings 14500 25 25 1000
            3).extrusion_amount_at_previous_n_retractions.getLast? = some back ∧
        back + (fresh.setRetractionSettings 14500 25 25 1000 3).retraction_extrusion_window
          ≤ (fresh.setRetractionSettings 14500 25 25 1000 3).extrusion_amount) ∧
    ∃ s1, (fresh.setRetractionSettings 14500 25 25 1000 3).writeRetraction retract45 false
        = some s1 ∧
      s1.extrusion_amount = (if 0 < retract45.primeAmount
        then (fresh.setRetractionSettings 14500 25 25 1000 3).extrusion_amount
          + retract45.primeAmount
        else (fresh.setRetractionSettings 14500 25 25 1000 3).extrusion_amount) ∧
      s1.retractionPrimeSpeed = retract45.primeSpeed ∧
      s1.isRetracted = true ∧
      s1.isZHopped = (if 0 < retract45.zHop then true
        else (fresh.setRetractionSettings 14500 25 25 1000 3).isZHopped) ∧
      s1.currentPosition = (fresh.setRetractionSettings 14500 25 25 1000 3).currentPosition ∧
      (2 ≤ (fresh.setRetractionSettings 14500 25 25 1000 3).retraction_count_max →
        s1.extrusion_amount_at_previous_n_retractions.head? = some s1.extrusion_amount) ∧
      (¬((fresh.setRetractionSettings 14500 25 25 1000 3).flavor = GCODE_FLAVOR_ULTIGCODE ∨
          (fresh.setRetractionSettings 14500 25 25 1000 3).flavor
            = GCODE_FLAVOR_REPRAP_VOLUMATRIC) →
        s1.output_stream = (fresh.setRetractionSettings 14500 25 25 1000 3).output_stream ++
          [.lit "G1 F", .int (retract45.speed * 60), .lit " ",
            .chr ((fresh.setRetractionSettings 14500 25 25 1000 3).extruderCharacter
              (fresh.setRetractionSettings 14500 25 25 1000 3).current_extruder),
            .real 5 (s1.extrusion_amount - retract45.amount), .lit "\n"] ++
          (if 0 < retract45.zHop then
            [.lit "G1 Z", .real 3 (INT2MM ((fresh.setRetractionSettings 14500 25 25 1000
              3).currentPosition.z + retract45.zHop)), .lit "\n"]
          else [])) := by
  have hf : (fresh.setRetractionSettings 14500 25 25 1000 3).flavor ≠ GCODE_FLAVOR_BFB := by
    simp [setRetractionSettings, fresh_fields]
  have hr : (fresh.setRetractionSettings 14500 25 25 1000 3).isRetracted = false := by
    simp [setRetractionSettings, fresh_fields]
  have ha : 0 < retract45.amount := by norm_num [retract45]
  have hns : (false = true ∨
      ¬(0 < (fresh.setRetractionSettings 14500 25 25 1000 3).retraction_count_max ∧
        ((fresh.setRetractionSettings 14500 25 25 1000
            3).extrusion_amount_at_previous_n_retractions.length : Int)
          = (fresh.setRetractionSettings 14500 25 25 1000 3).retraction_count_max - 1) ∨
      ∃ back, (fresh.setRetractionSettings 14500 25 25 1000
            3).extrusion_amount_at_previous_n_retractions.getLast? = some back ∧
        back + (fresh.setRetractionSettings 14500 25 25 1000 3).retraction_extrusion_window
          ≤ (fresh.setRetractionSettings 14500 25 25 1000 3).extrusion_amount) := by
    refine Or.inr (Or.inl ?_)
    simp [setRetractionSettings, fresh_fields]
  exact ⟨hf, hr, ha, hns,
    writeRetraction_carried_out (fresh.setRetractionSettings 14500 25 25 1000 3) retract45 false
      hf hr ha hns⟩

/-! ### Line endings -/

/-- C11, evaluated where the code fails it: on the fresh encoder set to BFB,
`writeFanCommand`, `writeTemperatureCommand`, `writeBedTemperatureCommand` and
`writeDelay` end their line with a bare newline, where `writeCode`, on the same
encoder, ends its line with carriage return and newline. -/
theorem BFB_bare_newline :
    bfbBase.flavor = GCODE_FLAVOR_BFB ∧
    render ((bfbBase.writeFanCommand 50).output_stream) = "M106 S127\n" ∧
    render ((bfbBase.writeTemperatureCommand 0 210 false).output_stream) = "M104 S210\n" ∧
    render ((bfbBase.writeBedTemperatureCommand 60 false).output_stream) = "M140 S60\n" ∧
    render ((bfbBase.writeDelay 2).output_stream) = "G4 P2000\n" ∧
    render ((bfbBase.writeCode "M84").output_stream) = "M84\r\n" := by
  have hf : bfbBase.flavor = GCODE_FLAVOR_BFB := bfbBase_fields.1
  have ho : bfbBase.output_stream = [] := bfbBase_fields.2.2.2.2.2.2.2
  have hfan : bfbBase.currentFanSpeed = -1 := by
    simp [bfbBase, fresh, GCodeExport.GCodeExport, setFlavor, setFilamentDiameter]
  have hmp : bfbBase.isMetalPrinting = false := by
    simp [bfbBase, fresh, GCodeExport.GCodeExport, setFlavor, setFilamentDiameter, mem0]
  have htemp : bfbBase.currentTemperature 0 = 0 := by
    simp [bfbBase, fresh, GCodeExport.GCodeExport, setFlavor, setFilamentDiameter, fill,
      Headers.std]
  have hcur : bfbBase.current_extruder = 0 := bfbBase_fields.2.1
  have hti : toInt ((2 : ℚ) * 1000) = 2000 := by
    unfold toInt
    rw [if_neg (by norm_num), Int.floor_eq_iff]
    norm_num
  refine ⟨hf, ?_, ?_, ?_, ?_, ?_⟩
  · have : (bfbBase.writeFanCommand 50).output_stream
        = [.lit "M106 S", .int 127, .lit "\n"] := by
      simp [writeFanCommand, emit, hfan, hf, ho]
      decide
    rw [this]; decide
  · have : (bfbBase.writeTemperatureCommand 0 210 false).output_stream
        = [.lit "M104", .lit " S", .int 210, .lit "\n"] := by
      simp [writeTemperatureCommand, emit, hmp, htemp, hcur, ho]
    rw [this]; decide
  · have : (bfbBase.writeBedTemperatureCommand 60 false).output_stream
        = [.lit "M140 S", .int 60, .lit "\n"] := by
      simp [writeBedTemperatureCommand, emit, ho]
    rw [this]; decide
  · have : (bfbBase.writeDelay 2).output_stream = [.lit "G4 P", .int 2000, .lit "\n"] := by
      simp [writeDelay, emit, ho, hti]
    rw [this]; decide
  · have : (bfbBase.writeCode "M84").output_stream = [.text "M84", .lit "\r\n"] := by
      simp [writeCode, emit, ho, hf]
    rw [this]; decide

/-! ### The switch texts -/

theorem switchExtruder_output (s : GCodeExport) (n : Int) (hn : s.current_extruder ≠ n)
    (hf : s.flavor ≠ GCODE_FLAVOR_BFB) :
    (s.switchExtruder n).output_stream = s.output_stream ++
      ((if s.extrusion_amount ≠ 0 ∧ s.flavor ≠ GCODE_FLAVOR_MAKERBOT ∧
            s.flavor ≠ GCODE_FLAVOR_BFB then
          [.lit "G92 ", .chr (s.extruderCharacter s.current_extruder), .lit "0\n"]
        else []) ++
        (if s.flavor = GCODE_FLAVOR_ULTIGCODE ∨ s.flavor = GCODE_FLAVOR_REPRAP_VOLUMATRIC then
          [.lit "G10 S1\n"]
        else
          [.lit "G1 F", .int (s.extruderSwitchRetractionSpeed * 60), .lit " ",
            .chr (s.extruderCharacter s.current_extruder),
            .real 5 (s.resetExtrusionValue.extrusion_amount - s.extruderSwitchRetraction),
            .lit "\n"])) ++
      [.text (s.preSwitchExtruderCode n), .lit "\n",
        .lit (if s.flavor = GCODE_FLAVOR_MAKERBOT then "M135 T" else "T"), .int n, .lit "\n",
        .text (s.postSwitchExtruderCode n), .lit "\n"] := by
  rw [switchExtruder_of_ne s n hn hf]
  have hsel := switchExtruder_select_output
    ({ s.resetExtrusionValue.switchExtruder_retract with
        current_extruder := n, isRetracted := true })
    (by simpa [switchExtruder_retract_frame, resetExtrusionValue_frame] using hf)
  simp only [hsel]
  simp [switchExtruder_retract_frame, resetExtrusionValue_frame,
    switchExtruder_retract_output, resetExtrusionValue_output]

/-- C13, amended to the extruder whose pre-switch text is written: in
`switchExtruder newIndex` with `newIndex` different from the current extruder
and a flavor other than BFB, the custom text written immediately before the
tool-select instruction is the pre-switch text configured for the new
extruder, and the custom text written immediately after it is the post-switch
text configured for the new extruder; `before` is the reset and the switch
retraction. -/
theorem switchExtruder_switch_texts (s : GCodeExport) (newIndex : Int)
    (hf : s.flavor ≠ GCODE_FLAVOR_BFB) (hn : s.current_extruder ≠ newIndex) :
    ∃ before : List Tok,
      (s.switchExtruder newIndex).output_stream = s.output_stream ++ before ++
        [.text (s.preSwitchExtruderCode newIndex), .lit "\n",
          .lit (if s.flavor = GCODE_FLAVOR_MAKERBOT then "M135 T" else "T"),
          .int newIndex, .lit "\n",
          .text (s.postSwitchExtruderCode newIndex), .lit "\n"] ∧
      ∀ t ∈ before, ∀ str, t ≠ .text str := by
  refine ⟨_, by rw [switchExtruder_output s newIndex hn hf, List.append_assoc], ?_⟩
  split_ifs <;> simp

theorem twoCodes_fields :
    twoCodes.flavor = GCODE_FLAVOR_REPRAP ∧ twoCodes.current_extruder = 0 ∧
    twoCodes.extrusion_amount = 0 ∧ twoCodes.output_stream = [] ∧
    twoCodes.extruderSwitchRetractionSpeed = 0 ∧ twoCodes.extruderSwitchRetraction = 145 / 10 ∧
    twoCodes.extruderCharacter 0 = 'E' ∧
    twoCodes.preSwitchExtruderCode 0 = "PRE0" ∧ twoCodes.preSwitchExtruderCode 1 = "PRE1" ∧
    twoCodes.postSwitchExtruderCode 1 = "POST1" := by
  simp [twoCodes, fresh, GCodeExport.GCodeExport, setFlavor, setSwitchExtruderCode, fill,
    Headers.std, mem0]

/-- Witness of C13 (amended): the encoder with distinct switch texts, switching
from extruder 0 to extruder 1. -/
theorem switchExtruder_switch_texts_witness :
    twoCodes.flavor ≠ GCODE_FLAVOR_BFB ∧ twoCodes.current_extruder ≠ 1 ∧
    ∃ before : List Tok,
      (twoCodes.switchExtruder 1).output_stream = twoCodes.output_stream ++ before ++
        [.text (twoCodes.preSwitchExtruderCode 1), .lit "\n",
          .lit (if twoCodes.flavor = GCODE_FLAVOR_MAKERBOT then "M135 T" else "T"),
          .int 1, .lit "\n",
          .text (twoCodes.postSwitchExtruderCode 1), .lit "\n"] ∧
      ∀ t ∈ before, ∀ str, t ≠ .text str :=
  ⟨by simp [twoCodes_fields], by simp [twoCodes_fields],
    switchExtruder_switch_texts twoCodes 1 (by simp [twoCodes_fields])
      (by simp [twoCodes_fields])⟩

/-- C13 fails for the pre-switch text: with the pre-switch texts `PRE0` for
extruder 0 and `PRE1` for extruder 1, switching from extruder 0 to extruder 1
writes `PRE1`, the text of the new extruder, before the tool-select
instruction `T1`; `PRE0`, the text of the outgoing extruder, is not written. -/
theorem switchExtruder_pre_text_of_new :
    twoCodes.current_extruder = 0 ∧ twoCodes.preSwitchExtruderCode 0 = "PRE0" ∧
    (twoCodes.switchExtruder 1).output_stream =
      [.lit "G1 F", .int 0, .lit " ", .chr 'E', .real 5 (-(145 / 10)), .lit "\n",
        .text "PRE1", .lit "\n", .lit "T", .int 1, .lit "\n", .text "POST1", .lit "\n"] ∧
    Tok.text "PRE0" ∉ (twoCodes.switchExtruder 1).output_stream := by
  obtain ⟨hf, hc, hea, ho, hs, hr, hch, hp0, hp1, hq1⟩ := twoCodes_fields
  have hout : (twoCodes.switchExtruder 1).output_stream =
      [.lit "G1 F", .int 0, .lit " ", .chr 'E', .real 5 (-(145 / 10)), .lit "\n",
        .text "PRE1", .lit "\n", .lit "T", .int 1, .lit "\n", .text "POST1", .lit "\n"] := by
    rw [switchExtruder_output twoCodes 1 (by simp [hc]) (by simp [hf])]
    have hreset : twoCodes.resetExtrusionValue = twoCodes :=
      resetExtrusionValue_of_not_guard _ (by simp [hea])
    simp [hreset, hf, hc, hea, ho, hs, hr, hch, hp1, hq1]
  refine ⟨hc, hp0, hout, ?_⟩
  rw [hout]
  decide

/-! ### Priming and the z-hop return -/

theorem resetExtrusionValue_output_ext (s : GCodeExport) :
    ∃ r : List Tok, s.resetExtrusionValue.output_stream = s.output_stream ++ r ∧
      Tok.lit "G1" ∉ r := by
  refine ⟨_, resetExtrusionValue_output s, ?_⟩
  split_ifs <;> simp

theorem writeMove_prime_output (s : GCodeExport) :
    ∃ mid : List Tok,
      s.writeMove_prime.output_stream = s.output_stream ++
        (if s.flavor = GCODE_FLAVOR_ULTIGCODE ∨ s.flavor = GCODE_FLAVOR_REPRAP_VOLUMATRIC then
          [.lit "G11\n"]
        else
          [.lit "G1 F", .int (s.retractionPrimeSpeed * 60), .lit " ",
            .chr (s.extruderCharacter s.current_extruder), .real 5 s.extrusion_amount,
            .lit "\n"]) ++ mid ∧
      Tok.lit "G1" ∉ mid := by
  unfold writeMove_prime
  simp only [emit, plan]
  split_ifs with h1 h2 h3
  · obtain ⟨r, hr, hr2⟩ := resetExtrusionValue_output_ext
      ({ s with
        output_stream := s.output_stream ++ [.lit "G11\n"]
        estimateCalculator := s.estimateCalculator ++
          [(⟨INT2MM s.currentPosition.x, INT2MM s.currentPosition.y,
            INT2MM s.currentPosition.z, s.extrusion_amount⟩, 25)] })
    exact ⟨r, hr, hr2⟩
  · exact ⟨[], by simp, by simp⟩
  · obtain ⟨r, hr, hr2⟩ := resetExtrusionValue_output_ext
      ({ s with
        output_stream := s.output_stream ++ [.lit "G1 F", .int (s.retractionPrimeSpeed * 60),
          .lit " ", .chr (s.extruderCharacter s.current_extruder), .real 5 s.extrusion_amount,
          .lit "\n"]
        currentSpeed := s.retractionPrimeSpeed
        estimateCalculator := s.estimateCalculator ++
          [(⟨INT2MM s.currentPosition.x, INT2MM s.currentPosition.y,
            INT2MM s.currentPosition.z, s.extrusion_amount⟩, (s.retractionPrimeSpeed : ℚ))] })
    exact ⟨r, hr, hr2⟩
  · exact ⟨[], by simp, by simp⟩

theorem writeMove_extrude_flags (H : Headers) (s : GCodeExport) (d : Point3) (e : ℚ) :
    (s.writeMove_extrude H d e).isRetracted = false ∧
    (s.writeMove_extrude H d e).isZHopped = false := by
  have hp : ∀ t : GCodeExport, t.writeMove_prime.isRetracted = false := by
    intro t
    unfold writeMove_prime
    simp
  unfold writeMove_extrude
  simp only [emit]
  cases hz : s.isZHopped <;> cases hr : s.isRetracted <;>
    simp [hz, hr, hp, writeMove_prime_frame, apply_ite]

theorem writeMove_extrude_output (H : Headers) (s : GCodeExport) (d : Point3) (e : ℚ)
    (hz : s.isZHopped = true) (hr : s.isRetracted = true) :
    ∃ mid : List Tok,
      (s.writeMove_extrude H d e).output_stream = s.output_stream ++
        [.lit "G1 Z", .real 3 (INT2MM s.currentPosition.z), .lit "\n"] ++
        (if s.flavor = GCODE_FLAVOR_ULTIGCODE ∨ s.flavor = GCODE_FLAVOR_REPRAP_VOLUMATRIC then
          [.lit "G11\n"]
        else
          [.lit "G1 F", .int (s.retractionPrimeSpeed * 60), .lit " ",
            .chr (s.extruderCharacter s.current_extruder), .real 5 s.extrusion_amount,
            .lit "\n"]) ++ mid ++ [.lit "G1"] ∧
      Tok.lit "G1" ∉ mid := by
  obtain ⟨mid, hm, hmid⟩ := writeMove_prime_output
    ({ (s.emit [.lit "G1 Z", .real 3 (INT2MM s.currentPosition.z), .lit "\n"]) with
      isZHopped := false })
  have he : s.writeMove_extrude H d e =
      (let s2 := ({ (s.emit [.lit "G1 Z", .real 3 (INT2MM s.currentPosition.z), .lit "\n"]) with
          isZHopped := false } : GCodeExport).writeMove_prime
       let s3 := if s2.isMetalPrinting then
          (if !s2.isWelding then { s2 with isWelding := true }.emit [.text s2.welder_on] else s2)
          else s2
       ({ s3 with extrusion_amount := s3.extrusion_amount + e * H.vSizeMM d } :
          GCodeExport).emit [.lit "G1"]) := by
    unfold writeMove_extrude
    simp only [hz, hr, if_true, emit]
  rw [he]
  clear he
  generalize ({ (s.emit [.lit "G1 Z", .real 3 (INT2MM s.currentPosition.z), .lit "\n"]) with
      isZHopped := false } : GCodeExport).writeMove_prime = p at hm
  simp only [emit] at hm
  simp only [emit]
  by_cases hw : p.isMetalPrinting = true ∧ p.isWelding = false
  · refine ⟨mid ++ [.text p.welder_on], ?_, by simp [hmid]⟩
    simp [hw.1, hw.2, hm]
  · refine ⟨mid, ?_, hmid⟩
    cases h1 : p.isMetalPrinting <;> cases h2 : p.isWelding <;>
      first
      | (simp [h1, h2, hm]; done)
      | exact absurd ⟨h1, h2⟩ hw

theorem writeMove_E_extruding_output (H : Headers) (s : GCodeExport) (x y z speed : Int)
    (e e1 : ℚ) (he : 1 / 1000000 < e) :
    (∃ rest : List Tok,
      (s.writeMove_E H x y z speed e e1).output_stream
        = (s.writeMove_extrude H (⟨x, y, z⟩ - s.getPosition) e1).output_stream ++ rest ∧
      rest.getLast? = some (.lit "\n")) ∧
    (s.writeMove_E H x y z speed e e1).isZHopped
      = (s.writeMove_extrude H (⟨x, y, z⟩ - s.getPosition) e1).isZHopped := by
  unfold writeMove_E
  simp only [emit, if_pos he]
  constructor
  · split_ifs <;> exact ⟨_, by simp only [List.append_assoc]; rfl, by simp⟩
  · split_ifs <;> simp

theorem writeMove_E_output (H : Headers) (s : GCodeExport) (x y z speed : Int) (e : ℚ)
    (hf : s.flavor ≠ GCODE_FLAVOR_BFB)
    (hp : ¬(s.currentPosition.x = x ∧ s.currentPosition.y = y ∧ s.currentPosition.z = z)) :
    (s.writeMove H x y z speed e).output_stream
      = (s.writeMove_E H x y z speed e (s.extrusion_per_mm e)).output_stream ∧
    (s.writeMove H x y z speed e).isRetracted
      = (s.writeMove_E H x y z speed e (s.extrusion_per_mm e)).isRetracted ∧
    (s.writeMove H x y z speed e).isZHopped
      = (s.writeMove_E H x y z speed e (s.extrusion_per_mm e)).isZHopped ∧
    (s.writeMove H x y z speed e).isWelding
      = (s.writeMove_E H x y z speed e (s.extrusion_per_mm e)).isWelding := by
  unfold writeMove
  rw [if_neg hp]
  simp only [if_neg hf, plan]
  exact ⟨trivial, trivial, trivial, trivial⟩

/-- C17: for every flavor other than BFB, an extruding move
(`extrusion_mm3_per_mm > 1e-6`, target different from the current position)
issued in a retracted and z-hopped state writes, in this order, the Z-only
move `G1 Z<current Z>`, then the un-retract instruction of the flavor (`G11`
for UltiGCode and RepRap-volumetric, otherwise an extrusion-axis move to the
current `extrusion_amount` at the remembered prime speed), then, after `mid`
(a reset of the extrusion value or the welder-on text, if any), the `G1`
coordinate line, which ends the output; and after every extruding move of a
flavor other than BFB the retracted flag and the z-hop flag are both clear. -/
theorem writeMove_prime_order (H : Headers) (s : GCodeExport) (x y z speed : Int) (e : ℚ)
    (hf : s.flavor ≠ GCODE_FLAVOR_BFB) (he : 1 / 1000000 < e)
    (hp : ¬(s.currentPosition.x = x ∧ s.currentPosition.y = y ∧ s.currentPosition.z = z)) :
    (s.isRetracted = true → s.isZHopped = true →
      ∃ mid rest : List Tok,
        (s.writeMove H x y z speed e).output_stream = s.output_stream ++
          [.lit "G1 Z", .real 3 (INT2MM s.currentPosition.z), .lit "\n"] ++
          (if s.flavor = GCODE_FLAVOR_ULTIGCODE ∨ s.flavor = GCODE_FLAVOR_REPRAP_VOLUMATRIC then
            [.lit "G11\n"]
          else
            [.lit "G1 F", .int (s.retractionPrimeSpeed * 60), .lit " ",
              .chr (s.extruderCharacter s.current_extruder), .real 5 s.extrusion_amount,
              .lit "\n"]) ++ mid ++ [.lit "G1"] ++ rest ∧
        Tok.lit "G1" ∉ mid ∧ rest.getLast? = some (.lit "\n")) ∧
    (s.writeMove H x y z speed e).isRetracted = false ∧
    (s.writeMove H x y z speed e).isZHopped = false := by
  obtain ⟨h1, h2, h3, -⟩ := writeMove_E_output H s x y z speed e hf hp
  obtain ⟨⟨rest, h4, h5⟩, h6⟩ :=
    writeMove_E_extruding_output H s x y z speed e (s.extrusion_per_mm e) he
  have h7 := (writeMove_E_extruding H s x y z speed e (s.extrusion_per_mm e) he).2.1
  obtain ⟨h8, h9⟩ := writeMove_extrude_flags H s (⟨x, y, z⟩ - s.getPosition)
    (s.extrusion_per_mm e)
  refine ⟨?_, by rw [h2, h7, h8], by rw [h3, h6, h9]⟩
  intro hr hz
  obtain ⟨mid, h10, h11⟩ := writeMove_extrude_output H s (⟨x, y, z⟩ - s.getPosition)
    (s.extrusion_per_mm e) hz hr
  exact ⟨mid, rest, by rw [h1, h4, h10], h11, h5⟩

theorem hoppedState_fields :
    hoppedState.flavor = GCODE_FLAVOR_REPRAP ∧ hoppedState.isRetracted = true ∧
    hoppedState.isZHopped = true ∧ hoppedState.currentPosition = ⟨0, 0, 0⟩ := by
  have hfr := writeRetraction_proceed_frame (reprapScenario Headers.std mem0) retractHop
  obtain ⟨-, -, h3, h4, h5⟩ :=
    writeRetraction_proceed_fields (reprapScenario Headers.std mem0) retractHop
  unfold hoppedState
  refine ⟨?_, h3, ?_, ?_⟩
  · rw [hfr.1]
    simp [reprapScenario, GCodeExport.GCodeExport, setFlavor, setFilamentDiameter,
      setIsMetalPrinting]
  · rw [h4]
    simp [retractHop]
  · rw [h5]
    simp [reprapScenario, GCodeExport.GCodeExport, setFlavor, setFilamentDiameter,
      setIsMetalPrinting]

/-- Witness of C17: the scenario move issued after a retraction with z-hop. -/
theorem writeMove_prime_order_witness :
    hoppedState.flavor ≠ GCODE_FLAVOR_BFB ∧ (1 / 1000000 : ℚ) < 3 / 100 ∧
    ¬(hoppedState.currentPosition.x = 10000 ∧ hoppedState.currentPosition.y = 0 ∧
      hoppedState.currentPosition.z = 0) ∧
    hoppedState.isRetracted = true ∧ hoppedState.isZHopped = true ∧
    (∃ mid rest : List Tok,
      (hoppedState.writeMove Headers.std 10000 0 0 50 (3 / 100)).output_stream
        = hoppedState.output_stream ++
          [.lit "G1 Z", .real 3 (INT2MM hoppedState.currentPosition.z), .lit "\n"] ++
          (if hoppedState.flavor = GCODE_FLAVOR_ULTIGCODE ∨
              hoppedState.flavor = GCODE_FLAVOR_REPRAP_VOLUMATRIC then
            [.lit "G11\n"]
          else
            [.lit "G1 F", .int (hoppedState.retractionPrimeSpeed * 60), .lit " ",
              .chr (hoppedState.extruderCharacter hoppedState.current_extruder),
              .real 5 hoppedState.extrusion_amount, .lit "\n"]) ++ mid ++ [.lit "G1"] ++ rest ∧
      Tok.lit "G1" ∉ mid ∧ rest.getLast? = some (.lit "\n")) ∧
    (hoppedState.writeMove Headers.std 10000 0 0 50 (3 / 100)).isRetracted = false ∧
    (hoppedState.writeMove Headers.std 10000 0 0 50 (3 / 100)).isZHopped = false := by
  obtain ⟨hf, hr, hz, hp⟩ := hoppedState_fields
  have hf1 : hoppedState.flavor ≠ GCODE_FLAVOR_BFB := by simp [hf]
  have he : (1 / 1000000 : ℚ) < 3 / 100 := by norm_num
  have hp1 : ¬(hoppedState.currentPosition.x = 10000 ∧ hoppedState.currentPosition.y = 0 ∧
      hoppedState.currentPosition.z = 0) := by simp [hp]
  have h := writeMove_prime_order Headers.std hoppedState 10000 0 0 50 (3 / 100) hf1 he hp1
  exact ⟨hf1, he, hp1, hr, hz, h.1 hr hz, h.2.1, h.2.2⟩

/-! ### Travel moves -/

theorem writeMove_travel_fields (H : Headers) (s : GCodeExport) (d : Point3) :
    (s.writeMove_travel H d).output_stream = s.output_stream ++
      (if s.isMetalPrinting = true ∧ s.isWelding = true ∧ s.min_dist_welder_off < H.vSizeMM d
        then [.text s.welder_off] else []) ++ [.lit "G0"] ∧
    (s.writeMove_travel H d).isWelding =
      (if s.isMetalPrinting = true ∧ s.isWelding = true ∧ s.min_dist_welder_off < H.vSizeMM d
        then false else s.isWelding) := by
  unfold writeMove_travel
  simp only [emit]
  by_cases hm : s.isMetalPrinting = true
  · by_cases hw : s.isWelding = true ∧ s.min_dist_welder_off < H.vSizeMM d
    · simp [hm, hw]
    · have : ¬(s.isMetalPrinting = true ∧ s.isWelding = true ∧
          s.min_dist_welder_off < H.vSizeMM d) := fun h => hw h.2
      simp [hm, hw, this]
  · simp [hm]

theorem writeMove_E_travel (H : Headers) (s : GCodeExport) (x y z speed : Int) (e e1 : ℚ)
    (he : ¬ 1 / 1000000 < e) :
    (s.writeMove_E H x y z speed e e1).output_stream
      = (s.writeMove_travel H (⟨x, y, z⟩ - s.getPosition)).output_stream ++
        (if s.currentSpeed ≠ speed then [.lit " F", .int (speed * 60)] else []) ++
        [.lit " X", .real 3 (INT2MM (x - (s.extruderOffset s.current_extruder).X)),
          .lit " Y", .real 3 (INT2MM (y - (s.extruderOffset s.current_extruder).Y))] ++
        (if z ≠ s.currentPosition.z then [.lit " Z", .real 3 (INT2MM z)] else []) ++
        [.lit "\n"] ∧
    (s.writeMove_E H x y z speed e e1).isWelding
      = (s.writeMove_travel H (⟨x, y, z⟩ - s.getPosition)).isWelding := by
  have hfr := writeMove_travel_frame H s (⟨x, y, z⟩ - s.getPosition)
  have hcs : s.currentSpeed
      = (s.writeMove_travel H (⟨x, y, z⟩ - s.getPosition)).currentSpeed := by simp [hfr]
  have hoff : s.extruderOffset
      = (s.writeMove_travel H (⟨x, y, z⟩ - s.getPosition)).extruderOffset := by simp [hfr]
  have hcur : s.current_extruder
      = (s.writeMove_travel H (⟨x, y, z⟩ - s.getPosition)).current_extruder := by simp [hfr]
  have hpos : s.currentPosition
      = (s.writeMove_travel H (⟨x, y, z⟩ - s.getPosition)).currentPosition := by simp [hfr]
  rw [hcs, hoff, hcur, hpos]
  unfold writeMove_E
  simp only [emit, if_neg he]
  generalize s.writeMove_travel H (⟨x, y, z⟩ - s.getPosition) = t
  by_cases h1 : t.currentSpeed = speed <;> by_cases h2 : z = t.currentPosition.z <;>
    simp [h1, h2]

/-- The output and the welding flag of a travel move of a non-BFB encoder. -/
theorem writeMove_traveling (H : Headers) (s : GCodeExport) (x y z speed : Int) (e : ℚ)
    (hf : s.flavor ≠ GCODE_FLAVOR_BFB) (he : ¬ 1 / 1000000 < e)
    (hp : ¬(s.currentPosition.x = x ∧ s.currentPosition.y = y ∧ s.currentPosition.z = z)) :
    (s.writeMove H x y z speed e).output_stream = s.output_stream ++
        (if s.isMetalPrinting = true ∧ s.isWelding = true ∧
            s.min_dist_welder_off < H.vSizeMM (⟨x, y, z⟩ - s.currentPosition)
          then [.text s.welder_off] else []) ++ [.lit "G0"] ++
        (if s.currentSpeed ≠ speed then [.lit " F", .int (speed * 60)] else []) ++
        [.lit " X", .real 3 (INT2MM (x - (s.extruderOffset s.current_extruder).X)),
          .lit " Y", .real 3 (INT2MM (y - (s.extruderOffset s.current_extruder).Y))] ++
        (if z ≠ s.currentPosition.z then [.lit " Z", .real 3 (INT2MM z)] else []) ++
        [.lit "\n"] ∧
    (s.writeMove H x y z speed e).isWelding =
      (if s.isMetalPrinting = true ∧ s.isWelding = true ∧
          s.min_dist_welder_off < H.vSizeMM (⟨x, y, z⟩ - s.currentPosition)
        then false else s.isWelding) := by
  obtain ⟨h1, -, -, h2⟩ := writeMove_E_output H s x y z speed e hf hp
  obtain ⟨h3, h4⟩ := writeMove_E_travel H s x y z speed e (s.extrusion_per_mm e) he
  obtain ⟨h5, h6⟩ := writeMove_travel_fields H s (⟨x, y, z⟩ - s.getPosition)
  exact ⟨by rw [h1, h3, h5]; rfl, by rw [h2, h4, h6]; rfl⟩

theorem writeMove_currentPosition (H : Headers) (s : GCodeExport) (x y z speed : Int) (e : ℚ) :
    (s.writeMove H x y z speed e).currentPosition = ⟨x, y, z⟩ := by
  by_cases hp : s.currentPosition.x = x ∧ s.currentPosition.y = y ∧ s.currentPosition.z = z
  · have : s.writeMove H x y z speed e = s := by simp [writeMove, hp]
    rw [this]
    cases hc : s.currentPosition
    simp [hc] at hp
    simp [hp]
  · unfold writeMove
    rw [if_neg hp]
    rfl

/-! ### The welder during travel -/

theorem writeMove_travel_step (H : Headers) (s : GCodeExport) (x y z speed : Int) (e : ℚ)
    (hf : s.flavor ≠ GCODE_FLAVOR_BFB) (he : ¬ 1 / 1000000 < e) :
    ∃ X : List Tok,
      (s.writeMove H x y z speed e).output_stream = s.output_stream ++ X ∧
      X.filter Tok.isText =
        (if ¬(s.currentPosition.x = x ∧ s.currentPosition.y = y ∧ s.currentPosition.z = z) ∧
            s.isMetalPrinting = true ∧ s.isWelding = true ∧
            s.min_dist_welder_off < H.vSizeMM (⟨x, y, z⟩ - s.currentPosition)
          then [.text s.welder_off] else []) ∧
      (s.writeMove H x y z speed e).isWelding =
        (if ¬(s.currentPosition.x = x ∧ s.currentPosition.y = y ∧ s.currentPosition.z = z) ∧
            s.isMetalPrinting = true ∧ s.isWelding = true ∧
            s.min_dist_welder_off < H.vSizeMM (⟨x, y, z⟩ - s.currentPosition)
          then false else s.isWelding) := by
  by_cases hp : s.currentPosition.x = x ∧ s.currentPosition.y = y ∧ s.currentPosition.z = z
  · have hs : s.writeMove H x y z speed e = s := by simp [writeMove, hp]
    rw [hs]
    refine ⟨[], by simp, ?_, ?_⟩
    · rw [if_neg (fun h => h.1 hp)]; rfl
    · rw [if_neg (fun h => h.1 hp)]
  · obtain ⟨h1, h2⟩ := writeMove_traveling H s x y z speed e hf he hp
    refine ⟨(if s.isMetalPrinting = true ∧ s.isWelding = true ∧
            s.min_dist_welder_off < H.vSizeMM (⟨x, y, z⟩ - s.currentPosition)
          then [.text s.welder_off] else []) ++ ([.lit "G0"] ++
        ((if s.currentSpeed ≠ speed then [.lit " F", .int (speed * 60)] else []) ++
        ([.lit " X", .real 3 (INT2MM (x - (s.extruderOffset s.current_extruder).X)),
          .lit " Y", .real 3 (INT2MM (y - (s.extruderOffset s.current_extruder).Y))] ++
        ((if z ≠ s.currentPosition.z then [.lit " Z", .real 3 (INT2MM z)] else []) ++
        [.lit "\n"])))), by rw [h1]; simp only [List.append_assoc], ?_, ?_⟩
    · by_cases hc : s.isMetalPrinting = true ∧ s.isWelding = true ∧
          s.min_dist_welder_off < H.vSizeMM (⟨x, y, z⟩ - s.currentPosition)
      · simp only [if_pos hc, if_pos (And.intro hp hc)]
        by_cases hs : s.currentSpeed = speed <;> by_cases hzz : z = s.currentPosition.z <;>
          simp [hs, hzz, Tok.isText]
      · have hc3 : ¬(¬(s.currentPosition.x = x ∧ s.currentPosition.y = y ∧
            s.currentPosition.z = z) ∧ s.isMetalPrinting = true ∧ s.isWelding = true ∧
            s.min_dist_welder_off < H.vSizeMM (⟨x, y, z⟩ - s.currentPosition)) :=
          fun h => hc h.2
        simp only [if_neg hc, if_neg hc3]
        by_cases hs : s.currentSpeed = speed <;> by_cases hzz : z = s.currentPosition.z <;>
          simp [hs, hzz, Tok.isText]
    · rw [h2]
      by_cases hc : s.isMetalPrinting = true ∧ s.isWelding = true ∧
          s.min_dist_welder_off < H.vSizeMM (⟨x, y, z⟩ - s.currentPosition)
      · rw [if_pos hc, if_pos ⟨hp, hc⟩]
      · rw [if_neg hc, if_neg (fun h => hc h.2)]

theorem writeMoves_travel (H : Headers) (hz : H.vSizeMM ⟨0, 0, 0⟩ = 0) (moves : List Move) :
    ∀ s : GCodeExport, s.flavor ≠ GCODE_FLAVOR_BFB → s.isMetalPrinting = true →
      0 ≤ s.min_dist_welder_off →
      (∀ m ∈ moves, ¬ 1 / 1000000 < m.extrusion_mm3_per_mm) →
      ∃ X : List Tok,
        (writeMoves H s moves).output_stream = s.output_stream ++ X ∧
        (s.isWelding = false →
          (writeMoves H s moves).isWelding = false ∧ X.filter Tok.isText = []) ∧
        (s.isWelding = true →
          segmentsWithin H s.min_dist_welder_off s.currentPosition moves →
          (writeMoves H s moves).isWelding = true ∧ X.filter Tok.isText = []) ∧
        (s.isWelding = true →
          ¬ segmentsWithin H s.min_dist_welder_off s.currentPosition moves →
          (writeMoves H s moves).isWelding = false ∧
            X.filter Tok.isText = [.text s.welder_off]) := by
  induction moves with
  | nil =>
    intro s _ _ _ _
    exact ⟨[], by simp [writeMoves], fun h => ⟨by simpa [writeMoves] using h, rfl⟩,
      fun h _ => ⟨by simpa [writeMoves] using h, rfl⟩,
      fun _ h => absurd (by simp [segmentsWithin]) h⟩
  | cons m ms ih =>
    intro s hf hm hmin ht
    have hm1 : ¬ 1 / 1000000 < m.extrusion_mm3_per_mm := ht m (List.mem_cons_self _ _)
    have hms : ∀ m1 ∈ ms, ¬ 1 / 1000000 < m1.extrusion_mm3_per_mm :=
      fun m1 h1 => ht m1 (List.mem_cons_of_mem _ h1)
    have hfr := writeMove_frame H s m.x m.y m.z m.speed m.extrusion_mm3_per_mm
    have hpos := writeMove_currentPosition H s m.x m.y m.z m.speed m.extrusion_mm3_per_mm
    obtain ⟨X1, hX1, hT1, hW1⟩ :=
      writeMove_travel_step H s m.x m.y m.z m.speed m.extrusion_mm3_per_mm hf hm1
    obtain ⟨X2, hX2, hA, hB, hC⟩ := ih (s.writeMove H m.x m.y m.z m.speed m.extrusion_mm3_per_mm)
      (by simpa [hfr] using hf) (by simpa [hfr] using hm) (by simpa [hfr] using hmin) hms
    have hmin1 : (s.writeMove H m.x m.y m.z m.speed m.extrusion_mm3_per_mm).min_dist_welder_off
        = s.min_dist_welder_off := by simp [hfr]
    have hoff1 : (s.writeMove H m.x m.y m.z m.speed m.extrusion_mm3_per_mm).welder_off
        = s.welder_off := by simp [hfr]
    rw [hmin1, hpos] at hB hC
    rw [hoff1] at hC
    have hsame : (s.currentPosition.x = m.x ∧ s.currentPosition.y = m.y ∧
        s.currentPosition.z = m.z) →
        H.vSizeMM (⟨m.x, m.y, m.z⟩ - s.currentPosition) ≤ s.min_dist_welder_off := by
      intro hp
      have hd : (⟨m.x, m.y, m.z⟩ : Point3) - s.currentPosition = ⟨0, 0, 0⟩ := by
        show (⟨_, _, _⟩ : Point3) = _
        simp [hp.1, hp.2.1, hp.2.2]
      rw [hd, hz]
      exact hmin
    refine ⟨X1 ++ X2, by simp only [writeMoves]; rw [hX2, hX1, List.append_assoc], ?_, ?_, ?_⟩
    · intro hw
      have hc : ¬(¬(s.currentPosition.x = m.x ∧ s.currentPosition.y = m.y ∧
          s.currentPosition.z = m.z) ∧ s.isMetalPrinting = true ∧ s.isWelding = true ∧
          s.min_dist_welder_off < H.vSizeMM (⟨m.x, m.y, m.z⟩ - s.currentPosition)) := by
        simp [hw]
      rw [if_neg hc] at hT1 hW1
      obtain ⟨h1, h2⟩ := hA (hW1.trans hw)
      exact ⟨by simpa only [writeMoves] using h1, by rw [List.filter_append, hT1, h2]; rfl⟩
    · intro hw hin
      obtain ⟨hin1, hin2⟩ := hin
      have hc : ¬(¬(s.currentPosition.x = m.x ∧ s.currentPosition.y = m.y ∧
          s.currentPosition.z = m.z) ∧ s.isMetalPrinting = true ∧ s.isWelding = true ∧
          s.min_dist_welder_off < H.vSizeMM (⟨m.x, m.y, m.z⟩ - s.currentPosition)) :=
        fun h => absurd h.2.2.2 (not_lt.mpr hin1)
      rw [if_neg hc] at hT1 hW1
      obtain ⟨h1, h2⟩ := hB (hW1.trans hw) hin2
      exact ⟨by simpa only [writeMoves] using h1, by rw [List.filter_append, hT1, h2]; rfl⟩
    · intro hw hout
      by_cases hlen : H.vSizeMM (⟨m.x, m.y, m.z⟩ - s.currentPosition) ≤ s.min_dist_welder_off
      · have hc : ¬(¬(s.currentPosition.x = m.x ∧ s.currentPosition.y = m.y ∧
            s.currentPosition.z = m.z) ∧ s.isMetalPrinting = true ∧ s.isWelding = true ∧
            s.min_dist_welder_off < H.vSizeMM (⟨m.x, m.y, m.z⟩ - s.currentPosition)) :=
          fun h => absurd h.2.2.2 (not_lt.mpr hlen)
        rw [if_neg hc] at hT1 hW1
        have hout2 : ¬ segmentsWithin H s.min_dist_welder_off ⟨m.x, m.y, m.z⟩ ms :=
          fun h => hout ⟨hlen, h⟩
        obtain ⟨h1, h2⟩ := hC (hW1.trans hw) hout2
        exact ⟨by simpa only [writeMoves] using h1, by rw [List.filter_append, hT1, h2]; rfl⟩
      · have hc : (¬(s.currentPosition.x = m.x ∧ s.currentPosition.y = m.y ∧
            s.currentPosition.z = m.z) ∧ s.isMetalPrinting = true ∧ s.isWelding = true ∧
            s.min_dist_welder_off < H.vSizeMM (⟨m.x, m.y, m.z⟩ - s.currentPosition)) :=
          ⟨fun hp => hlen (hsame hp), hm, hw, not_le.mp hlen⟩
        rw [if_pos hc] at hT1 hW1
        obtain ⟨h1, h2⟩ := hA hW1
        exact ⟨by simpa only [writeMoves] using h1, by rw [List.filter_append, hT1, h2]; rfl⟩

theorem switchExtruder_fields (s : GCodeExport) (n : Int) (hn : s.current_extruder ≠ n)
    (hf : s.flavor ≠ GCODE_FLAVOR_BFB) :
    (s.switchExtruder n).flavor = s.flavor ∧
    (s.switchExtruder n).isMetalPrinting = s.isMetalPrinting ∧
    (s.switchExtruder n).isWelding = s.isWelding ∧
    (s.switchExtruder n).extruderOffset = s.extruderOffset ∧
    (s.switchExtruder n).current_extruder = n ∧
    (s.switchExtruder n).currentPosition
      = { s.currentPosition with z := s.currentPosition.z + 1 } ∧
    (s.switchExtruder n).currentSpeed
      = (if s.flavor = GCODE_FLAVOR_ULTIGCODE ∨ s.flavor = GCODE_FLAVOR_REPRAP_VOLUMATRIC
          then s.currentSpeed else s.extruderSwitchRetractionSpeed) ∧
    (s.switchExtruder n).isRetracted = true ∧
    (s.switchExtruder n).isZHopped = s.isZHopped := by
  have hcs : s.resetExtrusionValue.switchExtruder_retract.currentSpeed
      = (if s.flavor = GCODE_FLAVOR_ULTIGCODE ∨ s.flavor = GCODE_FLAVOR_REPRAP_VOLUMATRIC
          then s.currentSpeed else s.extruderSwitchRetractionSpeed) := by
    have hr := resetExtrusionValue_frame s
    unfold switchExtruder_retract
    simp only [emit, hr]
    split_ifs <;> simp [hr]
  rw [switchExtruder_of_ne s n hn hf]
  simp [switchExtruder_select_frame, switchExtruder_retract_frame, resetExtrusionValue_frame,
    hcs]

/-- C19, evaluated where the code fails it: on a fresh encoder at Z = 0,
`switchExtruder 1` leaves the tracked Z at 1; the move to (10000, 0, 1) that
follows writes the line `G0 F3000 X10.000 Y0.000`, without a Z field, and a
move to (0, 0, 1) writes nothing at all. -/
theorem switchExtruder_then_move_without_Z :
    (fresh.switchExtruder 1).currentPosition = ⟨0, 0, 1⟩ ∧
    ((fresh.switchExtruder 1).writeMove Headers.std 10000 0 1 50 0).output_stream
      = (fresh.switchExtruder 1).output_stream ++
        [.lit "G0", .lit " F", .int 3000, .lit " X", .real 3 10, .lit " Y", .real 3 0,
          .lit "\n"] ∧
    (fresh.switchExtruder 1).writeMove Headers.std 0 0 1 50 0 = fresh.switchExtruder 1 := by
  have hn : fresh.current_extruder ≠ 1 := by simp [fresh_fields]
  have hf : fresh.flavor ≠ GCODE_FLAVOR_BFB := by simp [fresh_fields]
  obtain ⟨h1, h2, h3, h4, h5, h6, h7, h8, h9⟩ := switchExtruder_fields fresh 1 hn hf
  have hpos : (fresh.switchExtruder 1).currentPosition = ⟨0, 0, 1⟩ := by
    rw [h6]; simp [fresh_fields]
  have hmp : (fresh.switchExtruder 1).isMetalPrinting = false := by
    rw [h2]; simp [fresh, GCodeExport.GCodeExport, setFlavor, mem0]
  have hcs : (fresh.switchExtruder 1).currentSpeed = 0 := by
    rw [h7]; simp [fresh, GCodeExport.GCodeExport, setFlavor, mem0]
  have hoff : (fresh.switchExtruder 1).extruderOffset 1 = ⟨0, 0⟩ := by
    rw [h4]; simp [fresh, GCodeExport.GCodeExport, setFlavor, fill, Headers.std]
  refine ⟨hpos, ?_, ?_⟩
  · obtain ⟨ho, -⟩ := writeMove_traveling Headers.std (fresh.switchExtruder 1) 10000 0 1 50 0
      (by rw [h1]; exact hf) (by norm_num) (by simp [hpos])
    rw [ho]
    simp [hmp, hcs, h5, hoff, hpos, INT2MM]
    norm_num
  · simp [writeMove, hpos]

theorem vSizeMMIsqrt_x3 : vSizeMMIsqrt ⟨3000, 0, 0⟩ = 3 := by
  have h : Nat.sqrt 9000000 = 3000 := by
    have : (9000000 : Nat) = 3000 * 3000 := by norm_num
    rw [this, Nat.sqrt_eq]
  have ht : Int.toNat 9000000 = 9000000 := rfl
  norm_num [vSizeMMIsqrt, ht, h]

theorem weldAfterExtrusion_fields :
    weldAfterExtrusion.flavor = GCODE_FLAVOR_REPRAP ∧
    weldAfterExtrusion.isMetalPrinting = true ∧
    weldAfterExtrusion.isWelding = true ∧
    weldAfterExtrusion.min_dist_welder_off = 5 ∧
    weldAfterExtrusion.welder_off = "M42 P0 S0\n" ∧
    weldAfterExtrusion.currentPosition = ⟨10000, 0, 0⟩ ∧
    weldAfterExtrusion.output_stream =
      [.text "M42 P0 S1\n", .lit "G1", .lit " F", .int 3000, .lit " X", .real 3 10,
        .lit " Y", .real 3 0, .lit "\n"] := by
  have hsub : (⟨10000, 0, 0⟩ : Point3) - ⟨0, 0, 0⟩ = ⟨10000, 0, 0⟩ := rfl
  have he : (1 / 1000000 : ℚ) < 3 / 100 := by norm_num
  have h0 : 0 < Headers.std.MAX_EXTRUDERS := by decide
  simp [weldAfterExtrusion, weldBase, fresh, writeMove, writeMove_E, writeMove_extrude,
    GCodeExport.GCodeExport,
    setFlavor, fill, setFilamentDiameter, setIsMetalPrinting, setIsWelding, setWelderOn,
    setWelderOff, setMinDistWelderOff, emit, plan, getPosition,
    extrusion_per_mm, getFilamentArea, INT2MM, h0, hsub, he, mem0]
  norm_num [fill, Headers.std]

/-- C20, amended to the test the code makes, which is per move: in
metal-printing mode with a flavor other than BFB, the welder on and a
non-negative `min_dist_welder_off`, a sequence of consecutive non-extruding
moves leaves the welder on and writes no welder-off text as long as every
single move of the sequence is at most `min_dist_welder_off` long, whatever
their summed length; and as soon as one single move is longer than
`min_dist_welder_off` the welder-off text has been written, once, and the
welding flag is false. `X` is what the sequence writes, `hz` says that the
zero vector has length 0. -/
theorem welder_off_per_move (H : Headers) (s : GCodeExport) (moves : List Move)
    (hz : H.vSizeMM ⟨0, 0, 0⟩ = 0) (hf : s.flavor ≠ GCODE_FLAVOR_BFB)
    (hm : s.isMetalPrinting = true) (hw : s.isWelding = true)
    (hmin : 0 ≤ s.min_dist_welder_off)
    (ht : ∀ m ∈ moves, ¬ 1 / 1000000 < m.extrusion_mm3_per_mm) :
    ∃ X : List Tok,
      (writeMoves H s moves).output_stream = s.output_stream ++ X ∧
      (segmentsWithin H s.min_dist_welder_off s.currentPosition moves →
        (writeMoves H s moves).isWelding = true ∧ X.filter Tok.isText = []) ∧
      (¬ segmentsWithin H s.min_dist_welder_off s.currentPosition moves →
        (writeMoves H s moves).isWelding = false ∧
          X.filter Tok.isText = [.text s.welder_off]) := by
  obtain ⟨X, h1, -, h3, h4⟩ := writeMoves_travel H hz moves s hf hm hmin ht
  exact ⟨X, h1, h3 hw, h4 hw⟩

/-- Witness of C20 (amended): the welding encoder after a 10 mm extruding
segment, followed by two travel moves of 3 mm each. -/
theorem welder_off_per_move_witness :
    Headers.std.vSizeMM ⟨0, 0, 0⟩ = 0 ∧
    weldAfterExtrusion.flavor ≠ GCODE_FLAVOR_BFB ∧
    weldAfterExtrusion.isMetalPrinting = true ∧
    weldAfterExtrusion.isWelding = true ∧
    0 ≤ weldAfterExtrusion.min_dist_welder_off ∧
    (∀ m ∈ shortTravels, ¬ 1 / 1000000 < m.extrusion_mm3_per_mm) ∧
    ∃ X : List Tok,
      (writeMoves Headers.std weldAfterExtrusion shortTravels).output_stream
        = weldAfterExtrusion.output_stream ++ X ∧
      (segmentsWithin Headers.std weldAfterExtrusion.min_dist_welder_off
          weldAfterExtrusion.currentPosition shortTravels →
        (writeMoves Headers.std weldAfterExtrusion shortTravels).isWelding = true ∧
          X.filter Tok.isText = []) ∧
      (¬ segmentsWithin Headers.std weldAfterExtrusion.min_dist_welder_off
          weldAfterExtrusion.currentPosition shortTravels →
        (writeMoves Headers.std weldAfterExtrusion shortTravels).isWelding = false ∧
          X.filter Tok.isText = [.text weldAfterExtrusion.welder_off]) :=
  have hf : weldAfterExtrusion.flavor ≠ GCODE_FLAVOR_BFB := by
    simp [weldAfterExtrusion_fields]
  have hmin : 0 ≤ weldAfterExtrusion.min_dist_welder_off := by
    simp [weldAfterExtrusion_fields]
  have ht : ∀ m ∈ shortTravels, ¬ 1 / 1000000 < m.extrusion_mm3_per_mm := by
    simp [shortTravels]
  ⟨vSizeMMIsqrt_zero, hf, weldAfterExtrusion_fields.2.1, weldAfterExtrusion_fields.2.2.1,
    hmin, ht,
    welder_off_per_move Headers.std weldAfterExtrusion shortTravels vSizeMMIsqrt_zero hf
      weldAfterExtrusion_fields.2.1 weldAfterExtrusion_fields.2.2.1 hmin ht⟩

theorem shortTravels_within :
    segmentsWithin Headers.std weldAfterExtrusion.min_dist_welder_off
      weldAfterExtrusion.currentPosition shortTravels := by
  have h1 : (⟨13000, 0, 0⟩ : Point3) - ⟨10000, 0, 0⟩ = ⟨3000, 0, 0⟩ := rfl
  have h2 : (⟨16000, 0, 0⟩ : Point3) - ⟨13000, 0, 0⟩ = ⟨3000, 0, 0⟩ := rfl
  have h3 : Headers.std.vSizeMM ⟨3000, 0, 0⟩ = 3 := vSizeMMIsqrt_x3
  simp only [shortTravels, segmentsWithin, weldAfterExtrusion_fields, h1, h2, h3]
  norm_num

/-- C20 fails as stated: with `min_dist_welder_off` = 5 mm and the welder on
after a 10 mm extruding segment, two consecutive travel moves of 3 mm each
have a summed length of 6 mm, more than the minimum, and yet the welding flag
is still true after them and the welder-off text `M42 P0 S0` is nowhere in
the output. -/
theorem welder_stays_on_over_summed_travel :
    weldAfterExtrusion.isMetalPrinting = true ∧
    weldAfterExtrusion.isWelding = true ∧
    weldAfterExtrusion.min_dist_welder_off = 5 ∧
    weldAfterExtrusion.welder_off = "M42 P0 S0\n" ∧
    Headers.std.vSizeMM (⟨13000, 0, 0⟩ - weldAfterExtrusion.currentPosition)
      + Headers.std.vSizeMM (⟨16000, 0, 0⟩ - ⟨13000, 0, 0⟩) = 6 ∧
    (writeMoves Headers.std weldAfterExtrusion shortTravels).isWelding = true ∧
    Tok.text "M42 P0 S0\n" ∉
      (writeMoves Headers.std weldAfterExtrusion shortTravels).output_stream := by
  obtain ⟨hf, hm, hw, hmin, hoff, hpos, hout⟩ := weldAfterExtrusion_fields
  obtain ⟨X, h1, -, h3, -⟩ := writeMoves_travel Headers.std vSizeMMIsqrt_zero shortTravels
    weldAfterExtrusion (by simp [hf]) hm (by simp [hmin]) (by simp [shortTravels])
  obtain ⟨h5, h6⟩ := h3 hw shortTravels_within
  have hlen : Headers.std.vSizeMM (⟨13000, 0, 0⟩ - weldAfterExtrusion.currentPosition)
      + Headers.std.vSizeMM (⟨16000, 0, 0⟩ - ⟨13000, 0, 0⟩) = 6 := by
    have e1 : (⟨13000, 0, 0⟩ : Point3) - ⟨10000, 0, 0⟩ = ⟨3000, 0, 0⟩ := rfl
    have e2 : (⟨16000, 0, 0⟩ : Point3) - ⟨13000, 0, 0⟩ = ⟨3000, 0, 0⟩ := rfl
    have e3 : Headers.std.vSizeMM ⟨3000, 0, 0⟩ = 3 := vSizeMMIsqrt_x3
    rw [hpos, e1, e2, e3]
    norm_num
  refine ⟨hm, hw, hmin, hoff, hlen, h5, ?_⟩
  rw [h1, hout]
  intro hmem
  rcases List.mem_append.1 hmem with h | h
  · revert h
    decide
  · have : Tok.text "M42 P0 S0\n" ∈ X.filter Tok.isText :=
      List.mem_filter.2 ⟨h, rfl⟩
    rw [h6] at this
    exact absurd this (List.not_mem_nil _)

/-! ### The z-hop flag and the retracted flag -/

theorem writeRetraction_some_cases (s s1 : GCodeExport) (config : RetractionConfig)
    (force : Bool) (hs : s.writeRetraction config force = some s1) :
    s1 = s ∨ (s.flavor ≠ GCODE_FLAVOR_BFB ∧ s1 = s.writeRetraction_proceed config) := by
  unfold writeRetraction at hs
  split_ifs at hs with h1 h2 h3 h4
  · cases hs; exact Or.inl rfl
  · cases hs; exact Or.inl rfl
  · cases hs; exact Or.inl rfl
  · split at hs
    · cases hs
    · split_ifs at hs
      · cases hs; exact Or.inl rfl
      · cases hs; exact Or.inr ⟨h1, rfl⟩
  · cases hs; exact Or.inr ⟨h1, rfl⟩

theorem writeMove_E_travel_flags (H : Headers) (s : GCodeExport) (x y z speed : Int) (e e1 : ℚ)
    (he : ¬ 1 / 1000000 < e) :
    (s.writeMove_E H x y z speed e e1).isRetracted = s.isRetracted ∧
    (s.writeMove_E H x y z speed e e1).isZHopped = s.isZHopped := by
  unfold writeMove_E
  simp only [emit, if_neg he]
  split_ifs <;> simp [writeMove_travel_frame]

theorem writeMove_extruding_flags (H : Headers) (s : GCodeExport) (x y z speed : Int) (e : ℚ)
    (hf : s.flavor ≠ GCODE_FLAVOR_BFB) (he : 1 / 1000000 < e)
    (hp : ¬(s.currentPosition.x = x ∧ s.currentPosition.y = y ∧ s.currentPosition.z = z)) :
    (s.writeMove H x y z speed e).isRetracted = false ∧
    (s.writeMove H x y z speed e).isZHopped = false := by
  obtain ⟨-, h2, h3, -⟩ := writeMove_E_output H s x y z speed e hf hp
  obtain ⟨-, h6⟩ := writeMove_E_extruding_output H s x y z speed e (s.extrusion_per_mm e) he
  have h7 := (writeMove_E_extruding H s x y z speed e (s.extrusion_per_mm e) he).2.1
  obtain ⟨h8, h9⟩ := writeMove_extrude_flags H s (⟨x, y, z⟩ - s.getPosition)
    (s.extrusion_per_mm e)
  exact ⟨by rw [h2, h7, h8], by rw [h3, h6, h9]⟩

theorem writeMove_BFB_isZHopped (H : Headers) (s : GCodeExport) (x y z speed : Int) (e : ℚ)
    (hf : s.flavor = GCODE_FLAVOR_BFB) :
    (s.writeMove H x y z speed e).isZHopped = s.isZHopped := by
  by_cases hp : s.currentPosition.x = x ∧ s.currentPosition.y = y ∧ s.currentPosition.z = z
  · simp [writeMove, hp]
  · have h := (writeMove_BFB_frame H s x y z speed (s.extrusion_per_mm e))
    unfold writeMove
    rw [if_neg hp]
    simp only [if_pos hf, plan]
    simp [h]

theorem writeMove_zhop (H : Headers) (s : GCodeExport) (x y z speed : Int) (e : ℚ)
    (hi : s.isZHopped = true → s.isRetracted = true)
    (hb : s.flavor = GCODE_FLAVOR_BFB → s.isZHopped = false) :
    ((s.writeMove H x y z speed e).isZHopped = true →
      (s.writeMove H x y z speed e).isRetracted = true) ∧
    ((s.writeMove H x y z speed e).flavor = GCODE_FLAVOR_BFB →
      (s.writeMove H x y z speed e).isZHopped = false) := by
  have hfl : (s.writeMove H x y z speed e).flavor = s.flavor := (writeMove_frame H s x y z speed e).1
  rw [hfl]
  by_cases hf : s.flavor = GCODE_FLAVOR_BFB
  · have hz := writeMove_BFB_isZHopped H s x y z speed e hf
    rw [hz]
    exact ⟨fun h => absurd h (by simp [hb hf]), hb⟩
  · refine ⟨?_, fun h => absurd h hf⟩
    by_cases hp : s.currentPosition.x = x ∧ s.currentPosition.y = y ∧ s.currentPosition.z = z
    · have : s.writeMove H x y z speed e = s := by simp [writeMove, hp]
      rw [this]
      exact hi
    · by_cases he : 1 / 1000000 < e
      · obtain ⟨-, h2⟩ := writeMove_extruding_flags H s x y z speed e hf he hp
        intro h
        rw [h2] at h
        cases h
      · obtain ⟨-, h2, h3, -⟩ := writeMove_E_output H s x y z speed e hf hp
        obtain ⟨h4, h5⟩ := writeMove_E_travel_flags H s x y z speed e (s.extrusion_per_mm e) he
        rw [h2, h3, h4, h5]
        exact hi

theorem switchExtruder_zhop (s : GCodeExport) (n : Int) :
    (s.switchExtruder n).flavor = s.flavor ∧
    (s.switchExtruder n).isZHopped = s.isZHopped ∧
    (s.current_extruder ≠ n → (s.switchExtruder n).isRetracted = true) := by
  by_cases hn : s.current_extruder = n
  · have : s.switchExtruder n = s := by simp [switchExtruder, hn]
    rw [this]
    exact ⟨rfl, rfl, fun h => absurd hn h⟩
  · by_cases hf : s.flavor = GCODE_FLAVOR_BFB
    · have : s.switchExtruder n = s.switchExtruder_BFB := by
        simp [switchExtruder, hn, hf]
      rw [this]
      refine ⟨(switchExtruder_BFB_frame s).1, ?_, fun _ => ?_⟩
      · simp [switchExtruder_BFB_frame]
      · unfold switchExtruder_BFB
        split_ifs <;> simp
    · obtain ⟨h1, -, -, -, -, -, -, h8, h9⟩ := switchExtruder_fields s n hn hf
      exact ⟨h1, h9, fun _ => h8⟩

theorem step_zhop (H : Headers) (s s1 : GCodeExport) (c : Command)
    (hi : s.isZHopped = true → s.isRetracted = true)
    (hb : s.flavor = GCODE_FLAVOR_BFB → s.isZHopped = false)
    (hs : step H s c = some s1) :
    (s1.isZHopped = true → s1.isRetracted = true) ∧
    (s1.flavor = GCODE_FLAVOR_BFB → s1.isZHopped = false) ∧ s1.flavor = s.flavor := by
  cases c with
  | writeMove x y z speed e =>
    simp only [step, Option.some.injEq] at hs
    subst hs
    obtain ⟨h1, h2⟩ := writeMove_zhop H s x y z speed e hi hb
    exact ⟨h1, h2, (writeMove_frame H s x y z speed e).1⟩
  | writeRetraction config force =>
    rcases writeRetraction_some_cases s s1 config force hs with h | ⟨hf, h⟩
    · subst h
      exact ⟨hi, hb, rfl⟩
    · subst h
      have hfl := (writeRetraction_proceed_frame s config).1
      refine ⟨fun _ => writeRetraction_proceed_isRetracted s config, ?_, hfl⟩
      rw [hfl]
      exact fun h => absurd h hf
  | switchExtruder n =>
    simp only [step, Option.some.injEq] at hs
    subst hs
    obtain ⟨h1, h2, h3⟩ := switchExtruder_zhop s n
    rw [h1, h2]
    refine ⟨?_, hb, rfl⟩
    by_cases hn : s.current_extruder = n
    · have : s.switchExtruder n = s := by simp [switchExtruder, hn]
      rw [this]
      exact hi
    · exact fun _ => h3 hn
  | resetExtrusionValue =>
    simp only [step, Option.some.injEq] at hs
    subst hs
    have h := resetExtrusionValue_frame s
    simp only [h]
    exact ⟨hi, hb, trivial⟩

theorem run_zhop (H : Headers) (cmds : List Command) (s s1 : GCodeExport)
    (hi : s.isZHopped = true → s.isRetracted = true)
    (hb : s.flavor = GCODE_FLAVOR_BFB → s.isZHopped = false)
    (hs : run H s cmds = some s1) :
    (s1.isZHopped = true → s1.isRetracted = true) ∧
    (s1.flavor = GCODE_FLAVOR_BFB → s1.isZHopped = false) ∧ s1.flavor = s.flavor := by
  induction cmds generalizing s with
  | nil =>
    simp only [run, Option.some.injEq] at hs
    subst hs
    exact ⟨hi, hb, rfl⟩
  | cons c cs ih =>
    simp only [run] at hs
    cases hc : step H s c with
    | none => simp [hc] at hs
    | some s2 =>
      rw [hc] at hs
      obtain ⟨h1, h2, h3⟩ := step_zhop H s s2 c hi hb hc
      obtain ⟨h4, h5, h6⟩ := ih s2 h1 h2 hs
      exact ⟨h4, h5, h6.trans h3⟩

theorem writeMove_hopped_output (H : Headers) (s : GCodeExport) (x y z speed : Int) (e : ℚ)
    (hf : s.flavor ≠ GCODE_FLAVOR_BFB) (he : 1 / 1000000 < e)
    (hp : ¬(s.currentPosition.x = x ∧ s.currentPosition.y = y ∧ s.currentPosition.z = z))
    (hr : s.isRetracted = true) (hz : s.isZHopped = true) :
    ∃ mid rest : List Tok,
      (s.writeMove H x y z speed e).output_stream = s.output_stream ++
        [.lit "G1 Z", .real 3 (INT2MM s.currentPosition.z), .lit "\n"] ++
        (if s.flavor = GCODE_FLAVOR_ULTIGCODE ∨ s.flavor = GCODE_FLAVOR_REPRAP_VOLUMATRIC then
          [.lit "G11\n"]
        else
          [.lit "G1 F", .int (s.retractionPrimeSpeed * 60), .lit " ",
            .chr (s.extruderCharacter s.current_extruder), .real 5 s.extrusion_amount,
            .lit "\n"]) ++ mid ++ [.lit "G1"] ++ rest ∧
      Tok.lit "G1" ∉ mid := by
  obtain ⟨h1, -, -, -⟩ := writeMove_E_output H s x y z speed e hf hp
  obtain ⟨⟨rest, h4, -⟩, -⟩ :=
    writeMove_E_extruding_output H s x y z speed e (s.extrusion_per_mm e) he
  obtain ⟨mid, h10, h11⟩ := writeMove_extrude_output H s (⟨x, y, z⟩ - s.getPosition)
    (s.extrusion_per_mm e) hz hr
  exact ⟨mid, rest, by rw [h1, h4, h10], h11⟩

/-- C22: in every state `s` reached by a sequence of `writeMove`,
`writeRetraction`, `switchExtruder` and `resetExtrusionValue` calls (none of
which changes the flavor) from an encoder `s0` that is not z-hopped, as every
freshly constructed encoder is, the z-hop flag implies the retracted flag, and
a BFB encoder is never z-hopped. So an extruding move issued in a z-hopped
state writes the Z-only return `G1 Z<current Z>` followed by the un-retract
instruction of the flavor before its `G1` line, and clears both flags. -/
theorem zhop_implies_retracted (H : Headers) (s0 s : GCodeExport) (cmds : List Command)
    (h0 : s0.isZHopped = false) (hrun : run H s0 cmds = some s) :
    (s.isZHopped = true → s.isRetracted = true) ∧
    (s.flavor = GCODE_FLAVOR_BFB → s.isZHopped = false) ∧
    s.flavor = s0.flavor ∧
    (∀ (x y z speed : Int) (e : ℚ), 1 / 1000000 < e →
      ¬(s.currentPosition.x = x ∧ s.currentPosition.y = y ∧ s.currentPosition.z = z) →
      s.isZHopped = true →
      (∃ mid rest : List Tok,
        (s.writeMove H x y z speed e).output_stream = s.output_stream ++
          [.lit "G1 Z", .real 3 (INT2MM s.currentPosition.z), .lit "\n"] ++
          (if s.flavor = GCODE_FLAVOR_ULTIGCODE ∨ s.flavor = GCODE_FLAVOR_REPRAP_VOLUMATRIC then
            [.lit "G11\n"]
          else
            [.lit "G1 F", .int (s.retractionPrimeSpeed * 60), .lit " ",
              .chr (s.extruderCharacter s.current_extruder), .real 5 s.extrusion_amount,
              .lit "\n"]) ++ mid ++ [.lit "G1"] ++ rest ∧
        Tok.lit "G1" ∉ mid) ∧
      (s.writeMove H x y z speed e).isZHopped = false ∧
      (s.writeMove H x y z speed e).isRetracted = false) := by
  obtain ⟨h1, h2, h3⟩ := run_zhop H cmds s0 s (fun h => by rw [h0] at h; cases h)
    (fun _ => h0) hrun
  refine ⟨h1, h2, h3, ?_⟩
  intro x y z speed e he hp hz
  have hf : s.flavor ≠ GCODE_FLAVOR_BFB := fun hf => by
    rw [h2 hf] at hz
    cases hz
  obtain ⟨h4, h5⟩ := writeMove_extruding_flags H s x y z speed e hf he hp
  exact ⟨writeMove_hopped_output H s x y z speed e hf he hp (h1 hz) hz, h5, h4⟩

theorem reprapScenario_retractHop_run :
    run Headers.std (reprapScenario Headers.std mem0) [.writeRetraction retractHop true]
      = some hoppedState := by
  have h : (reprapScenario Headers.std mem0).writeRetraction retractHop true
      = some ((reprapScenario Headers.std mem0).writeRetraction_proceed retractHop) := by
    apply writeRetraction_forced
    · simp [reprapScenario, GCodeExport.GCodeExport, setFlavor, setFilamentDiameter,
        setIsMetalPrinting]
    · simp [reprapScenario, GCodeExport.GCodeExport, setFlavor, setFilamentDiameter,
        setIsMetalPrinting]
    · norm_num [retractHop]
  simp [run, step, h, hoppedState]

/-- Witness of C22: the scenario encoder after a forced retraction with a
z-hop is z-hopped, and retracted. -/
theorem zhop_implies_retracted_witness :
    (reprapScenario Headers.std mem0).isZHopped = false ∧
    run Headers.std (reprapScenario Headers.std mem0) [.writeRetraction retractHop true]
      = some hoppedState ∧
    hoppedState.isZHopped = true ∧
    (hoppedState.isZHopped = true → hoppedState.isRetracted = true) :=
  have h0 : (reprapScenario Headers.std mem0).isZHopped = false := by
    simp [reprapScenario, GCodeExport.GCodeExport, setFlavor, setFilamentDiameter,
      setIsMetalPrinting]
  ⟨h0, reprapScenario_retractHop_run, hoppedState_fields.2.2.1,
    (zhop_implies_retracted Headers.std (reprapScenario Headers.std mem0) hoppedState
      [.writeRetraction retractHop true] h0 reprapScenario_retractHop_run).1⟩

/-! ### Growth of the extrusion accumulator -/

theorem getFilamentArea_nonneg (s : GCodeExport) (extruder : Int) :
    0 ≤ s.getFilamentArea extruder := by
  unfold getFilamentArea M_PI
  simp only []
  have h := mul_self_nonneg (INT2MM (s.filament_diameter extruder) / 2)
  have hpi : (0 : ℚ) ≤ 884279719003555 / 281474976710656 := by norm_num
  rw [mul_assoc]
  exact mul_nonneg hpi h

theorem extrusion_per_mm_nonneg (s : GCodeExport) (e : ℚ) (he : 0 ≤ e) :
    0 ≤ s.extrusion_per_mm e := by
  unfold extrusion_per_mm
  split_ifs
  · exact div_nonneg he (getFilamentArea_nonneg s _)
  · exact he

theorem extrusion_per_mm_pos_iff (s : GCodeExport) (e : ℚ) (h : 0 < s.extrusion_per_mm e) :
    0 < e := by
  by_contra hn
  have hle : e ≤ 0 := not_lt.mp hn
  have : s.extrusion_per_mm e ≤ 0 := by
    unfold extrusion_per_mm
    split_ifs
    · exact div_nonpos_of_nonpos_of_nonneg hle (getFilamentArea_nonneg s _)
    · exact hle
  linarith

theorem writeMove_BFB_extrusion_amount (H : Headers) (s : GCodeExport) (x y z speed : Int)
    (e1 : ℚ) :
    (s.writeMove_BFB H x y z speed e1).extrusion_amount =
      (if 0 < BFB_rpm speed e1
        then s.extrusion_amount + e1 * H.vSizeMM (⟨x, y, z⟩ - s.currentPosition)
        else s.extrusion_amount) := by
  unfold writeMove_BFB
  simp only [emit, getPosition]
  split_ifs <;> simp

theorem writeMove_prime_extrusion_amount (s : GCodeExport)
    (hnr : ¬(10000 < s.getExtrusionAmountMM3 s.current_extruder ∧
      s.flavor ≠ GCODE_FLAVOR_MAKERBOT ∧ s.flavor ≠ GCODE_FLAVOR_BFB)) :
    s.writeMove_prime.extrusion_amount = s.extrusion_amount := by
  unfold writeMove_prime
  simp only [emit, plan]
  by_cases hv : s.flavor = GCODE_FLAVOR_ULTIGCODE ∨ s.flavor = GCODE_FLAVOR_REPRAP_VOLUMATRIC
  · simp only [if_pos hv]
    by_cases h : 10000 < s.getExtrusionAmountMM3 s.current_extruder
    · have hg : ¬(s.flavor ≠ GCODE_FLAVOR_MAKERBOT ∧ s.flavor ≠ GCODE_FLAVOR_BFB) :=
        fun hg => hnr ⟨h, hg⟩
      have hmm : s.flavor = GCODE_FLAVOR_MAKERBOT ∨ s.flavor = GCODE_FLAVOR_BFB := by
        by_contra hc
        exact hg ⟨fun h1 => hc (Or.inl h1), fun h1 => hc (Or.inr h1)⟩
      rcases hmm with hm | hm <;> rcases hv with hv | hv <;> rw [hm] at hv <;> cases hv
    · have h2 : ¬ 10000 < getExtrusionAmountMM3
          { s with output_stream := s.output_stream ++ [.lit "G11\n"],
                   estimateCalculator := s.estimateCalculator ++
                    [(⟨INT2MM s.currentPosition.x, INT2MM s.currentPosition.y,
                      INT2MM s.currentPosition.z, s.extrusion_amount⟩, (25 : ℚ))] }
          s.current_extruder := h
      simp [h2]
  · simp only [if_neg hv]
    by_cases h : 10000 < s.getExtrusionAmountMM3 s.current_extruder
    · have hg : ¬(s.flavor ≠ GCODE_FLAVOR_MAKERBOT ∧ s.flavor ≠ GCODE_FLAVOR_BFB) :=
        fun hg => hnr ⟨h, hg⟩
      have h2 : 10000 < getExtrusionAmountMM3
          { s with output_stream := s.output_stream ++
                    [.lit "G1 F", .int (s.retractionPrimeSpeed * 60), .lit " ",
                      .chr (s.extruderCharacter s.current_extruder),
                      .real 5 s.extrusion_amount, .lit "\n"],
                   currentSpeed := s.retractionPrimeSpeed,
                   estimateCalculator := s.estimateCalculator ++
                    [(⟨INT2MM s.currentPosition.x, INT2MM s.currentPosition.y,
                      INT2MM s.currentPosition.z, s.extrusion_amount⟩,
                      (s.retractionPrimeSpeed : ℚ))] }
          s.current_extruder := h
      simp only [h2, if_true]
      rw [resetExtrusionValue_of_not_guard]
      intro hc
      exact hg hc.2
    · have h2 : ¬ 10000 < getExtrusionAmountMM3
          { s with output_stream := s.output_stream ++
                    [.lit "G1 F", .int (s.retractionPrimeSpeed * 60), .lit " ",
                      .chr (s.extruderCharacter s.current_extruder),
                      .real 5 s.extrusion_amount, .lit "\n"],
                   currentSpeed := s.retractionPrimeSpeed,
                   estimateCalculator := s.estimateCalculator ++
                    [(⟨INT2MM s.currentPosition.x, INT2MM s.currentPosition.y,
                      INT2MM s.currentPosition.z, s.extrusion_amount⟩,
                      (s.retractionPrimeSpeed : ℚ))] }
          s.current_extruder := h
      simp [h2]

theorem writeMove_extrude_extrusion_amount (H : Headers) (s : GCodeExport) (d : Point3)
    (e1 : ℚ)
    (hnr : ¬(s.isRetracted = true ∧ 10000 < s.getExtrusionAmountMM3 s.current_extruder ∧
      s.flavor ≠ GCODE_FLAVOR_MAKERBOT ∧ s.flavor ≠ GCODE_FLAVOR_BFB)) :
    (s.writeMove_extrude H d e1).extrusion_amount = s.extrusion_amount + e1 * H.vSizeMM d := by
  cases hr : s.isRetracted
  · exact (writeMove_extrude_not_retracted H s d e1 hr).1
  · have hnr2 : ¬(10000 < s.getExtrusionAmountMM3 s.current_extruder ∧
        s.flavor ≠ GCODE_FLAVOR_MAKERBOT ∧ s.flavor ≠ GCODE_FLAVOR_BFB) := fun h => hnr ⟨hr, h⟩
    have hp1 := writeMove_prime_extrusion_amount s hnr2
    have hp2 := writeMove_prime_extrusion_amount
      ({ (s.emit [.lit "G1 Z", .real 3 (INT2MM s.currentPosition.z), .lit "\n"]) with
        isZHopped := false }) hnr2
    unfold writeMove_extrude
    simp only [emit, hr] at hp2 ⊢
    cases hz : s.isZHopped
    · simp only [if_true, Bool.false_eq_true, if_false]
      generalize s.writeMove_prime = p at hp1
      split_ifs <;> simp [hp1]
    · simp only [if_true]
      generalize (writeMove_prime _) = p at hp2
      split_ifs <;> simp [hp2]

theorem writeMove_E_travel_extrusion_amount (H : Headers) (s : GCodeExport) (x y z speed : Int)
    (e e1 : ℚ) (he : ¬ 1 / 1000000 < e) :
    (s.writeMove_E H x y z speed e e1).extrusion_amount = s.extrusion_amount := by
  unfold writeMove_E
  simp only [emit, if_neg he]
  split_ifs <;> simp [writeMove_travel_frame]

theorem writeMove_extrusion_amount_stage (H : Headers) (s : GCodeExport) (x y z speed : Int)
    (e : ℚ)
    (hp : ¬(s.currentPosition.x = x ∧ s.currentPosition.y = y ∧ s.currentPosition.z = z)) :
    (s.writeMove H x y z speed e).extrusion_amount =
      (if s.flavor = GCODE_FLAVOR_BFB
        then (s.writeMove_BFB H x y z speed (s.extrusion_per_mm e)).extrusion_amount
        else (s.writeMove_E H x y z speed e (s.extrusion_per_mm e)).extrusion_amount) := by
  unfold writeMove
  rw [if_neg hp]
  simp only [plan]
  split_ifs <;> rfl

theorem writeMove_nondecreasing (H : Headers) (s : GCodeExport) (x y z speed : Int) (e : ℚ)
    (hv : ∀ p, 0 ≤ H.vSizeMM p) (hsp : s.flavor = GCODE_FLAVOR_BFB → 0 ≤ speed)
    (hnr : ¬(s.flavor ≠ GCODE_FLAVOR_BFB ∧ s.flavor ≠ GCODE_FLAVOR_MAKERBOT ∧
      1 / 1000000 < e ∧ s.isRetracted = true ∧
      10000 < s.getExtrusionAmountMM3 s.current_extruder)) :
    s.extrusion_amount ≤ (s.writeMove H x y z speed e).extrusion_amount := by
  by_cases hp : s.currentPosition.x = x ∧ s.currentPosition.y = y ∧ s.currentPosition.z = z
  · have : s.writeMove H x y z speed e = s := by simp [writeMove, hp]
    rw [this]
  · rw [writeMove_extrusion_amount_stage H s x y z speed e hp]
    by_cases hf : s.flavor = GCODE_FLAVOR_BFB
    · rw [if_pos hf, writeMove_BFB_extrusion_amount]
      split_ifs with hrpm
      · have hs0 : (0 : ℚ) ≤ (speed : ℚ) := by exact_mod_cast hsp hf
        have hpos : 0 ≤ s.extrusion_per_mm e := by
          by_contra hneg
          have hlt : s.extrusion_per_mm e < 0 := not_le.mp hneg
          have : BFB_rpm speed (s.extrusion_per_mm e) ≤ 0 := by
            unfold BFB_rpm
            have := mul_nonpos_of_nonpos_of_nonneg hlt.le hs0
            linarith
          linarith
        have := mul_nonneg hpos (hv (⟨x, y, z⟩ - s.currentPosition))
        linarith
      · exact le_refl _
    · rw [if_neg hf]
      by_cases he : 1 / 1000000 < e
      · rw [(writeMove_E_extruding H s x y z speed e (s.extrusion_per_mm e) he).1,
          writeMove_extrude_extrusion_amount H s _ _
            (fun h => hnr ⟨hf, h.2.2.1, he, h.1, h.2.1⟩)]
        have hpos : 0 ≤ s.extrusion_per_mm e :=
          extrusion_per_mm_nonneg s e (le_trans (by norm_num) he.le)
        have := mul_nonneg hpos (hv (⟨x, y, z⟩ - s.getPosition))
        linarith
      · rw [writeMove_E_travel_extrusion_amount H s x y z speed e _ he]

theorem writeRetraction_nondecreasing (s s1 : GCodeExport) (config : RetractionConfig)
    (force : Bool) (hs : s.writeRetraction config force = some s1) :
    s.extrusion_amount ≤ s1.extrusion_amount := by
  rcases writeRetraction_some_cases s s1 config force hs with h | ⟨-, h⟩
  · rw [h]
  · rw [h, (writeRetraction_proceed_fields s config).1]
    split_ifs with hpa
    · linarith
    · exact le_refl _

theorem vSizeMMIsqrt_nonneg (p : Point3) : 0 ≤ vSizeMMIsqrt p := by
  unfold vSizeMMIsqrt
  positivity

/-- C21, amended by a sign condition on the speed under BFB: with segment
lengths that are never negative (`hv`), a `writeMove` call that does not reach
the body of `resetExtrusionValue` (which it does only for an extruding move of
a retracted encoder above 10000 mm³, in a flavor other than BFB and Makerbot)
leaves `extrusion_amount` at or above its value before the call, for every
target and extrusion value, for every speed in a flavor other than BFB and for
every speed `≥ 0` under BFB; and every `writeRetraction` call that is defined
returns a state whose `extrusion_amount` is at or above the value before the
call, for every config and `force`. For a zero filament diameter the quotient
of the model is 0 where the floating-point quotient is `+∞`; both are
non-negative. -/
theorem extrusion_amount_nondecreasing (H : Headers) (s : GCodeExport)
    (hv : ∀ p, 0 ≤ H.vSizeMM p) :
    (∀ (x y z speed : Int) (e : ℚ),
      (s.flavor = GCODE_FLAVOR_BFB → 0 ≤ speed) →
      ¬(s.flavor ≠ GCODE_FLAVOR_BFB ∧ s.flavor ≠ GCODE_FLAVOR_MAKERBOT ∧
        1 / 1000000 < e ∧ s.isRetracted = true ∧
        10000 < s.getExtrusionAmountMM3 s.current_extruder) →
      s.extrusion_amount ≤ (s.writeMove H x y z speed e).extrusion_amount) ∧
    (∀ (config : RetractionConfig) (force : Bool),
      s.writeRetraction config force ≠ none →
      ∃ s1, s.writeRetraction config force = some s1 ∧
        s.extrusion_amount ≤ s1.extrusion_amount) := by
  refine ⟨fun x y z speed e hsp hnr => writeMove_nondecreasing H s x y z speed e hv hsp hnr, ?_⟩
  intro config force hd
  cases hs : s.writeRetraction config force with
  | none => exact absurd hs hd
  | some s1 => exact ⟨s1, rfl, writeRetraction_nondecreasing s s1 config force hs⟩

/-- Witness of C21 (amended): the scenario move and a forced retraction on the
scenario encoder. -/
theorem extrusion_amount_nondecreasing_witness :
    (∀ p, 0 ≤ Headers.std.vSizeMM p) ∧
    (reprapScenario Headers.std mem0).extrusion_amount
      ≤ ((reprapScenario Headers.std mem0).writeMove Headers.std 10000 0 0 50
          (3 / 100)).extrusion_amount ∧
    ∃ s1, (reprapScenario Headers.std mem0).writeRetraction retract45 true = some s1 ∧
      (reprapScenario Headers.std mem0).extrusion_amount ≤ s1.extrusion_amount :=
  have hf : (reprapScenario Headers.std mem0).flavor = GCODE_FLAVOR_REPRAP := by
    simp [reprapScenario, GCodeExport.GCodeExport, setFlavor, setFilamentDiameter,
      setIsMetalPrinting]
  have hr : (reprapScenario Headers.std mem0).isRetracted = false := by
    simp [reprapScenario, GCodeExport.GCodeExport, setFlavor, setFilamentDiameter,
      setIsMetalPrinting]
  have hd : (reprapScenario Headers.std mem0).writeRetraction retract45 true ≠ none := by
    rw [writeRetraction_forced _ _ (by simp [hf]) hr (by norm_num [retract45])]
    simp
  ⟨vSizeMMIsqrt_nonneg,
    (extrusion_amount_nondecreasing Headers.std (reprapScenario Headers.std mem0)
      vSizeMMIsqrt_nonneg).1 10000 0 0 50 (3 / 100) (fun h => by simp [hf] at h)
      (fun h => by simp [hr] at h),
    (extrusion_amount_nondecreasing Headers.std (reprapScenario Headers.std mem0)
      vSizeMMIsqrt_nonneg).2 retract45 true hd⟩

/-- C21 fails as stated: on the fresh BFB encoder, where no `writeMove` ever
resets the extrusion value, the 10 mm move at speed -50 with -0.03 mm³ per
millimetre has a positive RPM, so the negative amount is added and
`extrusion_amount` falls below its value before the call. -/
theorem writeMove_BFB_negative_speed_decreases :
    bfbBase.flavor = GCODE_FLAVOR_BFB ∧
    0 < BFB_rpm (-50) (bfbBase.extrusion_per_mm (-3 / 100)) ∧
    (bfbBase.writeMove Headers.std 10000 0 0 (-50) (-3 / 100)).extrusion_amount
      < bfbBase.extrusion_amount := by
  obtain ⟨hf, hc, hvol, -, hpos, -, hd, -⟩ := bfbBase_fields
  have hea : bfbBase.extrusion_amount = 0 := by
    simp [bfbBase, fresh, GCodeExport.GCodeExport, setFlavor, setFilamentDiameter]
  have hepm : bfbBase.extrusion_per_mm (-3 / 100)
      = -3 / 100 / (M_PI * (2850 / 1000 / 2) * (2850 / 1000 / 2)) := by
    simp [extrusion_per_mm, getFilamentArea, INT2MM, hvol, hc, hd]
  have hrpm : 0 < BFB_rpm (-50) (bfbBase.extrusion_per_mm (-3 / 100)) := by
    rw [hepm]
    norm_num [BFB_rpm, M_PI]
  have hp : ¬(bfbBase.currentPosition.x = 10000 ∧ bfbBase.currentPosition.y = 0 ∧
      bfbBase.currentPosition.z = 0) := by simp [hpos]
  have hsub : (⟨10000, 0, 0⟩ : Point3) - ⟨0, 0, 0⟩ = ⟨10000, 0, 0⟩ := rfl
  have hlen : Headers.std.vSizeMM ⟨10000, 0, 0⟩ = 10 := vSizeMMIsqrt_x10
  refine ⟨hf, hrpm, ?_⟩
  rw [writeMove_extrusion_amount_stage Headers.std bfbBase 10000 0 0 (-50) (-3 / 100) hp,
    if_pos hf, writeMove_BFB_extrusion_amount, if_pos hrpm, hea, hepm, hpos, hsub, hlen]
  norm_num [M_PI]

/-! ### The read of the oldest history entry -/

theorem writeRetraction_undefined_of_empty (s : GCodeExport) (config : RetractionConfig)
    (hf : s.flavor ≠ GCODE_FLAVOR_BFB) (hr : s.isRetracted = false) (ha : 0 < config.amount)
    (hmax : s.retraction_count_max = 1)
    (hh : s.extrusion_amount_at_previous_n_retractions = []) :
    s.writeRetraction config false = none := by
  unfold writeRetraction
  rw [if_neg hf, if_neg (by simp [hr]), if_neg (not_le.mpr ha)]
  simp [hmax, hh]

/-- With a ceiling other than 1 the read is defined: when the count test
holds for a ceiling of at least 2 the history has `retraction_count_max - 1`
entries, at least one, and for a ceiling of 0 or less the count test fails. -/
theorem writeRetraction_defined_of_ceiling (s : GCodeExport) (config : RetractionConfig)
    (force : Bool) (hmax : s.retraction_count_max ≠ 1) :
    s.writeRetraction config force ≠ none := by
  unfold writeRetraction
  split_ifs with h1 h2 h3 h4
  · simp
  · simp
  · simp
  · cases hl : s.extrusion_amount_at_previous_n_retractions with
    | nil =>
      exfalso
      have h5 := h4.2.2
      rw [hl] at h5
      simp at h5
      apply hmax
      omega
    | cons a l =>
      have : (a :: l).getLast? = some ((a :: l).getLast (by simp)) :=
        List.getLast?_eq_getLast _ _
      simp only [this]
      split_ifs <;> simp
  · simp

theorem ceilingOne_fields :
    ceilingOne.flavor = GCODE_FLAVOR_REPRAP ∧ ceilingOne.isRetracted = false ∧
    ceilingOne.retraction_count_max = 1 ∧
    ceilingOne.extrusion_amount_at_previous_n_retractions = [] ∧
    ceilingOne.currentPosition = ⟨0, 0, 0⟩ := by
  simp [ceilingOne, reprapScenario, GCodeExport.GCodeExport, setFlavor, setFilamentDiameter,
    setIsMetalPrinting, setRetractionSettings]

theorem ceilingOneSession_run :
    run Headers.std ceilingOne ceilingOneSession = some ceilingOneAfter := by
  obtain ⟨hf, hr, -, -, -⟩ := ceilingOne_fields
  have h : ceilingOne.writeRetraction retract45 true
      = some (ceilingOne.writeRetraction_proceed retract45) :=
    writeRetraction_forced _ _ (by simp [hf]) hr (by norm_num [retract45])
  simp [run, step, h, ceilingOneSession, ceilingOneAfter]

/-- C23, evaluated where the code fails it: the encoder configured with
`retraction_count_max = 1` carries out a forced retraction and then the
scenario move. The state reached is not retracted and its history is empty, so
the count test `size() == retraction_count_max - 1` holds, and a non-forced
`writeRetraction` with `amount > 0` evaluates `back()` on the empty deque: the
call has no defined result, and neither has the session extended by it. -/
theorem writeRetraction_reads_back_of_empty_history :
    run Headers.std ceilingOne ceilingOneSession = some ceilingOneAfter ∧
    ceilingOneAfter.retraction_count_max = 1 ∧
    ceilingOneAfter.isRetracted = false ∧
    ceilingOneAfter.extrusion_amount_at_previous_n_retractions = [] ∧
    ((ceilingOneAfter.extrusion_amount_at_previous_n_retractions.length : Int)
      = ceilingOneAfter.retraction_count_max - 1) ∧
    ceilingOneAfter.writeRetraction retract45 false = none ∧
    run Headers.std ceilingOne (ceilingOneSession ++ [.writeRetraction retract45 false])
      = none := by
  obtain ⟨hf, hr, hmax, hh, hpos⟩ := ceilingOne_fields
  have hrun := ceilingOneSession_run
  obtain ⟨hlen, hmax2⟩ := run_history Headers.std ceilingOneSession ceilingOne ceilingOneAfter
    (by simp [hh, hmax]) hrun
  rw [hmax] at hmax2
  have hh2 : ceilingOneAfter.extrusion_amount_at_previous_n_retractions = [] := by
    rw [hmax2] at hlen
    have : ceilingOneAfter.extrusion_amount_at_previous_n_retractions.length = 0 := by omega
    exact List.length_eq_zero.mp this
  have hfp : (ceilingOne.writeRetraction_proceed retract45).flavor ≠ GCODE_FLAVOR_BFB := by
    rw [(writeRetraction_proceed_frame ceilingOne retract45).1, hf]
    simp
  have hpp : ¬((ceilingOne.writeRetraction_proceed retract45).currentPosition.x = 10000 ∧
      (ceilingOne.writeRetraction_proceed retract45).currentPosition.y = 0 ∧
      (ceilingOne.writeRetraction_proceed retract45).currentPosition.z = 0) := by
    rw [(writeRetraction_proceed_fields ceilingOne retract45).2.2.2.2, hpos]
    simp
  have hr2 : ceilingOneAfter.isRetracted = false :=
    (writeMove_extruding_flags Headers.std _ 10000 0 0 50 (3 / 100) hfp (by norm_num) hpp).1
  have hf2 : ceilingOneAfter.flavor ≠ GCODE_FLAVOR_BFB := by
    unfold ceilingOneAfter
    rw [(writeMove_frame Headers.std _ 10000 0 0 50 (3 / 100)).1]
    exact hfp
  have hnone : ceilingOneAfter.writeRetraction retract45 false = none :=
    writeRetraction_undefined_of_empty _ _ hf2 hr2 (by norm_num [retract45]) hmax2 hh2
  refine ⟨hrun, hmax2, hr2, hh2, by simp [hh2, hmax2], hnone, ?_⟩
  have h : ceilingOne.writeRetraction retract45 true
      = some (ceilingOne.writeRetraction_proceed retract45) :=
    writeRetraction_forced _ _ (by simp [hf]) hr (by norm_num [retract45])
  have hnone2 : (ceilingOne.writeRetraction_proceed retract45).writeMove Headers.std 10000 0 0
      50 (3 / 100) = ceilingOneAfter := rfl
  simp [run, step, h, ceilingOneSession, hnone2, hnone]

/-! ### Rounding to binary64 -/

theorem Int_log_two_eq (v : ℚ) (e : Int) (hlo : (2 : ℚ) ^ e ≤ v) (hhi : v < (2 : ℚ) ^ (e + 1)) :
    Int.log 2 v = e := by
  have hpos : 0 < v := lt_of_lt_of_le (by positivity) hlo
  have h1 : e ≤ Int.log 2 v := by
    have := (Int.zpow_le_iff_le_log (b := 2) (by norm_num) hpos (x := e)).1
      (by simpa using hlo)
    exact this
  have h2 : Int.log 2 v < e + 1 := by
    have := (Int.lt_zpow_iff_log_lt (b := 2) (by norm_num) hpos (x := e + 1)).1
      (by simpa using hhi)
    exact this
  omega

theorem binary64_eq (v : ℚ) (e n : Int) (hlo : (2 : ℚ) ^ e ≤ |v|)
    (hhi : |v| < (2 : ℚ) ^ (e + 1)) (hn : roundHalfEven (v / 2 ^ (e - 52)) = n) :
    binary64 v = n * 2 ^ (e - 52) := by
  have hv : v ≠ 0 := by
    intro h
    rw [h, abs_zero] at hlo
    exact absurd hlo (not_le.mpr (by positivity))
  unfold binary64
  rw [if_neg hv, Int_log_two_eq |v| e hlo hhi, hn]

theorem roundHalfEven_intCast (n : Int) : roundHalfEven (n : ℚ) = n := by
  unfold roundHalfEven
  simp

theorem roundHalfEven_of_floor (q : ℚ) (f : Int) (hf : ⌊q⌋ = f) :
    roundHalfEven q =
      if q - f < 1 / 2 then f else if 1 / 2 < q - f then f + 1
      else if f % 2 = 0 then f else f + 1 := by
  unfold roundHalfEven
  rw [hf]

theorem binary64_seven_tenths :
    binary64 (7 / 10) = 3152519739159347 / 4503599627370496 := by
  have hr : roundHalfEven ((7 / 10 : ℚ) / 2 ^ ((-1 : Int) - 52)) = 6305039478318694 := by
    rw [roundHalfEven_of_floor _ 6305039478318694 (by
      rw [Int.floor_eq_iff]
      norm_num)]
    norm_num
  rw [binary64_eq (7 / 10) (-1) 6305039478318694 (by norm_num [abs_of_pos])
    (by norm_num [abs_of_pos]) hr]
  norm_num

theorem binary64_one_tenth :
    binary64 (1 / 10) = 3602879701896397 / 36028797018963968 := by
  have hr : roundHalfEven ((1 / 10 : ℚ) / 2 ^ ((-4 : Int) - 52)) = 7205759403792794 := by
    rw [roundHalfEven_of_floor _ 7205759403792793 (by
      rw [Int.floor_eq_iff]
      norm_num)]
    norm_num
  rw [binary64_eq (1 / 10) (-4) 7205759403792794 (by norm_num [abs_of_pos])
    (by norm_num [abs_of_pos]) hr]
  norm_num

/-- The double sum 0.7 + 0.1 is 0.7999999999999999, one unit in the last place
below the double nearest 0.8. -/
theorem binary64_edge_sum :
    binary64 (3152519739159347 / 4503599627370496 + 3602879701896397 / 36028797018963968)
      = 7205759403792793 / 9007199254740992 := by
  have hr : roundHalfEven ((3152519739159347 / 4503599627370496
      + 3602879701896397 / 36028797018963968 : ℚ) / 2 ^ ((-1 : Int) - 52))
      = 7205759403792793 := by
    rw [roundHalfEven_of_floor _ 7205759403792793 (by
      rw [Int.floor_eq_iff]
      norm_num)]
    norm_num
  rw [binary64_eq _ (-1) 7205759403792793 (by norm_num [abs_of_pos])
    (by norm_num [abs_of_pos]) hr]
  norm_num

/-- The double difference 0.7 - 0.7999999999999999 is exact. -/
theorem binary64_edge_difference :
    binary64 (3152519739159347 / 4503599627370496 - 7205759403792793 / 9007199254740992)
      = -900719925474099 / 9007199254740992 := by
  have hv : (3152519739159347 / 4503599627370496 - 7205759403792793 / 9007199254740992 : ℚ)
      = -900719925474099 / 9007199254740992 := by norm_num
  rw [hv]
  have hr : roundHalfEven ((-900719925474099 / 9007199254740992 : ℚ) / 2 ^ ((-4 : Int) - 52))
      = -7205759403792792 := by
    rw [roundHalfEven_of_floor _ (-7205759403792792) (by
      rw [Int.floor_eq_iff]
      norm_num)]
    norm_num
  rw [binary64_eq _ (-4) (-7205759403792792) (by norm_num [abs_of_neg])
    (by norm_num [abs_of_neg]) hr]
  norm_num

/-- The double sum of that difference and 0.1 is exact, and positive. -/
theorem binary64_edge_after :
    binary64 (-900719925474099 / 9007199254740992 + 3602879701896397 / 36028797018963968)
      = 1 / 36028797018963968 := by
  have hv : (-900719925474099 / 9007199254740992 + 3602879701896397 / 36028797018963968 : ℚ)
      = 1 / 36028797018963968 := by norm_num
  rw [hv]
  have hr : roundHalfEven ((1 / 36028797018963968 : ℚ) / 2 ^ ((-55 : Int) - 52))
      = 4503599627370496 := by
    rw [roundHalfEven_of_floor _ 4503599627370496 (by
      rw [Int.floor_eq_iff]
      norm_num)]
    norm_num
  rw [binary64_eq _ (-55) 4503599627370496 (by norm_num [abs_of_pos])
    (by norm_num [abs_of_pos]) hr]
  norm_num

theorem windowEdge_fields :
    windowEdge.flavor = GCODE_FLAVOR_REPRAP ∧ windowEdge.isRetracted = false ∧
    windowEdge.retraction_count_max = 2 ∧
    windowEdge.retraction_extrusion_window = 3602879701896397 / 36028797018963968 ∧
    windowEdge.extrusion_amount = 7205759403792793 / 9007199254740992 ∧
    windowEdge.extrusion_amount_at_previous_n_retractions
      = [3152519739159347 / 4503599627370496] := by
  refine ⟨?_, ?_, ?_, ?_, ?_, ?_⟩
  · simp [windowEdge, reprapScenario, GCodeExport.GCodeExport, setFlavor, setFilamentDiameter,
      setIsMetalPrinting, setRetractionSettings]
  · simp [windowEdge, reprapScenario, GCodeExport.GCodeExport, setFlavor, setFilamentDiameter,
      setIsMetalPrinting, setRetractionSettings]
  · simp [windowEdge, setRetractionSettings]
  · simp only [windowEdge, binary64_one_tenth]
  · simp only [windowEdge, binary64_one_tenth, binary64_seven_tenths, binary64_edge_sum]
  · simp only [windowEdge, binary64_seven_tenths]

/-! ### The window test in double arithmetic -/

theorem writeRetraction_proceed_binary64_isRetracted (s : GCodeExport)
    (config : RetractionConfig) :
    (s.writeRetraction_proceed_binary64 config).isRetracted = true := by
  unfold writeRetraction_proceed_binary64
  simp

theorem writeRetraction_proceed_binary64_ne (s : GCodeExport) (config : RetractionConfig)
    (hr : s.isRetracted = false) : s.writeRetraction_proceed_binary64 config ≠ s := by
  intro h
  have h1 := writeRetraction_proceed_binary64_isRetracted s config
  rw [h, hr] at h1
  exact Bool.noConfusion h1

theorem writeRetraction_binary64_guarded (s : GCodeExport) (config : RetractionConfig)
    (force : Bool)
    (h : s.flavor = GCODE_FLAVOR_BFB ∨ s.isRetracted = true ∨ config.amount ≤ 0) :
    s.writeRetraction_binary64 config force = some s := by
  unfold writeRetraction_binary64
  rcases h with h | h | h
  · rw [if_pos h]
  · split_ifs <;> rfl
  · split_ifs <;> rfl

theorem writeRetraction_binary64_of_back (s : GCodeExport) (config : RetractionConfig)
    (force : Bool) (back : ℚ) (hf : s.flavor ≠ GCODE_FLAVOR_BFB) (hr : s.isRetracted = false)
    (ha : 0 < config.amount)
    (hb : s.extrusion_amount_at_previous_n_retractions.getLast? = some back) :
    s.writeRetraction_binary64 config force =
      if force = false ∧ 0 < s.retraction_count_max ∧
          (s.extrusion_amount_at_previous_n_retractions.length : Int)
            = s.retraction_count_max - 1 ∧
          s.extrusion_amount < binary64 (back + s.retraction_extrusion_window) then some s
      else some (s.writeRetraction_proceed_binary64 config) := by
  unfold writeRetraction_binary64
  rw [if_neg hf, if_neg (by simp [hr]), if_neg (not_le.mpr ha), hb]
  by_cases h1 : force = false ∧ 0 < s.retraction_count_max ∧
      (s.extrusion_amount_at_previous_n_retractions.length : Int) = s.retraction_count_max - 1
  · by_cases h2 : s.extrusion_amount < binary64 (back + s.retraction_extrusion_window)
    · simp [h1, h2]
    · simp [h1, h2]
  · have h3 : ¬((!force) = true ∧ 0 < s.retraction_count_max ∧
        (s.extrusion_amount_at_previous_n_retractions.length : Int)
          = s.retraction_count_max - 1) := by
      simpa using h1
    have h4 : ¬(force = false ∧ 0 < s.retraction_count_max ∧
        (s.extrusion_amount_at_previous_n_retractions.length : Int)
          = s.retraction_count_max - 1 ∧
        s.extrusion_amount < binary64 (back + s.retraction_extrusion_window)) :=
      fun h => h1 ⟨h.1, h.2.1, h.2.2.1⟩
    rw [if_neg h3, if_neg h4]

/-- In double arithmetic a non-forced request past the three guards is skipped
exactly when the window test on the rounded sum holds. -/
theorem writeRetraction_binary64_eq_self_iff (s : GCodeExport) (config : RetractionConfig)
    (hf : s.flavor ≠ GCODE_FLAVOR_BFB) (hr : s.isRetracted = false) (ha : 0 < config.amount) :
    s.writeRetraction_binary64 config false = some s ↔
      (0 < s.retraction_count_max ∧
        (s.extrusion_amount_at_previous_n_retractions.length : Int)
          = s.retraction_count_max - 1 ∧
        ∃ back, s.extrusion_amount_at_previous_n_retractions.getLast? = some back ∧
          s.extrusion_amount < binary64 (back + s.retraction_extrusion_window)) := by
  have hne := writeRetraction_proceed_binary64_ne s config hr
  cases hb : s.extrusion_amount_at_previous_n_retractions.getLast? with
  | none =>
    unfold writeRetraction_binary64
    rw [if_neg hf, if_neg (by simp [hr]), if_neg (not_le.mpr ha), hb]
    by_cases h1 : 0 < s.retraction_count_max ∧
        (s.extrusion_amount_at_previous_n_retractions.length : Int) = s.retraction_count_max - 1
    · simp [h1]
    · have h4 : ¬((!false) = true ∧ 0 < s.retraction_count_max ∧
          (s.extrusion_amount_at_previous_n_retractions.length : Int)
            = s.retraction_count_max - 1) := by
        simpa using h1
      rw [if_neg h4]
      simp [hne]
  | some back =>
    rw [writeRetraction_binary64_of_back s config false back hf hr ha hb]
    by_cases h1 : 0 < s.retraction_count_max ∧
        (s.extrusion_amount_at_previous_n_retractions.length : Int)
          = s.retraction_count_max - 1 ∧
        s.extrusion_amount < binary64 (back + s.retraction_extrusion_window)
    · simp [h1]
    · have h2 : ¬(false = false ∧ 0 < s.retraction_count_max ∧
          (s.extrusion_amount_at_previous_n_retractions.length : Int)
            = s.retraction_count_max - 1 ∧
          s.extrusion_amount < binary64 (back + s.retraction_extrusion_window)) :=
        fun h => h1 h.2
      rw [if_neg h2]
      simp only [Option.some.injEq, hne, false_iff]
      rintro ⟨h3, h4, b, hb2, h5⟩
      cases hb2
      exact h1 ⟨h3, h4, h5⟩

theorem resetExtrusionValue_binary64_fields (s : GCodeExport) :
    s.resetExtrusionValue_binary64.flavor = s.flavor ∧
    s.resetExtrusionValue_binary64.isRetracted = s.isRetracted ∧
    s.resetExtrusionValue_binary64.retraction_count_max = s.retraction_count_max ∧
    s.resetExtrusionValue_binary64.retraction_extrusion_window
      = s.retraction_extrusion_window := by
  unfold resetExtrusionValue_binary64
  split_ifs <;> simp

theorem resetExtrusionValue_binary64_of_guard (s : GCodeExport)
    (h : s.extrusion_amount ≠ 0 ∧ s.flavor ≠ GCODE_FLAVOR_MAKERBOT ∧ s.flavor ≠ GCODE_FLAVOR_BFB) :
    s.resetExtrusionValue_binary64.extrusion_amount = 0 ∧
    s.resetExtrusionValue_binary64.extrusion_amount_at_previous_n_retractions
      = s.extrusion_amount_at_previous_n_retractions.map
          (fun a => binary64 (a - s.extrusion_amount)) := by
  simp only [resetExtrusionValue_binary64, if_pos h]
  exact ⟨trivial, trivial⟩

theorem resetExtrusionValue_binary64_of_not_guard (s : GCodeExport)
    (h : ¬(s.extrusion_amount ≠ 0 ∧ s.flavor ≠ GCODE_FLAVOR_MAKERBOT ∧
      s.flavor ≠ GCODE_FLAVOR_BFB)) :
    s.resetExtrusionValue_binary64 = s := by
  simp only [resetExtrusionValue_binary64, if_neg h]

/-- Where the subtraction of the reset and the two additions of the window
test are exact in double arithmetic, the reset does not change the outcome of
the window test. -/
theorem resetExtrusionValue_binary64_window (s : GCodeExport) (config : RetractionConfig)
    (hx : ∀ back, s.extrusion_amount_at_previous_n_retractions.getLast? = some back →
      binary64 (back - s.extrusion_amount) = back - s.extrusion_amount ∧
      binary64 (back + s.retraction_extrusion_window) = back + s.retraction_extrusion_window ∧
      binary64 (back - s.extrusion_amount + s.retraction_extrusion_window)
        = back - s.extrusion_amount + s.retraction_extrusion_window) :
    (s.resetExtrusionValue_binary64.writeRetraction_binary64 config false
        = some s.resetExtrusionValue_binary64 ↔
      s.writeRetraction_binary64 config false = some s) := by
  by_cases hg : s.extrusion_amount ≠ 0 ∧ s.flavor ≠ GCODE_FLAVOR_MAKERBOT ∧
      s.flavor ≠ GCODE_FLAVOR_BFB
  · obtain ⟨hfl, hre, hmax, hw⟩ := resetExtrusionValue_binary64_fields s
    obtain ⟨hea, hh⟩ := resetExtrusionValue_binary64_of_guard s hg
    by_cases hn : s.isRetracted = true ∨ config.amount ≤ 0
    · have h1 := writeRetraction_binary64_guarded s config false (Or.inr hn)
      have h2 := writeRetraction_binary64_guarded s.resetExtrusionValue_binary64 config false
        (Or.inr (by simpa [hre] using hn))
      simp [h1, h2]
    · have hr : s.isRetracted = false := by
        cases h : s.isRetracted
        · rfl
        · exact absurd (Or.inl h) hn
      have ha : 0 < config.amount := not_le.mp (fun h => hn (Or.inr h))
      rw [writeRetraction_binary64_eq_self_iff s config hg.2.2 hr ha,
        writeRetraction_binary64_eq_self_iff s.resetExtrusionValue_binary64 config
          (by simpa [hfl] using hg.2.2) (by simpa [hre] using hr) ha]
      simp only [hmax, hw, hea, hh, List.length_map, List.getLast?_map]
      constructor
      · rintro ⟨h1, h2, b, hb, h3⟩
        cases hl : s.extrusion_amount_at_previous_n_retractions.getLast? with
        | none => simp [hl] at hb
        | some back =>
          simp only [hl, Option.map_some', Option.some.injEq] at hb
          subst hb
          obtain ⟨e1, e2, e3⟩ := hx back hl
          rw [e1, e3] at h3
          exact ⟨h1, h2, back, rfl, by rw [e2]; linarith⟩
      · rintro ⟨h1, h2, back, hb, h3⟩
        obtain ⟨e1, e2, e3⟩ := hx back hb
        rw [e2] at h3
        exact ⟨h1, h2, binary64 (back - s.extrusion_amount), by simp [hb],
          by rw [e1, e3]; linarith⟩
  · rw [resetExtrusionValue_binary64_of_not_guard s hg]

/-- C18, amended to say where the equivalence holds. For every state (so for
every flavor other than Makerbot and BFB): in exact arithmetic the differences
`extrusion_amount - h` over the history entries `h` are the same after
`resetExtrusionValue` as before it, and a non-forced `writeRetraction` issued
right after the reset is skipped if and only if the same request issued right
before the reset is skipped; in the double arithmetic of the program the same
equivalence holds whenever the subtraction `back - extrusion_amount` of the
reset and the additions `back + window` and `(back - extrusion_amount) +
window` of the two window tests are exact for the oldest history entry `back`
(`hx`). Where one of them rounds, the two tests can differ. -/
theorem resetExtrusionValue_window_test (s : GCodeExport) (config : RetractionConfig) :
    s.resetExtrusionValue.extrusion_amount_at_previous_n_retractions.map
        (fun h => s.resetExtrusionValue.extrusion_amount - h)
      = s.extrusion_amount_at_previous_n_retractions.map (fun h => s.extrusion_amount - h) ∧
    (s.resetExtrusionValue.writeRetraction config false = some s.resetExtrusionValue ↔
      s.writeRetraction config false = some s) ∧
    ((∀ back, s.extrusion_amount_at_previous_n_retractions.getLast? = some back →
        binary64 (back - s.extrusion_amount) = back - s.extrusion_amount ∧
        binary64 (back + s.retraction_extrusion_window)
          = back + s.retraction_extrusion_window ∧
        binary64 (back - s.extrusion_amount + s.retraction_extrusion_window)
          = back - s.extrusion_amount + s.retraction_extrusion_window) →
      (s.resetExtrusionValue_binary64.writeRetraction_binary64 config false
          = some s.resetExtrusionValue_binary64 ↔
        s.writeRetraction_binary64 config false = some s)) :=
  ⟨(resetExtrusionValue_window_exact s config).1, (resetExtrusionValue_window_exact s config).2,
    resetExtrusionValue_binary64_window s config⟩

theorem windowExact_fields :
    windowExact.flavor = GCODE_FLAVOR_REPRAP ∧ windowExact.isRetracted = false ∧
    windowExact.retraction_count_max = 2 ∧
    windowExact.retraction_extrusion_window = 1 ∧
    windowExact.extrusion_amount = 1 ∧
    windowExact.extrusion_amount_at_previous_n_retractions = [1 / 2] := by
  refine ⟨?_, ?_, ?_, ?_, ?_, ?_⟩
  · simp [windowExact, reprapScenario, GCodeExport.GCodeExport, setFlavor, setFilamentDiameter,
      setIsMetalPrinting, setRetractionSettings]
  · simp [windowExact, reprapScenario, GCodeExport.GCodeExport, setFlavor, setFilamentDiameter,
      setIsMetalPrinting, setRetractionSettings]
  · simp [windowExact, setRetractionSettings]
  · simp [windowExact, setRetractionSettings, INT2MM]
  · simp [windowExact]
  · simp [windowExact]

theorem binary64_exact_values :
    binary64 (1 / 2 - 1) = 1 / 2 - 1 ∧ binary64 (1 / 2 + 1) = 1 / 2 + 1 ∧
    binary64 (1 / 2 - 1 + 1) = 1 / 2 - 1 + 1 := by
  refine ⟨?_, ?_, ?_⟩
  · have hv : (1 / 2 - 1 : ℚ) = -1 / 2 := by norm_num
    rw [hv]
    have hr : roundHalfEven ((-1 / 2 : ℚ) / 2 ^ ((-1 : Int) - 52)) = -4503599627370496 := by
      rw [roundHalfEven_of_floor _ (-4503599627370496) (by
        rw [Int.floor_eq_iff]
        norm_num)]
      norm_num
    rw [binary64_eq _ (-1) (-4503599627370496) (by norm_num [abs_of_neg])
      (by norm_num [abs_of_neg]) hr]
    norm_num
  · have hv : (1 / 2 + 1 : ℚ) = 3 / 2 := by norm_num
    rw [hv]
    have hr : roundHalfEven ((3 / 2 : ℚ) / 2 ^ ((0 : Int) - 52)) = 6755399441055744 := by
      rw [roundHalfEven_of_floor _ 6755399441055744 (by
        rw [Int.floor_eq_iff]
        norm_num)]
      norm_num
    rw [binary64_eq _ 0 6755399441055744 (by norm_num [abs_of_pos])
      (by norm_num [abs_of_pos]) hr]
    norm_num
  · have hv : (1 / 2 - 1 + 1 : ℚ) = 1 / 2 := by norm_num
    rw [hv]
    have hr : roundHalfEven ((1 / 2 : ℚ) / 2 ^ ((-1 : Int) - 52)) = 4503599627370496 := by
      rw [roundHalfEven_of_floor _ 4503599627370496 (by
        rw [Int.floor_eq_iff]
        norm_num)]
      norm_num
    rw [binary64_eq _ (-1) 4503599627370496 (by norm_num [abs_of_pos])
      (by norm_num [abs_of_pos]) hr]
    norm_num

theorem windowExact_exact :
    ∀ back, windowExact.extrusion_amount_at_previous_n_retractions.getLast? = some back →
      binary64 (back - windowExact.extrusion_amount) = back - windowExact.extrusion_amount ∧
      binary64 (back + windowExact.retraction_extrusion_window)
        = back + windowExact.retraction_extrusion_window ∧
      binary64 (back - windowExact.extrusion_amount + windowExact.retraction_extrusion_window)
        = back - windowExact.extrusion_amount + windowExact.retraction_extrusion_window := by
  obtain ⟨-, -, -, hw, hea, hh⟩ := windowExact_fields
  intro back hb
  rw [hh] at hb
  simp only [List.getLast?_singleton, Option.some.injEq] at hb
  subst hb
  rw [hw, hea]
  exact binary64_exact_values

theorem windowExact_suppressed :
    windowExact.writeRetraction_binary64 retract45 false = some windowExact := by
  obtain ⟨hf, hr, hmax, hw, hea, hh⟩ := windowExact_fields
  rw [writeRetraction_binary64_eq_self_iff windowExact retract45 (by simp [hf]) hr
    (by norm_num [retract45])]
  refine ⟨by simp [hmax], by simp [hmax, hh], 1 / 2, by simp [hh], ?_⟩
  rw [hw, hea, binary64_exact_values.2.1]
  norm_num

/-- Witness of C18 (amended): with the history entry 0.5, `extrusion_amount`
1 and a window of 1 the three operations are exact in double arithmetic, and
the request is skipped before the reset, so also after it. -/
theorem resetExtrusionValue_window_test_witness :
    (∀ back, windowExact.extrusion_amount_at_previous_n_retractions.getLast? = some back →
      binary64 (back - windowExact.extrusion_amount) = back - windowExact.extrusion_amount ∧
      binary64 (back + windowExact.retraction_extrusion_window)
        = back + windowExact.retraction_extrusion_window ∧
      binary64 (back - windowExact.extrusion_amount + windowExact.retraction_extrusion_window)
        = back - windowExact.extrusion_amount + windowExact.retraction_extrusion_window) ∧
    windowExact.writeRetraction_binary64 retract45 false = some windowExact ∧
    windowExact.resetExtrusionValue_binary64.writeRetraction_binary64 retract45 false
      = some windowExact.resetExtrusionValue_binary64 :=
  ⟨windowExact_exact, windowExact_suppressed,
    ((resetExtrusionValue_window_test windowExact retract45).2.2 windowExact_exact).2
      windowExact_suppressed⟩

/-- C18 fails as stated, in the double arithmetic of the program: in the state
`windowEdge` (window 0.1, oldest entry 0.7, `extrusion_amount` 0.7 + 0.1 =
0.7999999999999999) a non-forced `writeRetraction` is carried out, because
`back + window` rounds to `extrusion_amount` itself and the test `<` fails;
after `resetExtrusionValue` the entry is -0.09999999999999998, `back + window`
is 2⁻⁵⁵ > 0 = `extrusion_amount`, and the same request is skipped. -/
theorem resetExtrusionValue_binary64_flips_window_test :
    windowEdge.flavor = GCODE_FLAVOR_REPRAP ∧
    windowEdge.extrusion_amount = 7205759403792793 / 9007199254740992 ∧
    windowEdge.extrusion_amount_at_previous_n_retractions
      = [3152519739159347 / 4503599627370496] ∧
    windowEdge.retraction_extrusion_window = 3602879701896397 / 36028797018963968 ∧
    windowEdge.writeRetraction_binary64 retract45 false
      = some (windowEdge.writeRetraction_proceed_binary64 retract45) ∧
    windowEdge.writeRetraction_binary64 retract45 false ≠ some windowEdge ∧
    windowEdge.resetExtrusionValue_binary64.extrusion_amount = 0 ∧
    windowEdge.resetExtrusionValue_binary64.extrusion_amount_at_previous_n_retractions
      = [-900719925474099 / 9007199254740992] ∧
    windowEdge.resetExtrusionValue_binary64.writeRetraction_binary64 retract45 false
      = some windowEdge.resetExtrusionValue_binary64 := by
  obtain ⟨hf, hr, hmax, hw, hea, hh⟩ := windowEdge_fields
  have ha : 0 < retract45.amount := by norm_num [retract45]
  have hg : windowEdge.extrusion_amount ≠ 0 ∧ windowEdge.flavor ≠ GCODE_FLAVOR_MAKERBOT ∧
      windowEdge.flavor ≠ GCODE_FLAVOR_BFB := by
    refine ⟨by rw [hea]; norm_num, by simp [hf], by simp [hf]⟩
  obtain ⟨hfl2, hre2, hmax2, hw2⟩ := resetExtrusionValue_binary64_fields windowEdge
  obtain ⟨hea2, hh2⟩ := resetExtrusionValue_binary64_of_guard windowEdge hg
  have hh3 : windowEdge.resetExtrusionValue_binary64.extrusion_amount_at_previous_n_retractions
      = [-900719925474099 / 9007199254740992] := by
    rw [hh2, hh, hea]
    simp only [List.map_cons, List.map_nil, binary64_edge_difference]
  have hbefore : windowEdge.writeRetraction_binary64 retract45 false
      = some (windowEdge.writeRetraction_proceed_binary64 retract45) := by
    rw [writeRetraction_binary64_of_back windowEdge retract45 false
      (3152519739159347 / 4503599627370496) (by simp [hf]) hr ha (by rw [hh]; rfl)]
    rw [if_neg]
    rintro ⟨-, -, -, h⟩
    rw [hw, hea, binary64_edge_sum] at h
    exact lt_irrefl _ h
  have hne : windowEdge.writeRetraction_binary64 retract45 false ≠ some windowEdge := by
    rw [hbefore]
    intro h
    exact writeRetraction_proceed_binary64_ne windowEdge retract45 hr (Option.some.inj h)
  refine ⟨hf, hea, hh, hw, hbefore, hne, hea2, hh3, ?_⟩
  rw [writeRetraction_binary64_eq_self_iff _ retract45 (by rw [hfl2, hf]; simp)
    (by rw [hre2]; exact hr) ha]
  refine ⟨by rw [hmax2, hmax]; norm_num, by rw [hmax2, hmax, hh3]; simp,
    -900719925474099 / 9007199254740992, by rw [hh3]; rfl, ?_⟩
  rw [hea2, hw2, hw, binary64_edge_after]
  norm_num

end cura
